import Mathlib

/-!
# Button driver (BUTTON.c / BUTTON.h): shallow embedding and verified properties

The C module keeps three static objects: the pool `buttonPool[BUTTON_MAX]`, the
pointer array `buttons[BUTTON_MAX]` and the counter `buttonCount`.  They are
modelled by the structure `Registry`.  A `Button_t*` is modelled by `Ptr`:
`Ptr.slot k` is the address `&buttonPool[k]`, `Ptr.other a` the address of a
`Button_t` object that lives outside the pool, `Ptr.null` is `NULL`.

Machine integers are natural numbers.  The unsigned 32-bit difference `now - t` is
modelled by `sub32`, the `uint8_t` counter `buttonCount` is incremented and decremented
modulo 256, and arguments of type `uint8_t` / `uint16_t` are reduced at the call.
Calls of the user handler are not executed: every call `btn->Handler(btn, type)` is
recorded, in order, as an emitted event; a handler does not touch the module's storage.
The counted `for` loops are structural recursions on the number of iterations left.
-/

namespace Button

/-! ## BUTTON.h -/

/-- Capacity of the pool: `#define BUTTON_MAX 10`. -/
def BUTTON_MAX : Nat := 10

/-- Enumerator `BUTTON_Mode_Toggle = 0` of `ButtonMode_t`. -/
abbrev BUTTON_Mode_Toggle : Nat := 0
/-- Enumerator `BUTTON_Mode_Hold` of `ButtonMode_t`. -/
abbrev BUTTON_Mode_Hold : Nat := 1

/-- The enumeration `ButtonPressType_t`, the classified event passed to a handler. -/
inductive ButtonPressType_t
  | BUTTON_PressType_OnPressed
  | BUTTON_PressType_Normal
  | BUTTON_PressType_Long
  | BUTTON_PressType_VeryLong
  | BUTTON_PressType_Double
  | BUTTON_PressType_Repeat
  | BUTTON_PressType_RepeatOnce
  deriving DecidableEq, Repr

open ButtonPressType_t

/-- Enumerator `BUTTON_STATE_START = 0` of `ButtonState_t`. -/
abbrev BUTTON_STATE_START : Nat := 0
/-- Enumerator `BUTTON_STATE_DEBOUNCE` of `ButtonState_t`. -/
abbrev BUTTON_STATE_DEBOUNCE : Nat := 1
/-- Enumerator `BUTTON_STATE_PRESSED` of `ButtonState_t`. -/
abbrev BUTTON_STATE_PRESSED : Nat := 2

/-- A handler function pointer: `NULL`, the weak default `BUTTON_Callback`, or a user function. -/
inductive HandlerPtr
  | null
  | BUTTON_Callback
  | user (id : Nat)
  deriving DecidableEq, Repr

/-- A value of type `Button_t*`. -/
inductive Ptr
  | null
  | slot (k : Nat)
  | other (a : Nat)
  deriving DecidableEq, Repr

/-- The struct `Button_t`; the enum fields `State` and `Mode` hold their integer value. -/
structure Button_t where
  GPIOx : Nat
  GPIO_Pin : Nat
  ActiveState : Nat
  State : Nat
  LastStatus : Nat
  Mode : Nat
  StartTime : Nat
  LastPressDuration : Nat
  FirstClickReleaseTime : Nat
  FirstClickDone : Nat
  DebounceTime : Nat
  NormalTime : Nat
  LongTime : Nat
  VeryLongTime : Nat
  DoubleClickTime : Nat
  RepeatDelay : Nat
  RepeatInterval : Nat
  LastRepeatTime : Nat
  RepeatStarted : Nat
  Handler : HandlerPtr
  deriving DecidableEq, Repr

/-- A zero-initialised `Button_t`, the content of static storage at start-up. -/
def zeroButton : Button_t :=
  { GPIOx := 0, GPIO_Pin := 0, ActiveState := 0, State := 0, LastStatus := 0, Mode := 0,
    StartTime := 0, LastPressDuration := 0, FirstClickReleaseTime := 0, FirstClickDone := 0,
    DebounceTime := 0, NormalTime := 0, LongTime := 0, VeryLongTime := 0, DoubleClickTime := 0,
    RepeatDelay := 0, RepeatInterval := 0, LastRepeatTime := 0, RepeatStarted := 0,
    Handler := HandlerPtr.null }

/-- Unsigned 32-bit subtraction, the value of `now - t` on `uint32_t` operands. -/
def sub32 (a b : Nat) : Nat :=
  (a % 4294967296 + 4294967296 - b % 4294967296) % 4294967296

/-! ## BUTTON.c: per-button body of `BUTTON_Update` -/

/-- The function `BUTTON_Read`; `idr` gives the input data register of each port. -/
def BUTTON_Read (idr : Nat → Nat) (btn : Button_t) : Bool :=
  decide ((if (idr btn.GPIOx) &&& btn.GPIO_Pin ≠ 0 then 1 else 0) = btn.ActiveState)

/-- The block `case BUTTON_STATE_START:` of `BUTTON_Update` (lines 131-137): the new
content of `*btn` and the events passed to the handler, in order. -/
def caseStart (now : Nat) (currentStatus : Bool) (btn : Button_t) :
    Button_t × List ButtonPressType_t :=
  if currentStatus then
    ({ btn with StartTime := now, State := BUTTON_STATE_DEBOUNCE }, [])
  else (btn, [])

/-- The block `case BUTTON_STATE_DEBOUNCE:` of `BUTTON_Update` (lines 139-155). -/
def caseDebounce (now : Nat) (currentStatus : Bool) (btn : Button_t) :
    Button_t × List ButtonPressType_t :=
  if sub32 now btn.StartTime ≥ btn.DebounceTime then
    if currentStatus then
      ({ btn with State := BUTTON_STATE_PRESSED, LastRepeatTime := now },
        if btn.Mode = BUTTON_Mode_Hold ∧ btn.Handler ≠ HandlerPtr.null
        then [BUTTON_PressType_RepeatOnce] else [])
    else ({ btn with State := BUTTON_STATE_START }, [])
  else (btn, [])

/-- The Toggle-mode statement of the release branch (lines 163-189), with
`pressDuration = now - btn->StartTime` of line 160. -/
def releaseToggle (now : Nat) (btn : Button_t) : Button_t × List ButtonPressType_t :=
  if btn.Mode = BUTTON_Mode_Toggle ∧ btn.Handler ≠ HandlerPtr.null then
    if btn.FirstClickDone ≠ 0 then
      if sub32 now btn.FirstClickReleaseTime ≤ btn.DoubleClickTime then
        ({ btn with FirstClickDone := 0 }, [BUTTON_PressType_Double])
      else
        ({ btn with FirstClickDone := 1, FirstClickReleaseTime := now,
                    LastPressDuration := sub32 now btn.StartTime },
         [if btn.LastPressDuration ≥ btn.VeryLongTime then BUTTON_PressType_VeryLong
          else if btn.LastPressDuration ≥ btn.LongTime then BUTTON_PressType_Long
          else if btn.LastPressDuration ≥ btn.NormalTime then BUTTON_PressType_Normal
          else BUTTON_PressType_OnPressed])
    else
      ({ btn with FirstClickDone := 1, FirstClickReleaseTime := now,
                  LastPressDuration := sub32 now btn.StartTime }, [])
  else (btn, [])

/-- The Hold-mode repeat statement of the pressed branch (lines 196-204). -/
def repeatHold (now : Nat) (btn : Button_t) : Button_t × List ButtonPressType_t :=
  if btn.RepeatStarted = 0 ∧ sub32 now btn.StartTime ≥ btn.RepeatDelay then
    ({ btn with RepeatStarted := 1, LastRepeatTime := now },
      if btn.Handler ≠ HandlerPtr.null then [BUTTON_PressType_Repeat] else [])
  else if btn.RepeatStarted ≠ 0 ∧ sub32 now btn.LastRepeatTime ≥ btn.RepeatInterval then
    ({ btn with LastRepeatTime := now },
      if btn.Handler ≠ HandlerPtr.null then [BUTTON_PressType_Repeat] else [])
  else (btn, [])

/-- The block `case BUTTON_STATE_PRESSED:` of `BUTTON_Update` (lines 157-206). -/
def casePressed (now : Nat) (currentStatus : Bool) (btn : Button_t) :
    Button_t × List ButtonPressType_t :=
  if currentStatus = false then
    ({ (releaseToggle now btn).1 with State := BUTTON_STATE_START, RepeatStarted := 0 },
     (releaseToggle now btn).2)
  else if btn.Mode = BUTTON_Mode_Hold then repeatHold now btn
  else (btn, [])

/-- The `switch (btn->State)` statement of `BUTTON_Update` (lines 130-212) for one button. -/
def updateSwitch (now : Nat) (currentStatus : Bool) (btn : Button_t) :
    Button_t × List ButtonPressType_t :=
  if btn.State = BUTTON_STATE_START then caseStart now currentStatus btn
  else if btn.State = BUTTON_STATE_DEBOUNCE then caseDebounce now currentStatus btn
  else if btn.State = BUTTON_STATE_PRESSED then casePressed now currentStatus btn
  else ({ btn with State := BUTTON_STATE_START }, [])

/-- The deferred double-click resolution of `BUTTON_Update` (lines 214-229) for one button. -/
def updateFlush (now : Nat) (btn : Button_t) : Button_t × List ButtonPressType_t :=
  if btn.Mode = BUTTON_Mode_Toggle ∧ btn.FirstClickDone ≠ 0 then
    if sub32 now btn.FirstClickReleaseTime > btn.DoubleClickTime then
      ({ btn with FirstClickDone := 0 },
        if btn.Handler ≠ HandlerPtr.null then
          [if btn.LastPressDuration ≥ btn.VeryLongTime then BUTTON_PressType_VeryLong
           else if btn.LastPressDuration ≥ btn.LongTime then BUTTON_PressType_Long
           else if btn.LastPressDuration ≥ btn.NormalTime then BUTTON_PressType_Normal
           else BUTTON_PressType_OnPressed]
        else [])
    else (btn, [])
  else (btn, [])

/-- The whole loop body of `BUTTON_Update` for one button, given the tick value `now` and
the value `currentStatus` returned by `BUTTON_Read`: the switch, then the deferred flush. -/
def updateButton (now : Nat) (currentStatus : Bool) (btn : Button_t) :
    Button_t × List ButtonPressType_t :=
  ((updateFlush now (updateSwitch now currentStatus btn).1).1,
   (updateSwitch now currentStatus btn).2 ++
     (updateFlush now (updateSwitch now currentStatus btn).1).2)

/-- Successive `BUTTON_Update` ticks seen by one button: each tick is the pair of the
tick value and the pin reading; the result is the final content of the button and, for
each tick, the events emitted in it. -/
def runTicks (btn : Button_t) : List (Nat × Bool) → Button_t × List (List ButtonPressType_t)
  | [] => (btn, [])
  | tick :: rest =>
    ((runTicks (updateButton tick.1 tick.2 btn).1 rest).1,
     (updateButton tick.1 tick.2 btn).2 :: (runTicks (updateButton tick.1 tick.2 btn).1 rest).2)

/-! ## BUTTON.c: registry -/

/-- The static storage of the module: `buttonPool`, `buttons` and `buttonCount`. -/
structure Registry where
  buttonPool : List Button_t
  buttons : List Ptr
  buttonCount : Nat
  deriving DecidableEq, Repr

/-- The storage at program start: zero-initialised arrays and `buttonCount = 0`. -/
def Registry.empty : Registry :=
  { buttonPool := List.replicate BUTTON_MAX zeroButton,
    buttons := List.replicate BUTTON_MAX Ptr.null,
    buttonCount := 0 }

/-- The function `ConfigureToggleMode`. -/
def ConfigureToggleMode (btn : Button_t) : Button_t :=
  { btn with Mode := BUTTON_Mode_Toggle, NormalTime := 300, LongTime := 1000,
             VeryLongTime := 3000, DoubleClickTime := 0, FirstClickDone := 0 }

/-- The function `ConfigureHoldMode`. -/
def ConfigureHoldMode (btn : Button_t) : Button_t :=
  { btn with Mode := BUTTON_Mode_Hold, RepeatDelay := 500, RepeatInterval := 200,
             RepeatStarted := 0 }

/-- The function `BUTTON_Init`: the returned pointer and the storage after the call.
The parameters of type `uint16_t` and `uint8_t` are converted at the call; `buttonCount`
is a `uint8_t`, so `buttonCount++` and `buttonCount--` are taken modulo 256. -/
def BUTTON_Init (GPIOx GPIO_Pin ActiveState mode : Nat) (Handler : HandlerPtr)
    (r : Registry) : Ptr × Registry :=
  if r.buttonCount ≥ BUTTON_MAX then (Ptr.null, r)
  else
    let k := r.buttonCount
    let btn : Button_t :=
      { r.buttonPool.getD k zeroButton with
          GPIOx := GPIOx, GPIO_Pin := GPIO_Pin % 65536, ActiveState := ActiveState % 256,
          LastStatus := 0, State := BUTTON_STATE_START, DebounceTime := 50,
          Handler := if Handler ≠ HandlerPtr.null then Handler else HandlerPtr.BUTTON_Callback }
    if mode = BUTTON_Mode_Toggle then
      (Ptr.slot k, { buttonPool := r.buttonPool.set k (ConfigureToggleMode btn),
                     buttons := r.buttons.set k (Ptr.slot k),
                     buttonCount := (k + 1) % 256 })
    else if mode = BUTTON_Mode_Hold then
      (Ptr.slot k, { buttonPool := r.buttonPool.set k (ConfigureHoldMode btn),
                     buttons := r.buttons.set k (Ptr.slot k),
                     buttonCount := (k + 1) % 256 })
    else
      (Ptr.null, { buttonPool := r.buttonPool.set k btn,
                   buttons := r.buttons.set k (Ptr.slot k),
                   buttonCount := ((k + 1) % 256 + 255) % 256 })

/-- The inner loop of `BUTTON_Deinit` (lines 91-94), started at index `j` with the given
number of iterations left: each iteration copies entry `j + 1` of both arrays to entry `j`. -/
def deinitShift (j : Nat) : Nat → Registry → Registry
  | 0, r => r
  | n + 1, r =>
    deinitShift (j + 1) n
      { r with buttons := r.buttons.set j (r.buttons.getD (j + 1) Ptr.null),
               buttonPool := r.buttonPool.set j (r.buttonPool.getD (j + 1) zeroButton) }

/-- The outer loop of `BUTTON_Deinit` (lines 89-98), at index `i` with the given number
of iterations left; on the first match it shifts, decrements `buttonCount` (a `uint8_t`,
so modulo 256) and stops. -/
def deinitSearch (btn : Ptr) (i : Nat) : Nat → Registry → Registry
  | 0, r => r
  | n + 1, r =>
    if r.buttons.getD i Ptr.null = btn then
      { deinitShift i (r.buttonCount - 1 - i) r with
          buttonCount := (r.buttonCount + 255) % 256 }
    else deinitSearch btn (i + 1) n r

/-- The function `BUTTON_Deinit`. -/
def BUTTON_Deinit (btn : Ptr) (r : Registry) : Registry :=
  if btn = Ptr.null then r else deinitSearch btn 0 r.buttonCount r

/-- A write of one pool object through a `Button_t*`: a pointer outside the pool does not
address the module's storage. -/
def Registry.store (r : Registry) (p : Ptr) (f : Button_t → Button_t) : Registry :=
  match p with
  | Ptr.slot k => { r with buttonPool := r.buttonPool.set k (f (r.buttonPool.getD k zeroButton)) }
  | _ => r

/-- A read of the object a `Button_t*` points to, for pointers into the pool. -/
def Registry.load (r : Registry) (p : Ptr) : Button_t :=
  match p with
  | Ptr.slot k => r.buttonPool.getD k zeroButton
  | _ => zeroButton

/-- The function `Set_DebounceTime`; its parameter is a `uint8_t`.  It dereferences `btn`
without a test, so the call has no defined result for `NULL`. -/
def Set_DebounceTime (btn : Ptr) (debounceTime : Nat) (r : Registry) : Option Registry :=
  if btn = Ptr.null then none
  else some (r.store btn (fun b => { b with DebounceTime := debounceTime % 256 }))

/-- The function `SetTime_Hold_mode`; its parameters are `uint16_t`. -/
def SetTime_Hold_mode (btn : Ptr) (delay interval : Nat) (r : Registry) : Registry :=
  if btn = Ptr.null then r
  else r.store btn (fun b => { b with RepeatDelay := delay % 65536,
                                      RepeatInterval := interval % 65536 })

/-- The function `SetTime_Toggle_mode`; its parameters are `uint16_t`. -/
def SetTime_Toggle_mode (btn : Ptr) (time4Double normal longer very_long : Nat)
    (r : Registry) : Registry :=
  if btn = Ptr.null then r
  else r.store btn (fun b => { b with DoubleClickTime := time4Double % 65536,
                                      NormalTime := normal % 65536,
                                      LongTime := longer % 65536,
                                      VeryLongTime := very_long % 65536 })

/-- One recorded call `btn->Handler(btn, type)`: the function called and its arguments. -/
structure Invocation where
  handler : HandlerPtr
  btn : Ptr
  type : ButtonPressType_t
  deriving DecidableEq, Repr

/-- The `for` loop of `BUTTON_Update` at index `i` with the given number of iterations
left.  Entries of `buttons` below `buttonCount` are pool addresses (only `BUTTON_Init`
and `BUTTON_Deinit` write them); another pointer value is skipped. -/
def updateLoop (now : Nat) (idr : Nat → Nat) (i : Nat) :
    Nat → Registry → Registry × List Invocation
  | 0, r => (r, [])
  | n + 1, r =>
    match r.buttons.getD i Ptr.null with
    | Ptr.slot k =>
      let btn := r.buttonPool.getD k zeroButton
      let res := updateButton now (BUTTON_Read idr btn) btn
      let rest := updateLoop now idr (i + 1) n { r with buttonPool := r.buttonPool.set k res.1 }
      (rest.1, res.2.map (fun e => Invocation.mk btn.Handler (Ptr.slot k) e) ++ rest.2)
    | _ => updateLoop now idr (i + 1) n r

/-- The function `BUTTON_Update`, for the value `now` returned by `HAL_GetTick` and the
port input registers `idr`: the storage after the call and the handler calls made. -/
def BUTTON_Update (now : Nat) (idr : Nat → Nat) (r : Registry) : Registry × List Invocation :=
  updateLoop now idr 0 r.buttonCount r

/-- The handles currently registered: the first `buttonCount` entries of `buttons`. -/
def Registry.registered (r : Registry) : List Ptr :=
  r.buttons.take r.buttonCount

/-- A call of the module's interface made by the application. -/
inductive Call
  | init (GPIOx GPIO_Pin ActiveState mode : Nat) (Handler : HandlerPtr)
  | deinit (btn : Ptr)
  | setDebounce (btn : Ptr) (debounceTime : Nat)
  | setHold (btn : Ptr) (delay interval : Nat)
  | setToggle (btn : Ptr) (time4Double normal longer very_long : Nat)
  | update (now : Nat) (idr : Nat → Nat)

/-- The storage after one call; `none` when the call has no defined result. -/
def Call.apply : Call → Registry → Option Registry
  | Call.init GPIOx GPIO_Pin ActiveState mode Handler, r =>
    some (BUTTON_Init GPIOx GPIO_Pin ActiveState mode Handler r).2
  | Call.deinit btn, r => some (BUTTON_Deinit btn r)
  | Call.setDebounce btn debounceTime, r => Set_DebounceTime btn debounceTime r
  | Call.setHold btn delay interval, r => some (SetTime_Hold_mode btn delay interval r)
  | Call.setToggle btn time4Double normal longer very_long, r =>
    some (SetTime_Toggle_mode btn time4Double normal longer very_long r)
  | Call.update now idr, r => some (BUTTON_Update now idr r).1

/-- The storage after a sequence of calls, made in order. -/
def runCalls : List Call → Registry → Option Registry
  | [], r => some r
  | c :: rest, r =>
    match c.apply r with
    | some r1 => runCalls rest r1
    | none => none

/-- A call that dereferences `NULL`: only `Set_DebounceTime` lacks the test. -/
def Call.derefsNull : Call → Bool
  | Call.setDebounce Ptr.null _ => true
  | _ => false

/-! ## Reference definitions in the words of the specification -/

/-- The duration band of the specification: VeryLong if `d ≥ very_long_ms`, else Long if
`d ≥ long_ms`, else Normal if `d ≥ normal_ms`, else OnPressed. -/
def durationBand (d normal_ms long_ms very_long_ms : Nat) : ButtonPressType_t :=
  if d ≥ very_long_ms then BUTTON_PressType_VeryLong
  else if d ≥ long_ms then BUTTON_PressType_Long
  else if d ≥ normal_ms then BUTTON_PressType_Normal
  else BUTTON_PressType_OnPressed

/-- No tick of the sequence observes a release, that is, finds the button in Pressed
while the pin reads inactive. -/
def noRelease (btn : Button_t) : List (Nat × Bool) → Bool
  | [] => true
  | tick :: rest =>
    !(decide (btn.State = BUTTON_STATE_PRESSED) && !tick.2) &&
      noRelease (updateButton tick.1 tick.2 btn).1 rest

/-! ## Concrete instances used in examples -/

/-- The storage after one `BUTTON_Init` call in Toggle mode. -/
def toggleRegistry : Registry :=
  (BUTTON_Init 1 1 0 BUTTON_Mode_Toggle (HandlerPtr.user 1) Registry.empty).2

/-- A Toggle button as `BUTTON_Init` leaves it: thresholds 300/1000/3000, gap 0. -/
def toggleButton : Button_t :=
  toggleRegistry.load (Ptr.slot 0)

/-- The same button after `SetTime_Toggle_mode(btn, 100, 300, 1000, 3000)`. -/
def toggleButtonGap100 : Button_t :=
  (SetTime_Toggle_mode (Ptr.slot 0) 100 300 1000 3000 toggleRegistry).load (Ptr.slot 0)

/-- A Hold button as `BUTTON_Init` leaves it: repeat delay 500, repeat interval 200. -/
def holdButton : Button_t :=
  (BUTTON_Init 1 1 0 BUTTON_Mode_Hold (HandlerPtr.user 2) Registry.empty).2.load (Ptr.slot 0)

/-- The Toggle button after `Set_DebounceTime(btn, 0)`. -/
def toggleButtonNoDebounce : Button_t :=
  match Set_DebounceTime (Ptr.slot 0) 0 toggleRegistry with
  | some r => r.load (Ptr.slot 0)
  | none => zeroButton

/-- Two buttons registered on pins 1 and 2 of port 1. -/
def twoButtons : Registry :=
  (BUTTON_Init 1 2 1 BUTTON_Mode_Toggle (HandlerPtr.user 2)
    (BUTTON_Init 1 1 1 BUTTON_Mode_Toggle (HandlerPtr.user 1) Registry.empty).2).2

/-- Ten buttons registered on pins 1, 2, 4, ..., 512 of port 1: a full registry. -/
def tenButtons : Registry :=
  (List.range 10).foldl
    (fun r i => (BUTTON_Init 1 (2 ^ i) 1 BUTTON_Mode_Toggle (HandlerPtr.user (i + 1)) r).2)
    Registry.empty

/-- Three buttons registered on pins 1, 2 and 4 of port 1. -/
def threeButtons : Registry :=
  (BUTTON_Init 1 4 1 BUTTON_Mode_Toggle (HandlerPtr.user 3)
    (BUTTON_Init 1 2 1 BUTTON_Mode_Toggle (HandlerPtr.user 2)
      (BUTTON_Init 1 1 1 BUTTON_Mode_Toggle (HandlerPtr.user 1) Registry.empty).2).2).2

/-- The fields of a button that `BUTTON_Update` never writes. -/
def Button_t.settings (b : Button_t) :
    Nat × Nat × Nat × Nat × HandlerPtr × Nat × Nat × Nat × Nat × Nat × Nat × Nat × Nat :=
  (b.GPIOx, b.GPIO_Pin, b.ActiveState, b.Mode, b.Handler, b.DebounceTime, b.NormalTime,
   b.LongTime, b.VeryLongTime, b.DoubleClickTime, b.RepeatDelay, b.RepeatInterval, b.LastStatus)

/-- The record of a pending first click: the flag, the release time and the duration. -/
def Button_t.pending (b : Button_t) : Nat × Nat × Nat :=
  (b.FirstClickDone, b.FirstClickReleaseTime, b.LastPressDuration)

/-- The deferred flush does not fire for this button at this tick value. -/
def noFlush (now : Nat) (b : Button_t) : Prop :=
  b.Mode = BUTTON_Mode_Toggle → b.FirstClickDone ≠ 0 →
    sub32 now b.FirstClickReleaseTime ≤ b.DoubleClickTime

/-- After a tick at time `t` of a Toggle button whose gap is 0, a click still pending was
released at `t`, and the button is in Start or has just entered Debounce at `t`. -/
def pendingAt (t : Nat) (b : Button_t) : Prop :=
  b.FirstClickDone ≠ 0 →
    b.FirstClickReleaseTime = t ∧
      (b.State = BUTTON_STATE_START ∨ (b.State = BUTTON_STATE_DEBOUNCE ∧ b.StartTime = t))

/-- The storage has the shape its C declarations give it: both arrays have `BUTTON_MAX`
entries, and `buttonCount` does not exceed `BUTTON_MAX`. -/
abbrev Registry.wellSized (r : Registry) : Prop :=
  r.buttonPool.length = BUTTON_MAX ∧ r.buttons.length = BUTTON_MAX ∧
    r.buttonCount ≤ BUTTON_MAX

/-- One registered entry stepped once, in the words of the specification: the object the
handle addresses takes one step of the per-button state machine at the tick value `now`,
and the events of that step are passed to the object's handler. -/
def stepEntry (now : Nat) (idr : Nat → Nat) (r : Registry) (p : Ptr) :
    Registry × List Invocation :=
  match p with
  | Ptr.slot _ =>
    (r.store p (fun b => (updateButton now (BUTTON_Read idr b) b).1),
     (updateButton now (BUTTON_Read idr (r.load p)) (r.load p)).2.map
       (fun e => Invocation.mk (r.load p).Handler p e))
  | _ => (r, [])

/-- The entries of a list of handles stepped once each, in list order, all with the same
tick value; the handler calls are the concatenation of the calls of the steps. -/
def stepEntries (now : Nat) (idr : Nat → Nat) : List Ptr → Registry → Registry × List Invocation
  | [], r => (r, [])
  | p :: ps, r =>
    ((stepEntries now idr ps (stepEntry now idr r p).1).1,
     (stepEntry now idr r p).2 ++ (stepEntries now idr ps (stepEntry now idr r p).1).2)

/-- The button with every stored tick value advanced by `c` on the 32-bit counter. -/
def Button_t.shiftTime (c : Nat) (b : Button_t) : Button_t :=
  { b with StartTime := (b.StartTime + c) % 4294967296,
           FirstClickReleaseTime := (b.FirstClickReleaseTime + c) % 4294967296,
           LastRepeatTime := (b.LastRepeatTime + c) % 4294967296 }

/-- The button with the two Hold-mode timings replaced, the effect of `SetTime_Hold_mode`
on the object it is given. -/
def Button_t.withHoldTiming (delay interval : Nat) (b : Button_t) : Button_t :=
  { b with RepeatDelay := delay, RepeatInterval := interval }

/-- The button with the four Toggle-mode timings replaced, the effect of
`SetTime_Toggle_mode` on the object it is given. -/
def Button_t.withToggleTiming (time4Double normal longer very_long : Nat) (b : Button_t) :
    Button_t :=
  { b with DoubleClickTime := time4Double, NormalTime := normal, LongTime := longer,
           VeryLongTime := very_long }

/-- Every tick of the sequence leaves the button in Debounce. -/
def staysDebounce (btn : Button_t) : List (Nat × Bool) → Bool
  | [] => true
  | tick :: rest =>
    decide ((updateButton tick.1 tick.2 btn).1.State = BUTTON_STATE_DEBOUNCE) &&
      staysDebounce (updateButton tick.1 tick.2 btn).1 rest

/-- A Toggle button with a 100 ms gap whose first click (250 ms long) was released at
250 ms and which is in Debounce since a second press at 300 ms. -/
def toggleSecondPress : Button_t :=
  (runTicks toggleButtonGap100 [(0, true), (50, true), (250, false), (300, true)]).1

/-- Two registered Toggle buttons of which the first holds the state value 7, which is
none of Start, Debounce and Pressed. -/
def strayStateRegistry : Registry :=
  twoButtons.store (Ptr.slot 0) (fun b => { b with State := 7 })

end Button

/-!
# DS RTC driver (DS_RTC_layer_lib): range check of the RAM functions

`DS_RTC_ReadRAM` and `DS_RTC_WriteRAM` either return `HAL_ERROR` before any bus traffic or
hand the transfer to the HAL; the model returns which of the two happens and, for a
transfer, the device address, the memory address and the length given to the HAL.
-/

namespace DS_RTC

/-- The enumeration `DS_RTC_Model` of DS_RTC_core.h. -/
inductive DS_RTC_Model
  | DS_RTC_MODEL_DS1307
  | DS_RTC_MODEL_DS1337
  | DS_RTC_MODEL_DS1338
  | DS_RTC_MODEL_DS1340
  | DS_RTC_MODEL_DS3231
  | DS_RTC_MODEL_DS3232
  deriving DecidableEq, Repr

/-- The struct `DS_RTC_HandleTypeDef` without its bus pointer `hi2c`. -/
structure DS_RTC_HandleTypeDef where
  model : DS_RTC_Model
  i2c_addr : Nat
  has_alarm : Bool
  has_temp : Bool
  has_ram : Bool
  has_eeprom : Bool
  deriving DecidableEq, Repr

/-- What a RAM function does: it returns `HAL_ERROR` itself, or it calls
`HAL_I2C_Mem_Read` / `HAL_I2C_Mem_Write` with these arguments and returns its status. -/
inductive RamAccess
  | HAL_ERROR
  | transfer (DevAddress MemAddress Size : Nat)
  deriving DecidableEq, Repr

/-- The function `DS1307_Init` for non-NULL arguments: the handle it fills in. -/
def DS1307_Init : DS_RTC_HandleTypeDef :=
  { model := DS_RTC_Model.DS_RTC_MODEL_DS1307, i2c_addr := (0x68 <<< 1) % 256,
    has_alarm := false, has_temp := false, has_ram := true, has_eeprom := false }

/-- The function `DS_RTC_ReadRAM`; `offset` and `length` are `uint8_t` parameters and
`ram_addr` is a `uint8_t` variable, while the sum `ram_addr + length` is computed in `int`. -/
def DS_RTC_ReadRAM (rtc : DS_RTC_HandleTypeDef) (offset length : Nat) : RamAccess :=
  if rtc.has_ram = false then RamAccess.HAL_ERROR
  else
    match rtc.model with
    | DS_RTC_Model.DS_RTC_MODEL_DS1307 =>
      if (0x08 + offset % 256) % 256 + length % 256 > 0x3F then RamAccess.HAL_ERROR
      else RamAccess.transfer rtc.i2c_addr ((0x08 + offset % 256) % 256) (length % 256)
    | DS_RTC_Model.DS_RTC_MODEL_DS3232 =>
      if (0x14 + offset % 256) % 256 + length % 256 > 0xFF then RamAccess.HAL_ERROR
      else RamAccess.transfer rtc.i2c_addr ((0x14 + offset % 256) % 256) (length % 256)
    | _ => RamAccess.HAL_ERROR

/-- The function `DS_RTC_WriteRAM`, with the same conversions as `DS_RTC_ReadRAM`. -/
def DS_RTC_WriteRAM (rtc : DS_RTC_HandleTypeDef) (offset length : Nat) : RamAccess :=
  if rtc.has_ram = false then RamAccess.HAL_ERROR
  else
    match rtc.model with
    | DS_RTC_Model.DS_RTC_MODEL_DS1307 =>
      if (0x08 + offset % 256) % 256 + length % 256 > 0x3F then RamAccess.HAL_ERROR
      else RamAccess.transfer rtc.i2c_addr ((0x08 + offset % 256) % 256) (length % 256)
    | DS_RTC_Model.DS_RTC_MODEL_DS3232 =>
      if (0x14 + offset % 256) % 256 + length % 256 > 0xFF then RamAccess.HAL_ERROR
      else RamAccess.transfer rtc.i2c_addr ((0x14 + offset % 256) % 256) (length % 256)
    | _ => RamAccess.HAL_ERROR

/-- A DS3232 handle with RAM support, as an application fills it in. -/
def ds3232Handle : DS_RTC_HandleTypeDef :=
  { model := DS_RTC_Model.DS_RTC_MODEL_DS3232, i2c_addr := (0x68 <<< 1) % 256,
    has_alarm := true, has_temp := true, has_ram := true, has_eeprom := false }

/-- The bytes `base + offset .. base + offset + length - 1` of an access all lie inside the
memory `first .. last`, in the words of the specification. -/
def bytesInside (base first last offset length : Nat) : Prop :=
  ∀ a, base + offset ≤ a → a < base + offset + length → first ≤ a ∧ a ≤ last

end DS_RTC

/-!
# DS RTC drivers: BCD conversion and the time registers

`DS_RTC_ReadTime` and `DS_RTC_WriteTime` exist twice with the same text: in
src/DS_RTC_layer_lib/core/DS_RTC_time.c (with the static helpers `ToBCD` and `FromBCD`) and
in src/DS_RTC/DS_RTC.c (with `DS_RTC_ToBCD` and `DS_RTC_FromBCD`).  Both use the same
`DS_RTC_Time` struct declaration.  The model of a write is the seven-byte buffer handed to
`HAL_I2C_Mem_Write`; the model of a read is the value stored in `*time` when
`HAL_I2C_Mem_Read` returned `HAL_OK` with the given seven bytes.
-/

namespace DS_RTC

/-- The struct `DS_RTC_Time`: six `uint8_t` fields and the `uint16_t` field `year`. -/
structure DS_RTC_Time where
  seconds : Nat
  minutes : Nat
  hours : Nat
  day_of_week : Nat
  day : Nat
  month : Nat
  year : Nat
  deriving DecidableEq, Repr

/-- The static function `ToBCD` of DS_RTC_time.c: a `uint8_t` parameter, the expression
computed in `int`, the result converted to `uint8_t`. -/
def ToBCD (val : Nat) : Nat :=
  ((((val % 256) / 10) <<< 4) ||| ((val % 256) % 10)) % 256

/-- The static function `FromBCD` of DS_RTC_time.c. -/
def FromBCD (bcd : Nat) : Nat :=
  ((((bcd % 256) >>> 4) * 10) + ((bcd % 256) &&& 0x0F)) % 256

/-- The function `DS_RTC_ReadTime` of DS_RTC_time.c after a successful bus read: the
content of `*time` decoded from the bytes `buf[0..6]`. -/
def DS_RTC_ReadTime (buf : List Nat) : DS_RTC_Time :=
  { seconds := FromBCD (buf.getD 0 0 &&& 0x7F),
    minutes := FromBCD (buf.getD 1 0 &&& 0x7F),
    hours := FromBCD (buf.getD 2 0 &&& 0x3F),
    day_of_week := FromBCD (buf.getD 3 0 &&& 0x07),
    day := FromBCD (buf.getD 4 0 &&& 0x3F),
    month := FromBCD (buf.getD 5 0 &&& 0x1F),
    year := (2000 + FromBCD (buf.getD 6 0)) % 65536 }

/-- The function `DS_RTC_WriteTime` of DS_RTC_time.c: the buffer `buf[0..6]` it hands to
`HAL_I2C_Mem_Write` for register address 0x00. -/
def DS_RTC_WriteTime (time : DS_RTC_Time) : List Nat :=
  [ToBCD time.seconds &&& 0x7F, ToBCD time.minutes, ToBCD time.hours,
   ToBCD time.day_of_week, ToBCD time.day, ToBCD time.month, ToBCD (time.year % 100)]

/-- The time 2024-02-29 23:59:58, a Thursday (day of week 5). -/
def leapDay : DS_RTC_Time :=
  { seconds := 58, minutes := 59, hours := 23, day_of_week := 5, day := 29, month := 2,
    year := 2024 }

end DS_RTC

namespace DS_RTC_Driver

/-- The function `DS_RTC_ToBCD` of src/DS_RTC/DS_RTC.c. -/
def DS_RTC_ToBCD (val : Nat) : Nat :=
  ((((val % 256) / 10) <<< 4) ||| ((val % 256) % 10)) % 256

/-- The function `DS_RTC_FromBCD` of src/DS_RTC/DS_RTC.c. -/
def DS_RTC_FromBCD (bcd : Nat) : Nat :=
  ((((bcd % 256) >>> 4) * 10) + ((bcd % 256) &&& 0x0F)) % 256

/-- The function `DS_RTC_ReadTime` of src/DS_RTC/DS_RTC.c after a successful bus read. -/
def DS_RTC_ReadTime (buf : List Nat) : DS_RTC.DS_RTC_Time :=
  { seconds := DS_RTC_FromBCD (buf.getD 0 0 &&& 0x7F),
    minutes := DS_RTC_FromBCD (buf.getD 1 0 &&& 0x7F),
    hours := DS_RTC_FromBCD (buf.getD 2 0 &&& 0x3F),
    day_of_week := DS_RTC_FromBCD (buf.getD 3 0 &&& 0x07),
    day := DS_RTC_FromBCD (buf.getD 4 0 &&& 0x3F),
    month := DS_RTC_FromBCD (buf.getD 5 0 &&& 0x1F),
    year := (2000 + DS_RTC_FromBCD (buf.getD 6 0)) % 65536 }

/-- The function `DS_RTC_WriteTime` of src/DS_RTC/DS_RTC.c: the buffer it hands to
`HAL_I2C_Mem_Write`. -/
def DS_RTC_WriteTime (time : DS_RTC.DS_RTC_Time) : List Nat :=
  [DS_RTC_ToBCD time.seconds &&& 0x7F, DS_RTC_ToBCD time.minutes, DS_RTC_ToBCD time.hours,
   DS_RTC_ToBCD time.day_of_week, DS_RTC_ToBCD time.day, DS_RTC_ToBCD time.month,
   DS_RTC_ToBCD (time.year % 100)]

end DS_RTC_Driver

/-!
# TM1637 display driver: `TM1637_DisplayDecimal`

The parameter `num` is an `int16_t`, modelled as an `Int` in -32768..32767; arithmetic on it
is done in `int` and assignments to `num` convert back to `int16_t`.  `%` and `/` are the C
operators, which truncate towards zero.  A read of `digitToSegment` outside its 21 entries
has no defined value.
-/

namespace TM1637

/-- The table `digitToSegment`. -/
def digitToSegment : List Nat :=
  [0x3f, 0x06, 0x5b, 0x4f, 0x66, 0x6d, 0x7d, 0x07,
   0x7f, 0x6f, 0x77, 0x7c, 0x39, 0x5e, 0x79, 0x71,
   0x3E, 0x38, 0x76, 0x40, 0x00]

/-- Conversion of an `int` value to `int16_t`: reduction modulo 2^16 into -32768..32767. -/
def toInt16 (v : Int) : Int :=
  (v + 32768) % 65536 - 32768

/-- The read `digitToSegment[i]`, defined for an index inside the array only. -/
def readSegment (i : Int) : Option Nat :=
  if 0 ≤ i ∧ i < 21 then digitToSegment.get? i.toNat else none

/-- Lines 95-101 of `TM1637_DisplayDecimal`: the flag `negative` and the value of `num`
after the negation and the limit test. -/
def limitDecimal (num : Int) : Bool × Int :=
  let negative : Bool := decide (num < 0)
  let num1 : Int := if num < 0 then toInt16 (-num) else num
  let limit : Int := if negative then 999 else 9999
  (negative, if num1 > limit then limit else num1)

/-- The indices `num % 10` that the loop of lines 103-106 uses, in the order of the reads,
with the given number of iterations left. -/
def loopIndices : Nat → Int → List Int
  | 0, _ => []
  | i + 1, num => Int.tmod num 10 :: loopIndices i (toInt16 (Int.tdiv num 10))

/-- The loop `for (int i = 3; i >= 0; i--)` of lines 103-106 with `i + 1` iterations left:
the array `digits` after it, or nothing when a read leaves the table. -/
def fillDigits : Nat → Int → List Nat → Option (List Nat)
  | 0, _, digits => some digits
  | i + 1, num, digits =>
    match readSegment (Int.tmod num 10) with
    | some seg => fillDigits i (toInt16 (Int.tdiv num 10)) (digits.set i seg)
    | none => none

/-- The function `TM1637_DisplayDecimal`: the four data bytes `digits[0..3]` it writes after
the command bytes 0x40 and 0xC0, or nothing when a table read is outside the table. -/
def TM1637_DisplayDecimal (colonOn : Bool) (num : Int) : Option (List Nat) :=
  match fillDigits 4 (limitDecimal num).2 [0, 0, 0, 0] with
  | none => none
  | some digits =>
    let digits1 := if (limitDecimal num).1 then digits.set 0 0x40 else digits
    some (if colonOn then digits1.set 1 (digits1.getD 1 0 ||| 0x80) else digits1)

/-- The segment code of a decimal digit. -/
def segmentOf (d : Nat) : Nat :=
  digitToSegment.getD d 0

/-- The data bytes the specification describes: the codes of the four decimal digits of
`min(num, 9999)` for `num ≥ 0`, the minus code 0x40 and the codes of the three decimal
digits of `min(-num, 999)` for `num < 0`, with bit 7 of the second byte set when the colon
is on. -/
def expectedBytes (colonOn : Bool) (num : Int) : List Nat :=
  let colon : Nat := if colonOn then 0x80 else 0
  if 0 ≤ num then
    [segmentOf (min num.toNat 9999 / 1000 % 10),
     segmentOf (min num.toNat 9999 / 100 % 10) ||| colon,
     segmentOf (min num.toNat 9999 / 10 % 10),
     segmentOf (min num.toNat 9999 % 10)]
  else
    [0x40,
     segmentOf (min (-num).toNat 999 / 100 % 10) ||| colon,
     segmentOf (min (-num).toNat 999 / 10 % 10),
     segmentOf (min (-num).toNat 999 % 10)]

end TM1637

/-! # Theorems -/

namespace DS_RTC

/-! ### C20: the range check of the RAM functions -/

/-- The range check as the code computes it: for a DS1307 handle with RAM support and
arguments of the parameter type, both functions reach the bus transfer exactly when
`(0x08 + offset) mod 256 + length ≤ 0x3F`. -/
theorem ds1307_ram_check (rtc : DS_RTC_HandleTypeDef) (offset length : Nat)
    (hModel : rtc.model = DS_RTC_Model.DS_RTC_MODEL_DS1307) (hRam : rtc.has_ram = true)
    (ho : offset < 256) (hl : length < 256) :
    (DS_RTC_ReadRAM rtc offset length ≠ RamAccess.HAL_ERROR ↔
      (0x08 + offset) % 256 + length ≤ 0x3F) ∧
    (DS_RTC_WriteRAM rtc offset length ≠ RamAccess.HAL_ERROR ↔
      (0x08 + offset) % 256 + length ≤ 0x3F) := by
  unfold DS_RTC_ReadRAM DS_RTC_WriteRAM
  rw [hModel, hRam, Nat.mod_eq_of_lt ho, Nat.mod_eq_of_lt hl]
  simp only [Bool.true_eq_false, if_false]
  by_cases h : (0x08 + offset) % 256 + length > 0x3F
  · rw [if_pos h]
    exact ⟨⟨fun hne => absurd rfl hne, fun hle => by omega⟩,
      ⟨fun hne => absurd rfl hne, fun hle => by omega⟩⟩
  · rw [if_neg h]
    exact ⟨⟨fun _ => by omega, fun _ hEq => RamAccess.noConfusion hEq⟩,
      ⟨fun _ => by omega, fun _ hEq => RamAccess.noConfusion hEq⟩⟩

/-- C20 fails on the code.  For a DS1307 handle the 56 bytes at offset 0, and the single
byte at offset 55, lie inside the SRAM 0x08..0x3F, yet both functions return `HAL_ERROR`
before the transfer (the test is `ram_addr + length > 0x3F`); and for offset 250 and length
1, where the addressed byte is not inside the SRAM, the 8-bit `ram_addr` wraps to 0x02 and
the transfer is made.  For a DS3232 handle the 236 bytes at offset 0 lie inside 0x14..0xFF
and are refused, and offset 240 with length 1 wraps to 0x04 and is passed. -/
theorem ram_range_check_refuses_last_byte :
    (bytesInside 0x08 0x08 0x3F 0 56 ∧
      DS_RTC_ReadRAM DS1307_Init 0 56 = RamAccess.HAL_ERROR ∧
      DS_RTC_WriteRAM DS1307_Init 0 56 = RamAccess.HAL_ERROR) ∧
    (bytesInside 0x08 0x08 0x3F 55 1 ∧
      DS_RTC_ReadRAM DS1307_Init 55 1 = RamAccess.HAL_ERROR ∧
      DS_RTC_WriteRAM DS1307_Init 55 1 = RamAccess.HAL_ERROR) ∧
    (¬ bytesInside 0x08 0x08 0x3F 250 1 ∧
      DS_RTC_ReadRAM DS1307_Init 250 1 = RamAccess.transfer 0xD0 0x02 1 ∧
      DS_RTC_WriteRAM DS1307_Init 250 1 = RamAccess.transfer 0xD0 0x02 1) ∧
    (bytesInside 0x14 0x14 0xFF 0 236 ∧
      DS_RTC_ReadRAM ds3232Handle 0 236 = RamAccess.HAL_ERROR ∧
      DS_RTC_WriteRAM ds3232Handle 0 236 = RamAccess.HAL_ERROR) ∧
    (¬ bytesInside 0x14 0x14 0xFF 240 1 ∧
      DS_RTC_ReadRAM ds3232Handle 240 1 = RamAccess.transfer 0xD0 0x04 1 ∧
      DS_RTC_WriteRAM ds3232Handle 240 1 = RamAccess.transfer 0xD0 0x04 1) := by
  refine ⟨⟨?_, by decide, by decide⟩, ⟨?_, by decide, by decide⟩, ⟨?_, by decide, by decide⟩,
    ⟨?_, by decide, by decide⟩, ⟨?_, by decide, by decide⟩⟩
  · intro a h1 h2
    omega
  · intro a h1 h2
    omega
  · intro h
    have := h 258 (by omega) (by omega)
    omega
  · intro a h1 h2
    omega
  · intro h
    have := h 260 (by omega) (by omega)
    omega

end DS_RTC

namespace DS_RTC

theorem FromBCD_ToBCD (v : Nat) (h : v ≤ 99) : FromBCD (ToBCD v) = v := by
  revert v
  decide

theorem seconds_roundtrip (v : Nat) (h : v ≤ 59) :
    FromBCD ((ToBCD v &&& 0x7F) &&& 0x7F) = v ∧ FromBCD (ToBCD v &&& 0x7F) = v := by
  revert v
  decide

theorem hours_roundtrip (v : Nat) (h : v ≤ 23) : FromBCD (ToBCD v &&& 0x3F) = v := by
  revert v
  decide

theorem day_of_week_roundtrip (v : Nat) (h : v ≤ 7) : FromBCD (ToBCD v &&& 0x07) = v := by
  revert v
  decide

theorem day_roundtrip (v : Nat) (h : v ≤ 31) : FromBCD (ToBCD v &&& 0x3F) = v := by
  revert v
  decide

theorem month_roundtrip (v : Nat) (h : v ≤ 12) : FromBCD (ToBCD v &&& 0x1F) = v := by
  revert v
  decide

theorem year_roundtrip (y : Nat) (hlo : 2000 ≤ y) (hhi : y ≤ 2099) :
    (2000 + FromBCD (ToBCD (y % 100))) % 65536 = y := by
  rw [FromBCD_ToBCD (y % 100) (by omega)]
  omega

theorem ReadTime_WriteTime (t : DS_RTC_Time)
    (hs : t.seconds ≤ 59) (hm : t.minutes ≤ 59) (hh : t.hours ≤ 23)
    (hw : t.day_of_week ≤ 7) (hd : t.day ≤ 31) (hmo : t.month ≤ 12)
    (hylo : 2000 ≤ t.year) (hyhi : t.year ≤ 2099) :
    DS_RTC_ReadTime (DS_RTC_WriteTime t) = t := by
  cases t with
  | mk s m h w d mo y =>
    simp only at hs hm hh hw hd hmo hylo hyhi
    simp only [DS_RTC_ReadTime, DS_RTC_WriteTime, List.getD_cons_zero, List.getD_cons_succ,
      DS_RTC_Time.mk.injEq]
    exact ⟨(seconds_roundtrip s hs).1, (seconds_roundtrip m hm).2, hours_roundtrip h hh,
      day_of_week_roundtrip w hw, day_roundtrip d hd, month_roundtrip mo hmo,
      year_roundtrip y hylo hyhi⟩

theorem driver_ReadTime_eq : DS_RTC_Driver.DS_RTC_ReadTime = DS_RTC_ReadTime := rfl

theorem driver_WriteTime_eq : DS_RTC_Driver.DS_RTC_WriteTime = DS_RTC_WriteTime := rfl

/-- C30: for every time with seconds and minutes in 0..59, hours in 0..23, day_of_week in
1..7, day in 1..31, month in 1..12 and year in 2000..2099, decoding the seven bytes that
`DS_RTC_WriteTime` encodes with the field decoding of `DS_RTC_ReadTime` returns the same
time, for the functions of DS_RTC_time.c, for those of DS_RTC.c, and for the write of the
first read back by the second; and `FromBCD(ToBCD(v)) = v` for every `v` in 0..99, for
both pairs of conversion functions. -/
theorem time_registers_roundtrip (t : DS_RTC_Time)
    (hs : t.seconds ≤ 59) (hm : t.minutes ≤ 59) (hh : t.hours ≤ 23)
    (hw : 1 ≤ t.day_of_week ∧ t.day_of_week ≤ 7) (hd : 1 ≤ t.day ∧ t.day ≤ 31)
    (hmo : 1 ≤ t.month ∧ t.month ≤ 12) (hy : 2000 ≤ t.year ∧ t.year ≤ 2099) :
    DS_RTC_Driver.DS_RTC_ReadTime (DS_RTC_WriteTime t) = t ∧
    DS_RTC_ReadTime (DS_RTC_WriteTime t) = t ∧
    DS_RTC_Driver.DS_RTC_ReadTime (DS_RTC_Driver.DS_RTC_WriteTime t) = t ∧
    (∀ v, v ≤ 99 → FromBCD (ToBCD v) = v ∧
      DS_RTC_Driver.DS_RTC_FromBCD (DS_RTC_Driver.DS_RTC_ToBCD v) = v) := by
  have h := ReadTime_WriteTime t hs hm hh hw.2 hd.2 hmo.2 hy.1 hy.2
  refine ⟨?_, h, ?_, fun v hv => ⟨FromBCD_ToBCD v hv, FromBCD_ToBCD v hv⟩⟩
  · rw [driver_ReadTime_eq]
    exact h
  · rw [driver_ReadTime_eq, driver_WriteTime_eq]
    exact h

/-- Witness for C30: the time 2024-02-29 23:59:58 is written as the bytes
0x58 0x59 0x23 0x05 0x29 0x02 0x24 and read back unchanged. -/
theorem time_registers_roundtrip_witness :
    DS_RTC_WriteTime leapDay = [0x58, 0x59, 0x23, 0x05, 0x29, 0x02, 0x24] ∧
    DS_RTC_Driver.DS_RTC_ReadTime (DS_RTC_WriteTime leapDay) = leapDay ∧
    FromBCD (ToBCD 99) = 99 :=
  have h := time_registers_roundtrip leapDay (by decide) (by decide) (by decide)
    (by decide) (by decide) (by decide) (by decide)
  ⟨by decide, h.1, (h.2.2.2 99 (by decide)).1⟩

end DS_RTC

namespace TM1637

/-- C21 fails for `num = -32768`: the negation converts back to -32768, the limit test
`num > 999` is false, and the four table reads use the indices -8, -6, -7 and -2, outside
the table, so the value is not limited to -999 and the data bytes are undefined; for
-32767 the function sends the minus code and 9 9 9. -/
theorem display_decimal_min_int16_reads_outside_table :
    limitDecimal (-32768) = (true, -32768) ∧
    loopIndices 4 (limitDecimal (-32768)).2 = [-8, -6, -7, -2] ∧
    TM1637_DisplayDecimal false (-32768) = none ∧
    TM1637_DisplayDecimal true (-32768) = none ∧
    TM1637_DisplayDecimal false (-32767) = some [0x40, 0x6f, 0x6f, 0x6f] := by
  decide

theorem readSegment_digit (d : Nat) (h : d < 21) :
    readSegment ((d : Nat) : Int) = some (segmentOf d) := by
  revert d
  decide

theorem toInt16_of_small (m : Nat) (h : m ≤ 32767) : toInt16 ((m : Nat) : Int) = m := by
  unfold toInt16
  omega

theorem loop_step (m : Nat) (h : m ≤ 32767) :
    Int.tmod ((m : Nat) : Int) 10 = ((m % 10 : Nat) : Int) ∧
    toInt16 (Int.tdiv ((m : Nat) : Int) 10) = ((m / 10 : Nat) : Int) := by
  have hdiv : Int.tdiv ((m : Nat) : Int) 10 = ((m / 10 : Nat) : Int) :=
    (Int.ofNat_tdiv m 10).symm
  refine ⟨(Int.ofNat_tmod m 10).symm, ?_⟩
  rw [hdiv]
  exact toInt16_of_small (m / 10) (by omega)

theorem fillDigits_nat (m : Nat) (h : m ≤ 32767) :
    fillDigits 4 ((m : Nat) : Int) [0, 0, 0, 0] =
      some [segmentOf (m / 1000 % 10), segmentOf (m / 100 % 10), segmentOf (m / 10 % 10),
            segmentOf (m % 10)] ∧
    loopIndices 4 ((m : Nat) : Int) =
      [((m % 10 : Nat) : Int), ((m / 10 % 10 : Nat) : Int), ((m / 100 % 10 : Nat) : Int),
       ((m / 1000 % 10 : Nat) : Int)] := by
  have h1 := loop_step m h
  have h2 := loop_step (m / 10) (by omega)
  have h3 := loop_step (m / 100) (by omega)
  have h4 := loop_step (m / 1000) (by omega)
  have e2 : m / 10 / 10 = m / 100 := by omega
  have e3 : m / 100 / 10 = m / 1000 := by omega
  rw [e2] at h2
  rw [e3] at h3
  constructor
  · simp only [fillDigits, h1.1, h1.2, h2.1, h2.2, h3.1, h3.2, h4.1, h4.2,
      readSegment_digit _ (show m % 10 < 21 by omega),
      readSegment_digit _ (show m / 10 % 10 < 21 by omega),
      readSegment_digit _ (show m / 100 % 10 < 21 by omega),
      readSegment_digit _ (show m / 1000 % 10 < 21 by omega)]
    rfl
  · simp only [loopIndices, h1.1, h1.2, h2.1, h2.2, h3.1, h3.2, h4.1, h4.2]

theorem limitDecimal_nonneg (num : Int) (h : 0 ≤ num) :
    limitDecimal num = (false, ((min num.toNat 9999 : Nat) : Int)) := by
  unfold limitDecimal
  have hneg : ¬ num < 0 := by omega
  simp only [hneg, decide_False, if_false, Bool.false_eq_true, Prod.mk.injEq, true_and]
  split_ifs <;> omega

theorem limitDecimal_neg (num : Int) (hlo : -32768 < num) (h : num < 0) :
    limitDecimal num = (true, ((min (-num).toNat 999 : Nat) : Int)) := by
  unfold limitDecimal
  have h16 : toInt16 (-num) = -num := by
    unfold toInt16
    omega
  simp only [h, decide_True, if_true, h16, Prod.mk.injEq, true_and]
  split_ifs <;> omega

/-- For every other `int16_t` value, -32767..32767, `TM1637_DisplayDecimal` sends the data
bytes the specification describes, and every table read uses an index in 0..9. -/
theorem TM1637_DisplayDecimal_above_min (colonOn : Bool) (num : Int)
    (hlo : -32768 < num) (hhi : num ≤ 32767) :
    TM1637_DisplayDecimal colonOn num = some (expectedBytes colonOn num) ∧
    ∀ i ∈ loopIndices 4 (limitDecimal num).2, 0 ≤ i ∧ i ≤ 9 := by
  by_cases h : 0 ≤ num
  · have hm : min num.toNat 9999 ≤ 32767 := by omega
    obtain ⟨hf, hl⟩ := fillDigits_nat (min num.toNat 9999) hm
    constructor
    · unfold TM1637_DisplayDecimal expectedBytes
      rw [limitDecimal_nonneg num h]
      simp only [hf, if_pos h]
      cases colonOn <;> simp
    · rw [limitDecimal_nonneg num h]
      simp only [hl]
      intro i hi
      simp only [List.mem_cons, List.mem_singleton, List.not_mem_nil, or_false] at hi
      omega
  · have hneg : num < 0 := by omega
    have hm : min (-num).toNat 999 ≤ 32767 := by omega
    obtain ⟨hf, hl⟩ := fillDigits_nat (min (-num).toNat 999) hm
    constructor
    · unfold TM1637_DisplayDecimal expectedBytes
      rw [limitDecimal_neg num hlo hneg]
      simp only [hf, if_neg h]
      cases colonOn <;> simp
    · rw [limitDecimal_neg num hlo hneg]
      simp only [hl]
      intro i hi
      simp only [List.mem_cons, List.mem_singleton, List.not_mem_nil, or_false] at hi
      omega

end TM1637

namespace Button

open ButtonPressType_t

/-! ## Theorems -/

/-! ### Arithmetic of the 32-bit tick difference -/

theorem sub32_eq_sub {a b : Nat} (hba : b ≤ a) (ha : a < 4294967296) : sub32 a b = a - b := by
  unfold sub32
  omega

theorem sub32_self (a : Nat) : sub32 a a = 0 := by
  unfold sub32
  omega

theorem sub32_eq_zero {a b : Nat} (ha : a < 4294967296) (hb : b < 4294967296)
    (h : sub32 a b = 0) : a = b := by
  unfold sub32 at h
  omega

/-! ### One tick of one button: fields that never change -/

theorem caseStart_settings (now : Nat) (cs : Bool) (b : Button_t) :
    (caseStart now cs b).1.settings = b.settings := by
  unfold caseStart
  split_ifs <;> rfl

theorem caseDebounce_settings (now : Nat) (cs : Bool) (b : Button_t) :
    (caseDebounce now cs b).1.settings = b.settings := by
  unfold caseDebounce
  split_ifs <;> rfl

theorem releaseToggle_settings (now : Nat) (b : Button_t) :
    (releaseToggle now b).1.settings = b.settings := by
  unfold releaseToggle
  split_ifs <;> rfl

theorem repeatHold_settings (now : Nat) (b : Button_t) :
    (repeatHold now b).1.settings = b.settings := by
  unfold repeatHold
  split_ifs <;> rfl

theorem casePressed_settings (now : Nat) (cs : Bool) (b : Button_t) :
    (casePressed now cs b).1.settings = b.settings := by
  unfold casePressed
  split_ifs
  · exact releaseToggle_settings now b
  · exact repeatHold_settings now b
  · rfl

theorem updateSwitch_settings (now : Nat) (cs : Bool) (b : Button_t) :
    (updateSwitch now cs b).1.settings = b.settings := by
  unfold updateSwitch
  split_ifs
  · exact caseStart_settings now cs b
  · exact caseDebounce_settings now cs b
  · exact casePressed_settings now cs b
  · rfl

theorem updateFlush_settings (now : Nat) (b : Button_t) :
    (updateFlush now b).1.settings = b.settings := by
  unfold updateFlush
  split_ifs <;> rfl

theorem updateFlush_state (now : Nat) (b : Button_t) :
    (updateFlush now b).1.State = b.State ∧ (updateFlush now b).1.StartTime = b.StartTime := by
  unfold updateFlush
  split_ifs <;> exact ⟨rfl, rfl⟩

theorem updateButton_settings (now : Nat) (cs : Bool) (b : Button_t) :
    (updateButton now cs b).1.settings = b.settings := by
  unfold updateButton
  rw [updateFlush_settings, updateSwitch_settings]

theorem runTicks_settings (ticks : List (Nat × Bool)) (b : Button_t) :
    (runTicks b ticks).1.settings = b.settings := by
  induction ticks generalizing b with
  | nil => rfl
  | cons tick rest ih =>
    show (runTicks (updateButton tick.1 tick.2 b).1 rest).1.settings = b.settings
    rw [ih, updateButton_settings]

theorem settings_fields {a b : Button_t} (h : a.settings = b.settings) :
    a.Mode = b.Mode ∧ a.Handler = b.Handler ∧ a.DebounceTime = b.DebounceTime ∧
    a.NormalTime = b.NormalTime ∧ a.LongTime = b.LongTime ∧ a.VeryLongTime = b.VeryLongTime ∧
    a.DoubleClickTime = b.DoubleClickTime ∧ a.RepeatDelay = b.RepeatDelay ∧
    a.RepeatInterval = b.RepeatInterval := by
  simp only [Button_t.settings, Prod.mk.injEq] at h
  tauto

/-! ### Runs over concatenated tick sequences -/

theorem runTicks_append (b : Button_t) (xs ys : List (Nat × Bool)) :
    runTicks b (xs ++ ys) =
      ((runTicks (runTicks b xs).1 ys).1, (runTicks b xs).2 ++ (runTicks (runTicks b xs).1 ys).2) := by
  induction xs generalizing b with
  | nil => simp [runTicks]
  | cons tick rest ih => simp [runTicks, ih]

theorem runTicks_length (b : Button_t) (xs : List (Nat × Bool)) :
    (runTicks b xs).2.length = xs.length := by
  induction xs generalizing b with
  | nil => simp [runTicks]
  | cons tick rest ih => simp [runTicks, ih]

/-! ### C1: duration bands -/

/-- C1: for a Toggle button with a handler and a recorded press duration
`LastPressDuration`, the event emitted for that press at the in-release classification
(lines 169-182) and at the deferred flush (lines 214-229) is the duration band of the
specification: VeryLong if `d ≥ very_long`, else Long if `d ≥ long`, else Normal if
`d ≥ normal`, else OnPressed.  With thresholds 300/1000/3000, presses of 250, 300, 500,
1500 and 4000 ms give OnPressed, Normal, Normal, Long and VeryLong at both sites. -/
theorem duration_band_at_both_sites (btn : Button_t) (now : Nat)
    (hMode : btn.Mode = BUTTON_Mode_Toggle) (hHandler : btn.Handler ≠ HandlerPtr.null)
    (hPending : btn.FirstClickDone ≠ 0)
    (hGap : btn.DoubleClickTime < sub32 now btn.FirstClickReleaseTime) :
    (btn.State = BUTTON_STATE_PRESSED →
      (updateSwitch now false btn).2 =
        [durationBand btn.LastPressDuration btn.NormalTime btn.LongTime btn.VeryLongTime]) ∧
    (updateFlush now btn).2 =
        [durationBand btn.LastPressDuration btn.NormalTime btn.LongTime btn.VeryLongTime] ∧
    (runTicks toggleButton [(0, true), (50, true), (250, false), (251, false)]).2
        = [[], [], [], [BUTTON_PressType_OnPressed]] ∧
    (runTicks toggleButton [(0, true), (50, true), (300, false), (301, false)]).2
        = [[], [], [], [BUTTON_PressType_Normal]] ∧
    (runTicks toggleButton [(0, true), (50, true), (500, false), (501, false)]).2
        = [[], [], [], [BUTTON_PressType_Normal]] ∧
    (runTicks toggleButton [(0, true), (50, true), (1500, false), (1501, false)]).2
        = [[], [], [], [BUTTON_PressType_Long]] ∧
    (runTicks toggleButton [(0, true), (50, true), (4000, false), (4001, false)]).2
        = [[], [], [], [BUTTON_PressType_VeryLong]] ∧
    (runTicks toggleButtonGap100
        [(0, true), (50, true), (250, false), (300, true), (350, true), (400, false)]).2
        = [[], [], [], [], [], [BUTTON_PressType_OnPressed]] ∧
    (runTicks toggleButtonGap100
        [(0, true), (50, true), (300, false), (350, true), (400, true), (450, false)]).2
        = [[], [], [], [], [], [BUTTON_PressType_Normal]] ∧
    (runTicks toggleButtonGap100
        [(0, true), (50, true), (500, false), (550, true), (600, true), (650, false)]).2
        = [[], [], [], [], [], [BUTTON_PressType_Normal]] ∧
    (runTicks toggleButtonGap100
        [(0, true), (50, true), (1500, false), (1550, true), (1600, true), (1650, false)]).2
        = [[], [], [], [], [], [BUTTON_PressType_Long]] ∧
    (runTicks toggleButtonGap100
        [(0, true), (50, true), (4000, false), (4050, true), (4100, true), (4150, false)]).2
        = [[], [], [], [], [], [BUTTON_PressType_VeryLong]] := by
  have hNot : ¬ sub32 now btn.FirstClickReleaseTime ≤ btn.DoubleClickTime := Nat.not_le.mpr hGap
  refine ⟨?_, ?_, by decide, by decide, by decide, by decide, by decide,
    by decide, by decide, by decide, by decide, by decide⟩
  · intro hs
    simp [updateSwitch, casePressed, releaseToggle, durationBand, hs, hMode, hHandler,
      hPending, hNot]
  · simp [updateFlush, durationBand, hMode, hHandler, hPending, hGap]

/-- Witness for C1: a pending 250 ms press with thresholds 300/1000/3000 whose gap has
expired is classified OnPressed at both sites. -/
theorem duration_band_at_both_sites_witness :
    (updateSwitch 400 false
        { toggleButton with State := BUTTON_STATE_PRESSED, FirstClickDone := 1,
                            FirstClickReleaseTime := 250, LastPressDuration := 250 }).2
      = [BUTTON_PressType_OnPressed] ∧
    (updateFlush 400
        { toggleButton with State := BUTTON_STATE_PRESSED, FirstClickDone := 1,
                            FirstClickReleaseTime := 250, LastPressDuration := 250 }).2
      = [BUTTON_PressType_OnPressed] :=
  have h := duration_band_at_both_sites
    { toggleButton with State := BUTTON_STATE_PRESSED, FirstClickDone := 1,
                        FirstClickReleaseTime := 250, LastPressDuration := 250 }
    400 (by decide) (by decide) (by decide) (by decide)
  ⟨h.1 (by decide), h.2.1⟩

/-! ### One tick of one button outside a release -/

theorem updateFlush_of_noFlush {n : Nat} {b : Button_t} (h : noFlush n b) :
    updateFlush n b = (b, []) := by
  unfold updateFlush
  by_cases h1 : b.Mode = BUTTON_Mode_Toggle ∧ b.FirstClickDone ≠ 0
  · rw [if_pos h1, if_neg (Nat.not_lt.mpr (h h1.1 h1.2))]
  · rw [if_neg h1]

theorem noFlush_congr {n : Nat} {a b : Button_t} (hs : a.settings = b.settings)
    (hp : a.pending = b.pending) (h : noFlush n b) : noFlush n a := by
  simp only [Button_t.settings, Button_t.pending, Prod.mk.injEq] at hs hp
  unfold noFlush at *
  rw [hs.2.2.2.1, hp.1, hp.2.1, hs.2.2.2.2.2.2.2.2.2.1]
  exact h

theorem caseStart_pending (now : Nat) (cs : Bool) (b : Button_t) :
    (caseStart now cs b).1.pending = b.pending := by
  unfold caseStart
  split_ifs <;> rfl

theorem caseDebounce_pending (now : Nat) (cs : Bool) (b : Button_t) :
    (caseDebounce now cs b).1.pending = b.pending := by
  unfold caseDebounce
  split_ifs <;> rfl

theorem repeatHold_pending (now : Nat) (b : Button_t) :
    (repeatHold now b).1.pending = b.pending := by
  unfold repeatHold
  split_ifs <;> rfl

theorem updateSwitch_pending {n : Nat} {c : Bool} {b : Button_t}
    (h : ¬ (b.State = BUTTON_STATE_PRESSED ∧ c = false)) :
    (updateSwitch n c b).1.pending = b.pending := by
  unfold updateSwitch
  split_ifs with h1 h2 h3
  · exact caseStart_pending n c b
  · exact caseDebounce_pending n c b
  · unfold casePressed
    split_ifs with h4 h5
    · exact absurd ⟨h3, h4⟩ h
    · exact repeatHold_pending n b
    · rfl
  · rfl

theorem updateSwitch_toggle_quiet {n : Nat} {c : Bool} {b : Button_t}
    (hMode : b.Mode = BUTTON_Mode_Toggle)
    (h : ¬ (b.State = BUTTON_STATE_PRESSED ∧ c = false)) :
    (updateSwitch n c b).2 = [] := by
  unfold updateSwitch
  split_ifs with h1 h2 h3
  · unfold caseStart
    split_ifs <;> rfl
  · unfold caseDebounce
    split_ifs with h4 h5 h6
    · exact absurd (hMode.symm.trans h6.1) (by decide)
    · rfl
    · rfl
    · rfl
  · unfold casePressed
    split_ifs with h4 h5
    · exact absurd ⟨h3, h4⟩ h
    · exact absurd (hMode.symm.trans h5) (by decide)
    · rfl
  · rfl

theorem updateButton_toggle_quiet {n : Nat} {c : Bool} {b : Button_t}
    (hMode : b.Mode = BUTTON_Mode_Toggle)
    (h : ¬ (b.State = BUTTON_STATE_PRESSED ∧ c = false)) (hf : noFlush n b) :
    (updateButton n c b).2 = [] ∧ (updateButton n c b).1.pending = b.pending := by
  have hf1 : noFlush n (updateSwitch n c b).1 :=
    noFlush_congr (updateSwitch_settings n c b) (updateSwitch_pending h) hf
  unfold updateButton
  rw [updateFlush_of_noFlush hf1, updateSwitch_toggle_quiet hMode h]
  exact ⟨rfl, updateSwitch_pending h⟩

theorem noRelease_cons (b : Button_t) (tick : Nat × Bool) (rest : List (Nat × Bool)) :
    noRelease b (tick :: rest) = true ↔
      ¬ (b.State = BUTTON_STATE_PRESSED ∧ tick.2 = false) ∧
        noRelease (updateButton tick.1 tick.2 b).1 rest = true := by
  simp only [noRelease, Bool.and_eq_true, Bool.not_eq_true', Bool.and_eq_false_imp,
    decide_eq_true_eq, Bool.not_eq_false', not_and, Bool.not_eq_false]

/-- A run of a Toggle button without a release, during which the flush never fires,
emits nothing and keeps the pending-click record. -/
theorem runTicks_toggle_quiet (ticks : List (Nat × Bool)) (b : Button_t)
    (hMode : b.Mode = BUTTON_Mode_Toggle) (hNR : noRelease b ticks = true)
    (hf : b.FirstClickDone ≠ 0 →
      ∀ t ∈ ticks, sub32 t.1 b.FirstClickReleaseTime ≤ b.DoubleClickTime) :
    (runTicks b ticks).2 = List.replicate ticks.length [] ∧
      (runTicks b ticks).1.pending = b.pending := by
  induction ticks generalizing b with
  | nil => exact ⟨rfl, rfl⟩
  | cons tick rest ih =>
    rw [noRelease_cons] at hNR
    have hq := updateButton_toggle_quiet (n := tick.1) hMode hNR.1
      (fun _ hp => hf hp tick (List.mem_cons_self _ _))
    have hs := settings_fields (updateButton_settings tick.1 tick.2 b)
    have hp := hq.2
    simp only [Button_t.pending, Prod.mk.injEq] at hp
    have ih1 := ih (updateButton tick.1 tick.2 b).1 (hs.1.trans hMode) hNR.2 (by
      intro hne t ht
      rw [hp.2.1, hs.2.2.2.2.2.2.1]
      exact hf (by rw [← hp.1]; exact hne) t (List.mem_cons_of_mem _ ht))
    refine ⟨?_, ih1.2.trans hq.2⟩
    show (updateButton tick.1 tick.2 b).2 :: (runTicks (updateButton tick.1 tick.2 b).1 rest).2
      = List.replicate (rest.length + 1) []
    rw [hq.1, ih1.1]
    rfl

/-! ### Release, idle and flush ticks of a Toggle button -/

theorem runTicks_cons (b : Button_t) (tick : Nat × Bool) (rest : List (Nat × Bool)) :
    runTicks b (tick :: rest) =
      ((runTicks (updateButton tick.1 tick.2 b).1 rest).1,
       (updateButton tick.1 tick.2 b).2 :: (runTicks (updateButton tick.1 tick.2 b).1 rest).2) :=
  rfl

theorem updateButton_first_release {n : Nat} {b : Button_t}
    (hs : b.State = BUTTON_STATE_PRESSED) (hMode : b.Mode = BUTTON_Mode_Toggle)
    (hHandler : b.Handler ≠ HandlerPtr.null) (hP : b.FirstClickDone = 0) :
    updateButton n false b =
      ({ b with FirstClickDone := 1, FirstClickReleaseTime := n,
                LastPressDuration := sub32 n b.StartTime,
                State := BUTTON_STATE_START, RepeatStarted := 0 }, []) := by
  simp [updateButton, updateSwitch, casePressed, releaseToggle, updateFlush, hs, hMode,
    hHandler, hP, sub32_self]

theorem updateButton_double_release {n : Nat} {b : Button_t}
    (hs : b.State = BUTTON_STATE_PRESSED) (hMode : b.Mode = BUTTON_Mode_Toggle)
    (hHandler : b.Handler ≠ HandlerPtr.null) (hP : b.FirstClickDone ≠ 0)
    (hGap : sub32 n b.FirstClickReleaseTime ≤ b.DoubleClickTime) :
    updateButton n false b =
      ({ b with FirstClickDone := 0, State := BUTTON_STATE_START, RepeatStarted := 0 },
       [BUTTON_PressType_Double]) := by
  simp [updateButton, updateSwitch, casePressed, releaseToggle, updateFlush, hs, hMode,
    hHandler, hP, hGap]

theorem updateButton_idle {n : Nat} {b : Button_t}
    (hs : b.State = BUTTON_STATE_START) (hf : noFlush n b) :
    updateButton n false b = (b, []) := by
  have h1 : updateSwitch n false b = (b, []) := by
    simp [updateSwitch, caseStart, hs]
  unfold updateButton
  rw [h1, updateFlush_of_noFlush hf]
  rfl

theorem runTicks_idle (ts : List Nat) (b : Button_t)
    (hs : b.State = BUTTON_STATE_START) (hf : ∀ t ∈ ts, noFlush t b) :
    runTicks b (ts.map (fun t => (t, false))) = (b, List.replicate ts.length []) := by
  induction ts with
  | nil => rfl
  | cons t rest ih =>
    have h1 : updateButton t false b = (b, []) :=
      updateButton_idle hs (hf t (List.mem_cons_self _ _))
    have h2 := ih (fun u hu => hf u (List.mem_cons_of_mem _ hu))
    simp only [List.map_cons, runTicks_cons, h1, h2, List.length_cons, List.replicate_succ]

theorem updateButton_idle_flush {n : Nat} {b : Button_t}
    (hs : b.State = BUTTON_STATE_START) (hMode : b.Mode = BUTTON_Mode_Toggle)
    (hHandler : b.Handler ≠ HandlerPtr.null) (hP : b.FirstClickDone ≠ 0)
    (hGap : b.DoubleClickTime < sub32 n b.FirstClickReleaseTime) :
    updateButton n false b =
      ({ b with FirstClickDone := 0 },
       [durationBand b.LastPressDuration b.NormalTime b.LongTime b.VeryLongTime]) := by
  have h1 : updateSwitch n false b = (b, []) := by
    simp [updateSwitch, caseStart, hs]
  unfold updateButton
  rw [h1]
  simp [updateFlush, durationBand, hMode, hHandler, hP, hGap]

/-- After a release the pin stays inactive: nothing is emitted while the gap has not
expired, the first tick past the gap emits the band of the recorded press, and nothing
follows. -/
theorem runTicks_pending_idle (early late : List Nat) (b : Button_t)
    (hs : b.State = BUTTON_STATE_START) (hMode : b.Mode = BUTTON_Mode_Toggle)
    (hHandler : b.Handler ≠ HandlerPtr.null) (hP : b.FirstClickDone ≠ 0)
    (hE : ∀ t ∈ early, sub32 t b.FirstClickReleaseTime ≤ b.DoubleClickTime)
    (hL : ∀ t ∈ late.head?, b.DoubleClickTime < sub32 t b.FirstClickReleaseTime) :
    (runTicks b ((early ++ late).map (fun t => (t, false)))).2 =
      List.replicate early.length [] ++
        (match late with
         | [] => []
         | _ :: rest =>
           [durationBand b.LastPressDuration b.NormalTime b.LongTime b.VeryLongTime] ::
             List.replicate rest.length []) := by
  rw [List.map_append, runTicks_append, runTicks_idle early b hs (fun t ht _ _ => hE t ht)]
  cases late with
  | nil => rfl
  | cons tf rest =>
    have hfl := updateButton_idle_flush (n := tf) hs hMode hHandler hP
      (hL tf (by simp))
    have hrest := runTicks_idle rest { b with FirstClickDone := 0 } hs
      (fun t _ _ h0 => absurd rfl h0)
    simp only [List.map_cons, runTicks_cons, hfl, hrest]

/-! ### The press start time is the time of an earlier tick -/

theorem updateSwitch_startTime (now : Nat) (cs : Bool) (b : Button_t)
    (h : (updateSwitch now cs b).1.State ≠ BUTTON_STATE_START) :
    (updateSwitch now cs b).1.StartTime = now ∨
      (b.State ≠ BUTTON_STATE_START ∧ (updateSwitch now cs b).1.StartTime = b.StartTime) := by
  unfold updateSwitch at h ⊢
  split_ifs at h ⊢ with h1 h2 h3
  · unfold caseStart at h ⊢
    split_ifs at h ⊢
    · exact Or.inl rfl
    · exact absurd h1 h
  · right
    refine ⟨h1, ?_⟩
    unfold caseDebounce
    split_ifs <;> rfl
  · right
    refine ⟨h1, ?_⟩
    unfold casePressed at h ⊢
    split_ifs at h ⊢
    · exact absurd rfl h
    · unfold repeatHold
      split_ifs <;> rfl
    · rfl
  · exact absurd rfl h

theorem updateButton_startTime (now : Nat) (cs : Bool) (b : Button_t)
    (h : (updateButton now cs b).1.State ≠ BUTTON_STATE_START) :
    (updateButton now cs b).1.StartTime = now ∨
      (b.State ≠ BUTTON_STATE_START ∧ (updateButton now cs b).1.StartTime = b.StartTime) := by
  have hf := updateFlush_state now (updateSwitch now cs b).1
  unfold updateButton at h ⊢
  simp only [hf.1, hf.2] at h ⊢
  exact updateSwitch_startTime now cs b h

theorem runTicks_startTime (ticks : List (Nat × Bool)) (b : Button_t)
    (h : (runTicks b ticks).1.State ≠ BUTTON_STATE_START) :
    (runTicks b ticks).1.StartTime ∈ ticks.map Prod.fst ∨
      (b.State ≠ BUTTON_STATE_START ∧ (runTicks b ticks).1.StartTime = b.StartTime) := by
  induction ticks generalizing b with
  | nil => exact Or.inr ⟨h, rfl⟩
  | cons tick rest ih =>
    rw [runTicks_cons] at h ⊢
    rcases ih (updateButton tick.1 tick.2 b).1 h with h1 | ⟨h1, h2⟩
    · exact Or.inl (List.mem_cons_of_mem _ h1)
    · rcases updateButton_startTime tick.1 tick.2 b h1 with h3 | ⟨h3, h4⟩
      · left
        simp only [List.map_cons, List.mem_cons]
        exact Or.inl (h2.trans h3)
      · exact Or.inr ⟨h3, h2.trans h4⟩

/-! ### C2: a single click is reported once, after the double-click gap -/

/-- C2: a Toggle button starts in Start with no first click pending.  The ticks `pre`
(non-decreasing times, any pin readings) contain no release and leave the button in
Pressed; the next tick, at time `tr`, reads the pin inactive (the release); every later
tick reads inactive.  Then the press started at or before `tr`, no event is emitted at any
tick with `now - tr ≤ DoubleClickTime`, the first tick with `now - tr > DoubleClickTime`
emits exactly the duration band of `tr - StartTime`, which is never Double, and no
further event follows. -/
theorem single_click_reported_after_gap (btn : Button_t) (pre : List (Nat × Bool))
    (tr : Nat) (early late : List Nat)
    (hMode : btn.Mode = BUTTON_Mode_Toggle) (hHandler : btn.Handler ≠ HandlerPtr.null)
    (hStart : btn.State = BUTTON_STATE_START) (hNoPending : btn.FirstClickDone = 0)
    (hPre : noRelease btn pre = true)
    (hPressed : (runTicks btn pre).1.State = BUTTON_STATE_PRESSED)
    (hTimes : (pre.map Prod.fst ++ tr :: (early ++ late)).Pairwise (fun a b => a ≤ b))
    (hRange : ∀ t ∈ pre.map Prod.fst ++ tr :: (early ++ late), t < 4294967296)
    (hEarly : ∀ t ∈ early, t - tr ≤ btn.DoubleClickTime)
    (hLate : ∀ t ∈ late.head?, btn.DoubleClickTime < t - tr) :
    (runTicks btn pre).1.StartTime ≤ tr ∧
    (runTicks btn (pre ++ (tr, false) :: (early ++ late).map (fun t => (t, false)))).2 =
      List.replicate (pre.length + 1 + early.length) [] ++
        (match late with
         | [] => []
         | _ :: rest =>
           [durationBand (tr - (runTicks btn pre).1.StartTime)
              btn.NormalTime btn.LongTime btn.VeryLongTime] ::
             List.replicate rest.length []) ∧
    durationBand (tr - (runTicks btn pre).1.StartTime)
      btn.NormalTime btn.LongTime btn.VeryLongTime ≠ BUTTON_PressType_Double := by
  have hq := runTicks_toggle_quiet pre btn hMode hPre (fun h => absurd hNoPending h)
  have hset := settings_fields (runTicks_settings pre btn)
  have hpend := hq.2
  simp only [Button_t.pending, Prod.mk.injEq] at hpend
  rw [List.pairwise_append] at hTimes
  have htr : tr < 4294967296 := hRange tr (by simp)
  -- the press started at an earlier tick
  have hst : (runTicks btn pre).1.StartTime ≤ tr := by
    rcases runTicks_startTime pre btn (by rw [hPressed]; decide) with h | ⟨h, _⟩
    · exact hTimes.2.2 _ h tr (List.mem_cons_self _ _)
    · exact absurd hStart h
  have hpost : ∀ t ∈ early ++ late, tr ≤ t ∧ t < 4294967296 := by
    intro t ht
    exact ⟨(List.pairwise_cons.mp hTimes.2.1).1 t ht,
      hRange t (by simp only [List.mem_append, List.mem_cons]; right; right
                   exact List.mem_append.mp ht)⟩
  -- the release tick
  have hrel := updateButton_first_release (n := tr) hPressed (hset.1.trans hMode)
    (by rw [hset.2.1]; exact hHandler) (hpend.1.trans hNoPending)
  -- the ticks after the release
  have hidle := runTicks_pending_idle early late
    { (runTicks btn pre).1 with
        FirstClickDone := 1, FirstClickReleaseTime := tr,
        LastPressDuration := sub32 tr (runTicks btn pre).1.StartTime,
        State := BUTTON_STATE_START, RepeatStarted := 0 }
    rfl (hset.1.trans hMode) (by show (runTicks btn pre).1.Handler ≠ _; rw [hset.2.1]; exact hHandler)
    (by show (1 : Nat) ≠ 0; decide)
    (by
      intro t ht
      have h1 := hpost t (List.mem_append_left _ ht)
      show sub32 t tr ≤ (runTicks btn pre).1.DoubleClickTime
      rw [sub32_eq_sub h1.1 h1.2, hset.2.2.2.2.2.2.1]
      exact hEarly t ht)
    (by
      intro t ht
      have hmem : t ∈ late := List.mem_of_mem_head? ht
      have h1 := hpost t (List.mem_append_right _ hmem)
      show (runTicks btn pre).1.DoubleClickTime < sub32 t tr
      rw [sub32_eq_sub h1.1 h1.2, hset.2.2.2.2.2.2.1]
      exact hLate t ht)
  refine ⟨hst, ?_, ?_⟩
  · rw [runTicks_append, runTicks_cons, hrel, hidle, hq.1]
    simp only [sub32_eq_sub hst htr, hset.2.2.2.1, hset.2.2.2.2.1, hset.2.2.2.2.2.1]
    rw [← List.cons_append, ← List.append_assoc]
    congr 1
    rw [← List.replicate_succ, ← List.replicate_add]
    congr 1
    omega
  · unfold durationBand
    split_ifs <;> decide

/-- Witness for C2: a 250 ms click on a button with a 100 ms gap is reported as
OnPressed at the first tick more than 100 ms after the release. -/
theorem single_click_reported_after_gap_witness :
    (runTicks toggleButtonGap100
        [(0, false), (10, true), (30, false), (60, true), (200, true), (260, false),
         (300, false), (360, false), (361, false), (400, false)]).2 =
      [[], [], [], [], [], [], [], [], [BUTTON_PressType_OnPressed], []] :=
  (single_click_reported_after_gap toggleButtonGap100
    [(0, false), (10, true), (30, false), (60, true), (200, true)] 260 [300, 360] [361, 400]
    (by decide) (by decide) (by decide) (by decide) (by decide) (by decide)
    (by decide) (by decide) (by decide) (by decide)).2.1

/-! ### C3: two releases within the gap give one Double -/

/-- C3: a Toggle button has no first click pending (it is in Start, or in any other
state).  The ticks `pre` contain no release and leave it in Pressed, the tick at `t1` reads the pin inactive (first
release), the ticks `mid` contain no release and leave it in Pressed again, the tick at `t2`
reads inactive (second release) with `t2 - t1 ≤ DoubleClickTime`, and every later tick reads
inactive; tick times are non-decreasing.  Then the whole run emits exactly one event,
Double, at the tick of the second release, and no duration-banded event at all. -/
theorem double_click_emits_one_double (btn : Button_t) (pre mid : List (Nat × Bool))
    (t1 t2 : Nat) (post : List Nat)
    (hMode : btn.Mode = BUTTON_Mode_Toggle) (hHandler : btn.Handler ≠ HandlerPtr.null)
    (hNoPending : btn.FirstClickDone = 0)
    (hPre : noRelease btn pre = true)
    (hPressed1 : (runTicks btn pre).1.State = BUTTON_STATE_PRESSED)
    (hMid : noRelease (runTicks btn (pre ++ [(t1, false)])).1 mid = true)
    (hPressed2 : (runTicks btn (pre ++ (t1, false) :: mid)).1.State = BUTTON_STATE_PRESSED)
    (hTimes : (pre.map Prod.fst ++ t1 :: (mid.map Prod.fst ++ t2 :: post)).Pairwise
      (fun a b => a ≤ b))
    (hRange : ∀ t ∈ pre.map Prod.fst ++ t1 :: (mid.map Prod.fst ++ t2 :: post), t < 4294967296)
    (hGap : t2 - t1 ≤ btn.DoubleClickTime) :
    (runTicks btn (pre ++ (t1, false) :: (mid ++ (t2, false) :: post.map (fun t => (t, false))))).2
      = List.replicate (pre.length + 1 + mid.length) [] ++
          [BUTTON_PressType_Double] :: List.replicate post.length [] := by
  have hq := runTicks_toggle_quiet pre btn hMode hPre (fun h => absurd hNoPending h)
  have hset := settings_fields (runTicks_settings pre btn)
  have hpend := hq.2
  simp only [Button_t.pending, Prod.mk.injEq] at hpend
  rw [List.pairwise_append, List.pairwise_cons, List.pairwise_append, List.pairwise_cons]
    at hTimes
  have ht2 : t2 < 4294967296 := hRange t2 (by simp)
  have ht12 : t1 ≤ t2 := hTimes.2.1.1 t2 (by simp)
  -- the first release
  have hrel := updateButton_first_release (n := t1) hPressed1 (hset.1.trans hMode)
    (by rw [hset.2.1]; exact hHandler) (hpend.1.trans hNoPending)
  have hb2 : (runTicks btn (pre ++ [(t1, false)])).1 = (updateButton t1 false (runTicks btn pre).1).1 := by
    rw [runTicks_append, runTicks_cons]
    rfl
  rw [hb2] at hMid
  have hEq : (runTicks btn (pre ++ (t1, false) :: mid)).1
      = (runTicks (updateButton t1 false (runTicks btn pre).1).1 mid).1 := by
    rw [runTicks_append, runTicks_cons]
  rw [hEq] at hPressed2
  -- the ticks between the two releases
  have hset2 := settings_fields (updateButton_settings t1 false (runTicks btn pre).1)
  have hqm := runTicks_toggle_quiet mid (updateButton t1 false (runTicks btn pre).1).1
    (hset2.1.trans (hset.1.trans hMode)) hMid (by
      intro _ t ht
      have hle1 : t1 ≤ t.1 := hTimes.2.1.1 t.1 (by
        simp only [List.mem_append, List.mem_map, List.mem_cons]
        exact Or.inl ⟨t, ht, rfl⟩)
      have hle2 : t.1 ≤ t2 := hTimes.2.1.2.2.2 t.1 (List.mem_map_of_mem _ ht) t2
        (List.mem_cons_self _ _)
      rw [hset2.2.2.2.2.2.2.1, hset.2.2.2.2.2.2.1, hrel]
      show sub32 t.1 t1 ≤ btn.DoubleClickTime
      rw [sub32_eq_sub hle1 (by omega)]
      omega)
  have hset3 := settings_fields
    (runTicks_settings mid (updateButton t1 false (runTicks btn pre).1).1)
  have hp2 : (updateButton t1 false (runTicks btn pre).1).1.pending
      = (1, t1, sub32 t1 (runTicks btn pre).1.StartTime) := by
    rw [hrel]
    rfl
  have hpend3 := hqm.2.trans hp2
  simp only [Button_t.pending, Prod.mk.injEq] at hpend3
  -- the second release
  have hrel2 := updateButton_double_release (n := t2) hPressed2
    (hset3.1.trans (hset2.1.trans (hset.1.trans hMode)))
    (by rw [hset3.2.1, hset2.2.1, hset.2.1]; exact hHandler)
    (by rw [hpend3.1]; decide)
    (by rw [hpend3.2.1, hset3.2.2.2.2.2.2.1, hset2.2.2.2.2.2.2.1, hset.2.2.2.2.2.2.1,
            sub32_eq_sub ht12 ht2]
        exact hGap)
  -- the ticks after it
  have hidle := runTicks_idle post
    { (runTicks (updateButton t1 false (runTicks btn pre).1).1 mid).1 with
        FirstClickDone := 0, State := BUTTON_STATE_START, RepeatStarted := 0 }
    rfl (fun t _ _ h0 => absurd rfl h0)
  rw [runTicks_append, runTicks_cons, runTicks_append, runTicks_cons, hrel2, hidle, hq.1, hqm.1,
    hrel]
  simp only []
  rw [← List.cons_append, ← List.append_assoc, ← List.replicate_succ, ← List.replicate_add]
  congr 2
  omega

/-- Witness for C3: two clicks released at 260 and 350 ms on a button with a 100 ms gap
emit one Double, at the second release. -/
theorem double_click_emits_one_double_witness :
    (runTicks toggleButtonGap100
        [(0, false), (10, true), (60, true), (200, true), (260, false),
         (270, false), (280, true), (330, true), (340, true), (350, false),
         (400, false), (500, false), (600, false)]).2 =
      [[], [], [], [], [], [], [], [], [], [BUTTON_PressType_Double], [], [], []] :=
  double_click_emits_one_double toggleButtonGap100
    [(0, false), (10, true), (60, true), (200, true)]
    [(270, false), (280, true), (330, true), (340, true)] 260 350 [400, 500, 600]
    (by decide) (by decide) (by decide) (by decide) (by decide)
    (by decide) (by decide) (by decide) (by decide) (by decide)

/-! ### Ticks of a Hold button -/

theorem noFlush_of_hold {n : Nat} {b : Button_t} (hMode : b.Mode = BUTTON_Mode_Hold) :
    noFlush n b :=
  fun h => absurd (hMode.symm.trans h) (by decide)

theorem updateButton_of_switch {n : Nat} {c : Bool} {b : Button_t}
    {res : Button_t × List ButtonPressType_t}
    (h : updateSwitch n c b = res) (hf : noFlush n res.1) :
    updateButton n c b = res := by
  unfold updateButton
  rw [h, updateFlush_of_noFlush hf, List.append_nil]

theorem updateButton_press {n : Nat} {b : Button_t}
    (hs : b.State = BUTTON_STATE_START) (hf : noFlush n b) :
    updateButton n true b =
      ({ b with StartTime := n, State := BUTTON_STATE_DEBOUNCE }, []) :=
  updateButton_of_switch (by simp [updateSwitch, caseStart, hs]) hf

theorem updateButton_debounce_wait {n : Nat} {c : Bool} {b : Button_t}
    (hs : b.State = BUTTON_STATE_DEBOUNCE) (hlt : sub32 n b.StartTime < b.DebounceTime)
    (hf : noFlush n b) :
    updateButton n c b = (b, []) :=
  updateButton_of_switch (by simp [updateSwitch, caseDebounce, hs, Nat.not_le.mpr hlt]) hf

theorem updateButton_debounce_bounce {n : Nat} {b : Button_t}
    (hs : b.State = BUTTON_STATE_DEBOUNCE) (hge : b.DebounceTime ≤ sub32 n b.StartTime)
    (hf : noFlush n b) :
    updateButton n false b = ({ b with State := BUTTON_STATE_START }, []) :=
  updateButton_of_switch (by simp [updateSwitch, caseDebounce, hs, hge]) hf

theorem runTicks_debounce_wait (deb : List (Nat × Bool)) (b : Button_t)
    (hs : b.State = BUTTON_STATE_DEBOUNCE)
    (hlt : ∀ t ∈ deb, sub32 t.1 b.StartTime < b.DebounceTime)
    (hf : ∀ t ∈ deb, noFlush t.1 b) :
    runTicks b deb = (b, List.replicate deb.length []) := by
  induction deb with
  | nil => rfl
  | cons t rest ih =>
    have h1 : updateButton t.1 t.2 b = (b, []) :=
      updateButton_debounce_wait hs (hlt t (List.mem_cons_self _ _))
        (hf t (List.mem_cons_self _ _))
    have h2 := ih (fun u hu => hlt u (List.mem_cons_of_mem _ hu))
      (fun u hu => hf u (List.mem_cons_of_mem _ hu))
    simp only [runTicks_cons, h1, h2, List.length_cons, List.replicate_succ]

/-- A Hold button in Start whose `RepeatStarted` is not 0 (a value that `BUTTON_Init` and
every release clear) emits its first Repeat one repeat interval after the entry into
Pressed, here at 250, before the repeat delay of 500 has elapsed. -/
theorem hold_repeat_active_at_start_example :
    (runTicks { holdButton with RepeatStarted := 1 } [(0, true), (50, true), (250, true)]).2
      = [[], [BUTTON_PressType_RepeatOnce], [BUTTON_PressType_Repeat]] := by
  decide

theorem noFlush_of_not_pending {n : Nat} {b : Button_t} (h : b.FirstClickDone = 0) :
    noFlush n b :=
  fun _ hp => absurd h hp

/-- While the pin reads inactive, a button in Start or Debounce with no pending click
emits nothing and stays in Start or Debounce; once in Start it stays there. -/
theorem runTicks_inactive_unpressed (ts : List Nat) (b : Button_t)
    (hs : b.State = BUTTON_STATE_START ∨ b.State = BUTTON_STATE_DEBOUNCE)
    (hP : b.FirstClickDone = 0) :
    (runTicks b (ts.map (fun t => (t, false)))).2 = List.replicate ts.length [] ∧
    ((runTicks b (ts.map (fun t => (t, false)))).1.State = BUTTON_STATE_START ∨
      (runTicks b (ts.map (fun t => (t, false)))).1.State = BUTTON_STATE_DEBOUNCE) ∧
    (b.State = BUTTON_STATE_START →
      (runTicks b (ts.map (fun t => (t, false)))).1.State = BUTTON_STATE_START) := by
  induction ts generalizing b with
  | nil => exact ⟨rfl, hs, fun h => h⟩
  | cons t rest ih =>
    rw [List.map_cons, runTicks_cons]
    rcases hs with hs | hs
    · have h1 := updateButton_idle (n := t) hs (noFlush_of_not_pending hP)
      have h2 := ih b (Or.inl hs) hP
      rw [h1]
      exact ⟨by simp only [h2.1, List.length_cons, List.replicate_succ], h2.2.1,
        fun _ => h2.2.2 hs⟩
    · have hne : b.State ≠ BUTTON_STATE_START := by rw [hs]; decide
      by_cases hlt : sub32 t b.StartTime < b.DebounceTime
      · have h1 := updateButton_debounce_wait (n := t) (c := false) hs hlt
          (noFlush_of_not_pending hP)
        have h2 := ih b (Or.inr hs) hP
        rw [h1]
        exact ⟨by simp only [h2.1, List.length_cons, List.replicate_succ], h2.2.1,
          fun h => absurd h hne⟩
      · have h1 := updateButton_debounce_bounce (n := t) hs (Nat.not_lt.mp hlt)
          (noFlush_of_not_pending hP)
        have h2 := ih { b with State := BUTTON_STATE_START } (Or.inl rfl) hP
        rw [h1]
        exact ⟨by simp only [h2.1, List.length_cons, List.replicate_succ], h2.2.1,
          fun h => absurd h hne⟩

/-- C5: a button of either mode is in Start with no first click pending; the pin reads
active at the first tick `t0` and inactive at every later tick (`rest`), tick times being
non-decreasing.  Then no tick emits an event, after no tick is the button in Pressed, it
is in Debounce until the first tick `tf` with `tf - t0 ≥ DebounceTime`, and in Start after
that tick and after every later one. -/
theorem short_press_rejected (btn : Button_t) (t0 : Nat) (rest : List Nat)
    (hStart : btn.State = BUTTON_STATE_START) (hNoPending : btn.FirstClickDone = 0)
    (hTimes : (t0 :: rest).Pairwise (fun a b => a ≤ b))
    (hRange : ∀ t ∈ t0 :: rest, t < 4294967296) :
    (runTicks btn ((t0, true) :: rest.map (fun t => (t, false)))).2
      = List.replicate (rest.length + 1) [] ∧
    (∀ n, (runTicks btn (((t0, true) :: rest.map (fun t => (t, false))).take n)).1.State
      ≠ BUTTON_STATE_PRESSED) ∧
    (∀ early tf late, rest = early ++ tf :: late →
      (∀ t ∈ early, t - t0 < btn.DebounceTime) → btn.DebounceTime ≤ tf - t0 →
      (runTicks btn ((t0, true) :: early.map (fun t => (t, false)))).1.State
        = BUTTON_STATE_DEBOUNCE ∧
      ∀ k, (runTicks btn ((t0, true) :: (early ++ tf :: late.take k).map
        (fun t => (t, false)))).1.State = BUTTON_STATE_START) := by
  have h1 := updateButton_press (n := t0) hStart (noFlush_of_not_pending hNoPending)
  rw [List.pairwise_cons] at hTimes
  refine ⟨?_, ?_, ?_⟩
  · have h2 := runTicks_inactive_unpressed rest
      { btn with StartTime := t0, State := BUTTON_STATE_DEBOUNCE } (Or.inr rfl) hNoPending
    rw [runTicks_cons, h1]
    simp only [h2.1, List.replicate_succ]
  · intro n
    cases n with
    | zero =>
      show btn.State ≠ BUTTON_STATE_PRESSED
      rw [hStart]
      decide
    | succ m =>
      have h2 := runTicks_inactive_unpressed (rest.take m)
        { btn with StartTime := t0, State := BUTTON_STATE_DEBOUNCE } (Or.inr rfl) hNoPending
      rw [List.take_succ_cons, ← List.map_take, runTicks_cons, h1]
      rcases h2.2.1 with h | h <;> simp only [] <;> rw [h] <;> decide
  · intro early tf late hrest hEarly hTf
    subst hrest
    have hwait := runTicks_debounce_wait (early.map (fun t => (t, false)))
      { btn with StartTime := t0, State := BUTTON_STATE_DEBOUNCE } rfl
      (by
        intro t ht
        obtain ⟨u, hu, rfl⟩ := List.mem_map.mp ht
        show sub32 u t0 < btn.DebounceTime
        rw [sub32_eq_sub (hTimes.1 u (List.mem_append_left _ hu))
          (hRange u (List.mem_cons_of_mem _ (List.mem_append_left _ hu)))]
        exact hEarly u hu)
      (fun t _ => noFlush_of_not_pending hNoPending)
    refine ⟨?_, fun k => ?_⟩
    · rw [runTicks_cons, h1]
      simp only []
      rw [hwait]
    · have htf : t0 ≤ tf ∧ tf < 4294967296 :=
        ⟨hTimes.1 tf (by simp), hRange tf (by simp)⟩
      have hb := updateButton_debounce_bounce (n := tf)
        (b := { btn with StartTime := t0, State := BUTTON_STATE_DEBOUNCE }) rfl
        (by show btn.DebounceTime ≤ sub32 tf t0
            rw [sub32_eq_sub htf.1 htf.2]
            exact hTf)
        (noFlush_of_not_pending hNoPending)
      have hl := runTicks_inactive_unpressed (late.take k)
        { btn with StartTime := t0, State := BUTTON_STATE_START } (Or.inl rfl) hNoPending
      rw [runTicks_cons, h1]
      simp only []
      rw [List.map_append, runTicks_append, hwait]
      simp only []
      rw [List.map_cons, runTicks_cons, hb]
      exact hl.2.2 rfl

/-- Witness for C5: a glitch at 0 ms on a button with a 50 ms debounce window emits
nothing; the button is in Debounce until the tick at 50 ms and in Start from then on. -/
theorem short_press_rejected_witness :
    (runTicks toggleButton [(0, true), (10, false), (49, false), (50, false), (80, false)]).2
      = [[], [], [], [], []] ∧
    (runTicks toggleButton [(0, true), (10, false), (49, false)]).1.State
      = BUTTON_STATE_DEBOUNCE ∧
    (runTicks toggleButton [(0, true), (10, false), (49, false), (50, false)]).1.State
      = BUTTON_STATE_START :=
  have h := short_press_rejected toggleButton 0 [10, 49, 50, 80]
    (by decide) (by decide) (by decide) (by decide)
  have h3 := h.2.2 [10, 49] 50 [80] rfl (by decide) (by decide)
  ⟨h.1, h3.1, h3.2 0⟩

/-! ### C6: a double-click gap of 0 -/

theorem updateFlush_no_double (now : Nat) (b : Button_t) :
    BUTTON_PressType_Double ∉ (updateFlush now b).2 := by
  unfold updateFlush
  split_ifs <;> simp

theorem updateFlush_fires {n : Nat} {b : Button_t} (hMode : b.Mode = BUTTON_Mode_Toggle)
    (hP : b.FirstClickDone ≠ 0)
    (hGap : b.DoubleClickTime < sub32 n b.FirstClickReleaseTime) :
    (updateFlush n b).1.FirstClickDone = 0 := by
  unfold updateFlush
  rw [if_pos ⟨hMode, hP⟩, if_pos hGap]

theorem updateButton_release_no_handler {n : Nat} {b : Button_t}
    (hs : b.State = BUTTON_STATE_PRESSED) (hMode : b.Mode = BUTTON_Mode_Toggle)
    (hHandler : b.Handler = HandlerPtr.null) (hP : b.FirstClickDone = 0) :
    updateButton n false b =
      ({ b with State := BUTTON_STATE_START, RepeatStarted := 0 }, []) :=
  updateButton_of_switch
    (by simp [updateSwitch, casePressed, releaseToggle, hs, hMode, hHandler])
    (noFlush_of_not_pending hP)

/-- One tick of a Toggle button with gap 0: if a pending click, if any, was released at
the previous tick time `tprev`, and time has advanced since or the debounce window is
nonzero, the tick emits no Double and the same holds again at the new tick time. -/
theorem updateButton_gap_zero (b : Button_t) (tprev now : Nat) (cs : Bool)
    (hMode : b.Mode = BUTTON_Mode_Toggle) (hGap : b.DoubleClickTime = 0)
    (hInv : pendingAt tprev b) (hnow : now < 4294967296) (hprev : tprev < 4294967296)
    (hT : b.FirstClickDone ≠ 0 → tprev < now ∨ (tprev ≤ now ∧ 0 < b.DebounceTime)) :
    BUTTON_PressType_Double ∉ (updateButton now cs b).2 ∧
      pendingAt now (updateButton now cs b).1 := by
  by_cases hP : b.FirstClickDone = 0
  · by_cases hrel : b.State = BUTTON_STATE_PRESSED ∧ cs = false
    · obtain ⟨hs, rfl⟩ := hrel
      by_cases hH : b.Handler = HandlerPtr.null
      · rw [updateButton_release_no_handler hs hMode hH hP]
        exact ⟨by simp, fun h => absurd hP h⟩
      · rw [updateButton_first_release hs hMode hH hP]
        exact ⟨by simp, fun _ => ⟨rfl, Or.inl rfl⟩⟩
    · have hq := updateButton_toggle_quiet (n := now) hMode hrel (noFlush_of_not_pending hP)
      have hp := hq.2
      simp only [Button_t.pending, Prod.mk.injEq] at hp
      refine ⟨by rw [hq.1]; simp, fun h => absurd (hp.1.trans hP) h⟩
  · obtain ⟨hF, hS⟩ := hInv hP
    have hrel : ¬ (b.State = BUTTON_STATE_PRESSED ∧ cs = false) := by
      rintro ⟨h, _⟩
      rcases hS with h1 | ⟨h1, _⟩ <;> rw [h1] at h <;> exact absurd h (by decide)
    have hsq := updateSwitch_toggle_quiet (n := now) hMode hrel
    have hsp := updateSwitch_pending (n := now) hrel
    have hss := settings_fields (updateSwitch_settings now cs b)
    simp only [Button_t.pending, Prod.mk.injEq] at hsp
    have hfs := updateFlush_state now (updateSwitch now cs b).1
    refine ⟨?_, ?_⟩
    · unfold updateButton
      rw [hsq, List.nil_append]
      exact updateFlush_no_double now _
    · by_cases hlt : 0 < sub32 now tprev
      · have h0 := updateFlush_fires (n := now) (b := (updateSwitch now cs b).1)
          (hss.1.trans hMode) (by rw [hsp.1]; exact hP)
          (by rw [hss.2.2.2.2.2.2.1, hGap, hsp.2.1, hF]; exact hlt)
        intro h
        exact absurd h0 h
      · have heq : now = tprev := sub32_eq_zero hnow hprev (by omega)
        subst heq
        have hD : 0 < b.DebounceTime := by
          rcases hT hP with h | h
          · omega
          · exact h.2
        have hnf : noFlush now (updateSwitch now cs b).1 := by
          intro _ _
          rw [hsp.2.1, hF, sub32_self]
          exact Nat.zero_le _
        have hfl := updateFlush_of_noFlush hnf
        intro _
        unfold updateButton
        rw [hfl]
        refine ⟨hsp.2.1.trans hF, ?_⟩
        rcases hS with h1 | ⟨h1, h2⟩
        · unfold updateSwitch
          rw [if_pos h1]
          unfold caseStart
          split_ifs
          · exact Or.inr ⟨rfl, rfl⟩
          · exact Or.inl h1
        · have hne : ¬ b.State = BUTTON_STATE_START := by rw [h1]; decide
          have hw : ¬ sub32 now b.StartTime ≥ b.DebounceTime := by
            rw [h2, sub32_self]
            omega
          unfold updateSwitch
          rw [if_neg hne, if_pos h1]
          unfold caseDebounce
          rw [if_neg hw]
          exact Or.inr ⟨h1, h2⟩

theorem runTicks_gap_zero (ticks : List (Nat × Bool)) (b : Button_t) (tprev : Nat)
    (hMode : b.Mode = BUTTON_Mode_Toggle) (hGap : b.DoubleClickTime = 0)
    (hInv : pendingAt tprev b) (hprev : tprev < 4294967296)
    (hRange : ∀ t ∈ ticks, t.1 < 4294967296)
    (hT : (0 < b.DebounceTime ∧ (tprev :: ticks.map Prod.fst).Pairwise (fun a c => a ≤ c)) ∨
      (tprev :: ticks.map Prod.fst).Pairwise (fun a c => a < c)) :
    ∀ evs ∈ (runTicks b ticks).2, BUTTON_PressType_Double ∉ evs := by
  induction ticks generalizing b tprev with
  | nil => intro evs h; simp [runTicks] at h
  | cons tick rest ih =>
    have hnow := hRange tick (List.mem_cons_self _ _)
    have hstep := updateButton_gap_zero b tprev tick.1 tick.2 hMode hGap hInv hnow hprev (by
      intro _
      rcases hT with ⟨hD, hP⟩ | hP
      · exact Or.inr ⟨(List.pairwise_cons.mp hP).1 tick.1 (by simp), hD⟩
      · exact Or.inl ((List.pairwise_cons.mp hP).1 tick.1 (by simp)))
    have hs := settings_fields (updateButton_settings tick.1 tick.2 b)
    have hrec := ih (updateButton tick.1 tick.2 b).1 tick.1 (hs.1.trans hMode)
      (hs.2.2.2.2.2.2.1.trans hGap) hstep.2 hnow
      (fun t ht => hRange t (List.mem_cons_of_mem _ ht)) (by
        rw [hs.2.2.1]
        rcases hT with ⟨hD, hP⟩ | hP
        · exact Or.inl ⟨hD, (List.pairwise_cons.mp hP).2⟩
        · exact Or.inr (List.pairwise_cons.mp hP).2)
    intro evs hevs
    rw [runTicks_cons] at hevs
    rcases List.mem_cons.mp hevs with h | h
    · rw [h]; exact hstep.1
    · exact hrec evs h

/-- C6 as stated is false: with a debounce window of 0 and all ticks at the same tick
value, a Toggle button registered with gap 0 goes through two press-release cycles and
the second release emits Double. -/
theorem gap_zero_double_counterexample :
    toggleButtonNoDebounce.DoubleClickTime = 0 ∧
    toggleButtonNoDebounce.DebounceTime = 0 ∧
    toggleButtonNoDebounce.State = BUTTON_STATE_START ∧
    toggleButtonNoDebounce.FirstClickDone = 0 ∧
    (runTicks toggleButtonNoDebounce
        [(5, true), (5, true), (5, false), (5, true), (5, true), (5, false)]).2
      = [[], [], [], [], [], [BUTTON_PressType_Double]] := by
  decide

/-- C6, amended: a Toggle button whose gap is 0 and which has no first click pending
never emits Double, for every pin sequence and every non-decreasing sequence of tick
times, provided the debounce window is nonzero or the tick times are strictly
increasing. -/
theorem gap_zero_never_double (btn : Button_t) (ticks : List (Nat × Bool))
    (hMode : btn.Mode = BUTTON_Mode_Toggle) (hGap : btn.DoubleClickTime = 0)
    (hNoPending : btn.FirstClickDone = 0)
    (hRange : ∀ t ∈ ticks, t.1 < 4294967296)
    (hT : (0 < btn.DebounceTime ∧ (ticks.map Prod.fst).Pairwise (fun a c => a ≤ c)) ∨
      (ticks.map Prod.fst).Pairwise (fun a c => a < c)) :
    ∀ evs ∈ (runTicks btn ticks).2, BUTTON_PressType_Double ∉ evs := by
  cases ticks with
  | nil => intro evs h; simp [runTicks] at h
  | cons tick rest =>
    have hnow := hRange tick (List.mem_cons_self _ _)
    have hstep := updateButton_gap_zero btn tick.1 tick.1 tick.2 hMode hGap
      (fun h => absurd hNoPending h) hnow hnow (fun h => absurd hNoPending h)
    have hs := settings_fields (updateButton_settings tick.1 tick.2 btn)
    have hrec := runTicks_gap_zero rest (updateButton tick.1 tick.2 btn).1 tick.1
      (hs.1.trans hMode) (hs.2.2.2.2.2.2.1.trans hGap) hstep.2 hnow
      (fun t ht => hRange t (List.mem_cons_of_mem _ ht)) (by
        rw [hs.2.2.1]
        exact hT)
    intro evs hevs
    rw [runTicks_cons] at hevs
    rcases List.mem_cons.mp hevs with h | h
    · rw [h]; exact hstep.1
    · exact hrec evs h

/-- Witness for amended C6: with the default 50 ms debounce window, two clicks on a
button with gap 0 emit their duration bands and no Double, even at equal tick values. -/
theorem gap_zero_never_double_witness :
    (runTicks toggleButton
        [(5, true), (55, true), (60, false), (60, true), (110, true), (110, false),
         (120, false)]).2.all (fun evs => decide (BUTTON_PressType_Double ∉ evs)) = true :=
  List.all_eq_true.mpr (fun evs h => decide_eq_true
    (gap_zero_never_double toggleButton
      [(5, true), (55, true), (60, false), (60, true), (110, true), (110, false), (120, false)]
      (by decide) (by decide) (by decide) (by decide) (Or.inl (by decide)) evs h))

/-! ### C7: the release tick with a double-click gap of 0 -/

theorem updateFlush_fires_eq {n : Nat} {b : Button_t} (hMode : b.Mode = BUTTON_Mode_Toggle)
    (hHandler : b.Handler ≠ HandlerPtr.null) (hP : b.FirstClickDone ≠ 0)
    (hGap : b.DoubleClickTime < sub32 n b.FirstClickReleaseTime) :
    updateFlush n b =
      ({ b with FirstClickDone := 0 },
       [durationBand b.LastPressDuration b.NormalTime b.LongTime b.VeryLongTime]) := by
  simp [updateFlush, durationBand, hMode, hHandler, hP, hGap]

/-- C7 as stated is false: a Toggle button registered with gap 0 is in Pressed with no
first click pending after a debounced press; the tick that reads the pin inactive emits
no event and ends with the first click pending. -/
theorem gap_zero_release_counterexample :
    (runTicks toggleButton [(0, true), (50, true)]).1.State = BUTTON_STATE_PRESSED ∧
    (runTicks toggleButton [(0, true), (50, true)]).1.DoubleClickTime = 0 ∧
    (runTicks toggleButton [(0, true), (50, true)]).1.FirstClickDone = 0 ∧
    (updateButton 250 false (runTicks toggleButton [(0, true), (50, true)]).1).2 = [] ∧
    (updateButton 250 false (runTicks toggleButton [(0, true), (50, true)]).1).1.FirstClickDone
      = 1 := by
  decide

/-- One tick at the tick value `now` at which a still pending click was released, on a
Toggle button with gap 0 and a nonzero debounce window that is in Start or has entered
Debounce at `now`: the tick emits nothing, keeps the pending record, and leaves the button
in Start or in Debounce entered at `now`. -/
theorem updateButton_same_value_quiet (b : Button_t) (now : Nat) (cs : Bool)
    (hMode : b.Mode = BUTTON_Mode_Toggle) (hD : 0 < b.DebounceTime)
    (hRel : b.FirstClickReleaseTime = now)
    (hS : b.State = BUTTON_STATE_START ∨
      (b.State = BUTTON_STATE_DEBOUNCE ∧ b.StartTime = now)) :
    (updateButton now cs b).2 = [] ∧
    (updateButton now cs b).1.pending = b.pending ∧
    ((updateButton now cs b).1.State = BUTTON_STATE_START ∨
      ((updateButton now cs b).1.State = BUTTON_STATE_DEBOUNCE ∧
        (updateButton now cs b).1.StartTime = now)) := by
  have hrel : ¬ (b.State = BUTTON_STATE_PRESSED ∧ cs = false) := by
    rintro ⟨h, _⟩
    rcases hS with h1 | ⟨h1, _⟩ <;> rw [h1] at h <;> exact absurd h (by decide)
  have hnf : noFlush now b := by
    intro _ _
    rw [hRel, sub32_self]
    exact Nat.zero_le _
  have hq := updateButton_toggle_quiet (n := now) (c := cs) hMode hrel hnf
  refine ⟨hq.1, hq.2, ?_⟩
  have hf := updateFlush_state now (updateSwitch now cs b).1
  show (updateFlush now (updateSwitch now cs b).1).1.State = BUTTON_STATE_START ∨
    ((updateFlush now (updateSwitch now cs b).1).1.State = BUTTON_STATE_DEBOUNCE ∧
      (updateFlush now (updateSwitch now cs b).1).1.StartTime = now)
  rw [hf.1, hf.2]
  rcases hS with h1 | ⟨h1, h2⟩
  · unfold updateSwitch
    rw [if_pos h1]
    unfold caseStart
    split_ifs
    · exact Or.inr ⟨rfl, rfl⟩
    · exact Or.inl h1
  · have hne : ¬ b.State = BUTTON_STATE_START := by rw [h1]; decide
    have hw : ¬ sub32 now b.StartTime ≥ b.DebounceTime := by
      rw [h2, sub32_self]
      omega
    unfold updateSwitch
    rw [if_neg hne, if_pos h1]
    unfold caseDebounce
    rw [if_neg hw]
    exact Or.inr ⟨h1, h2⟩

/-- Any number of ticks at the tick value of the release of a pending click, under the
conditions of `updateButton_same_value_quiet`: all of them emit nothing and the pending
record is kept. -/
theorem runTicks_same_value_quiet (same : List Bool) (b : Button_t) (now : Nat)
    (hMode : b.Mode = BUTTON_Mode_Toggle) (hD : 0 < b.DebounceTime)
    (hRel : b.FirstClickReleaseTime = now)
    (hS : b.State = BUTTON_STATE_START ∨
      (b.State = BUTTON_STATE_DEBOUNCE ∧ b.StartTime = now)) :
    (runTicks b (same.map (fun c => (now, c)))).2 = List.replicate same.length [] ∧
    (runTicks b (same.map (fun c => (now, c)))).1.pending = b.pending ∧
    ((runTicks b (same.map (fun c => (now, c)))).1.State = BUTTON_STATE_START ∨
      (runTicks b (same.map (fun c => (now, c)))).1.State = BUTTON_STATE_DEBOUNCE) := by
  induction same generalizing b with
  | nil =>
    exact ⟨rfl, rfl, hS.elim Or.inl (fun h => Or.inr h.1)⟩
  | cons c rest ih =>
    obtain ⟨hev, hpend, hstate⟩ := updateButton_same_value_quiet b now c hMode hD hRel hS
    have hs := settings_fields (updateButton_settings now c b)
    have hp := hpend
    simp only [Button_t.pending, Prod.mk.injEq] at hp
    obtain ⟨h1, h2, h3⟩ := ih (updateButton now c b).1 (hs.1.trans hMode)
      (by rw [hs.2.2.1]; exact hD) (hp.2.1.trans hRel) hstate
    rw [List.map_cons, runTicks_cons]
    simp only [List.length_cons, List.replicate_succ]
    exact ⟨by rw [hev, h1], h2.trans hpend, h3⟩

/-- A tick at a tick value other than the release time of a pending click, on a Toggle
button with a handler and gap 0 that is not in Pressed: the deferred flush emits exactly
the band of the recorded press and clears the pending click, whatever the pin reads. -/
theorem updateButton_gap_zero_flush (b : Button_t) (next : Nat) (cs : Bool)
    (hMode : b.Mode = BUTTON_Mode_Toggle) (hHandler : b.Handler ≠ HandlerPtr.null)
    (hGap : b.DoubleClickTime = 0) (hP : b.FirstClickDone ≠ 0)
    (hS : b.State = BUTTON_STATE_START ∨ b.State = BUTTON_STATE_DEBOUNCE)
    (hRange : b.FirstClickReleaseTime < 4294967296) (hnext : next < 4294967296)
    (hne : next ≠ b.FirstClickReleaseTime) :
    (updateButton next cs b).2 =
      [durationBand b.LastPressDuration b.NormalTime b.LongTime b.VeryLongTime] ∧
    (updateButton next cs b).1.FirstClickDone = 0 := by
  have hrel : ¬ (b.State = BUTTON_STATE_PRESSED ∧ cs = false) := by
    rintro ⟨h, _⟩
    rcases hS with h1 | h1 <;> rw [h1] at h <;> exact absurd h (by decide)
  have hpos : 0 < sub32 next b.FirstClickReleaseTime := by
    unfold sub32
    omega
  have hsq := updateSwitch_toggle_quiet (n := next) (c := cs) hMode hrel
  have hsp := updateSwitch_pending (n := next) (c := cs) hrel
  have hss := settings_fields (updateSwitch_settings next cs b)
  simp only [Button_t.pending, Prod.mk.injEq] at hsp
  have hfl := updateFlush_fires_eq (n := next) (hss.1.trans hMode)
    (by rw [hss.2.1]; exact hHandler) (by rw [hsp.1]; exact hP)
    (by rw [hss.2.2.2.2.2.2.1, hsp.2.1, hGap]; exact hpos)
  unfold updateButton
  rw [hsq, hfl, hsp.2.2, hss.2.2.2.1, hss.2.2.2.2.1, hss.2.2.2.2.2.1]
  exact ⟨rfl, rfl⟩

/-- With a debounce window of 0 the ticks at the release tick value are not all silent: a
Toggle button with gap 0 in Pressed is released at 5, pressed and released again within
further ticks at 5, and the second release emits Double; the tick at 6 emits nothing. -/
theorem gap_zero_same_value_double_example :
    (runTicks toggleButtonNoDebounce [(5, true), (5, true)]).1.State = BUTTON_STATE_PRESSED ∧
    (runTicks toggleButtonNoDebounce [(5, true), (5, true)]).1.FirstClickDone = 0 ∧
    (runTicks (runTicks toggleButtonNoDebounce [(5, true), (5, true)]).1
        [(5, false), (5, true), (5, true), (5, false), (6, false)]).2
      = [[], [], [], [BUTTON_PressType_Double], []] := by
  decide

/-- C7, amended: for a Toggle button with a handler, in Pressed with gap 0 and no first
click pending, the tick that reads the pin inactive emits no event and leaves the first
click pending (release time `now`, duration `now - StartTime`, state Start).  The tick
right after it emits nothing and keeps the click pending if it has the same tick value,
and emits exactly the duration band of that press and clears the pending click if it has
another tick value, whatever the pin reads.  When the debounce window is nonzero, any
number of ticks at the release tick value, with any pin readings, emit nothing, and the
first tick at another tick value after them emits exactly the duration band of that press
and clears the pending click. -/
theorem gap_zero_release_deferred (btn : Button_t) (now : Nat)
    (hMode : btn.Mode = BUTTON_Mode_Toggle) (hHandler : btn.Handler ≠ HandlerPtr.null)
    (hPressed : btn.State = BUTTON_STATE_PRESSED) (hGap : btn.DoubleClickTime = 0)
    (hNoPending : btn.FirstClickDone = 0) (hnow : now < 4294967296) :
    updateButton now false btn =
      ({ btn with FirstClickDone := 1, FirstClickReleaseTime := now,
                  LastPressDuration := sub32 now btn.StartTime,
                  State := BUTTON_STATE_START, RepeatStarted := 0 }, []) ∧
    (∀ cs, (updateButton now cs (updateButton now false btn).1).2 = [] ∧
      (updateButton now cs (updateButton now false btn).1).1.FirstClickDone = 1) ∧
    (∀ next cs, next < 4294967296 → next ≠ now →
      (updateButton next cs (updateButton now false btn).1).2 =
        [durationBand (sub32 now btn.StartTime) btn.NormalTime btn.LongTime btn.VeryLongTime] ∧
      (updateButton next cs (updateButton now false btn).1).1.FirstClickDone = 0) ∧
    (0 < btn.DebounceTime → ∀ (same : List Bool) (next : Nat) (cs : Bool),
      next < 4294967296 → next ≠ now →
      (runTicks (updateButton now false btn).1
          (same.map (fun c => (now, c)) ++ [(next, cs)])).2 =
        List.replicate same.length [] ++
          [[durationBand (sub32 now btn.StartTime) btn.NormalTime btn.LongTime
              btn.VeryLongTime]] ∧
      (runTicks (updateButton now false btn).1
          (same.map (fun c => (now, c)) ++ [(next, cs)])).1.FirstClickDone = 0) := by
  have hrel := updateButton_first_release (n := now) hPressed hMode hHandler hNoPending
  have hnr : ∀ cs : Bool, ¬ (BUTTON_STATE_START = BUTTON_STATE_PRESSED ∧ cs = false) := by
    rintro cs ⟨h, _⟩
    exact absurd h (by decide)
  refine ⟨hrel, ?_, ?_, ?_⟩
  · intro cs
    rw [hrel]
    have hq := updateButton_toggle_quiet (n := now) (c := cs)
      (b := { btn with FirstClickDone := 1, FirstClickReleaseTime := now,
                       LastPressDuration := sub32 now btn.StartTime,
                       State := BUTTON_STATE_START, RepeatStarted := 0 })
      hMode (hnr cs)
      (by intro _ _
          show sub32 now now ≤ btn.DoubleClickTime
          rw [sub32_self]
          exact Nat.zero_le _)
    have hp := hq.2
    simp only [Button_t.pending, Prod.mk.injEq] at hp
    exact ⟨hq.1, hp.1⟩
  · intro next cs hnext hne
    rw [hrel]
    exact updateButton_gap_zero_flush
      { btn with FirstClickDone := 1, FirstClickReleaseTime := now,
                 LastPressDuration := sub32 now btn.StartTime,
                 State := BUTTON_STATE_START, RepeatStarted := 0 }
      next cs hMode hHandler hGap (by show (1 : Nat) ≠ 0; decide) (Or.inl rfl) hnow hnext hne
  · intro hD same next cs hnext hne
    rw [hrel]
    obtain ⟨h1, h2, h3⟩ := runTicks_same_value_quiet same
      { btn with FirstClickDone := 1, FirstClickReleaseTime := now,
                 LastPressDuration := sub32 now btn.StartTime,
                 State := BUTTON_STATE_START, RepeatStarted := 0 }
      now hMode hD rfl (Or.inl rfl)
    have hs := settings_fields (runTicks_settings (same.map (fun c => (now, c)))
      { btn with FirstClickDone := 1, FirstClickReleaseTime := now,
                 LastPressDuration := sub32 now btn.StartTime,
                 State := BUTTON_STATE_START, RepeatStarted := 0 })
    simp only [Button_t.pending, Prod.mk.injEq] at h2
    have hfl := updateButton_gap_zero_flush _ next cs (hs.1.trans hMode)
      (by rw [hs.2.1]; exact hHandler) (hs.2.2.2.2.2.2.1.trans hGap)
      (by rw [h2.1]; show (1 : Nat) ≠ 0; decide) h3
      (by rw [h2.2.1]; exact hnow) hnext (by rw [h2.2.1]; exact hne)
    rw [h2.2.2, hs.2.2.2.1, hs.2.2.2.2.1, hs.2.2.2.2.2.1] at hfl
    rw [runTicks_append, h1]
    exact ⟨by rw [runTicks_cons, hfl.1]; rfl, hfl.2⟩

/-- Witness for amended C7: a 250 ms press on a button with gap 0 and the default 50 ms
debounce window is released at 250; three more ticks at 250 with the pin active, inactive
and active emit nothing, and the tick at 251 reports OnPressed. -/
theorem gap_zero_release_deferred_witness :
    (updateButton 250 false (runTicks toggleButton [(0, true), (50, true)]).1).2 = [] ∧
    (updateButton 251 false
      (updateButton 250 false (runTicks toggleButton [(0, true), (50, true)]).1).1).2
      = [BUTTON_PressType_OnPressed] ∧
    (runTicks (updateButton 250 false (runTicks toggleButton [(0, true), (50, true)]).1).1
        ([true, false, true].map (fun c => (250, c)) ++ [(251, false)])).2
      = List.replicate [true, false, true].length [] ++ [[BUTTON_PressType_OnPressed]] :=
  have h := gap_zero_release_deferred (runTicks toggleButton [(0, true), (50, true)]).1 250
    (by decide) (by decide) (by decide) (by decide) (by decide) (by decide)
  ⟨congrArg Prod.snd h.1, (h.2.2.1 251 false (by decide) (by decide)).1,
   (h.2.2.2 (by decide) [true, false, true] 251 false (by decide) (by decide)).1⟩

/-! ### C8: the live count stays within the capacity -/

theorem deinitShift_count (n j : Nat) (r : Registry) :
    (deinitShift j n r).buttonCount = r.buttonCount := by
  induction n generalizing j r with
  | zero => rfl
  | succ m ih =>
    unfold deinitShift
    rw [ih]

theorem deinitSearch_count (btn : Ptr) (n i : Nat) (r : Registry)
    (h : i + n = r.buttonCount) :
    (deinitSearch btn i n r).buttonCount = r.buttonCount ∨
      (1 ≤ r.buttonCount ∧
        (deinitSearch btn i n r).buttonCount = (r.buttonCount + 255) % 256) := by
  induction n generalizing i with
  | zero => exact Or.inl rfl
  | succ m ih =>
    unfold deinitSearch
    split_ifs
    · exact Or.inr ⟨by omega, rfl⟩
    · exact ih (i + 1) (by omega)

theorem BUTTON_Deinit_count (btn : Ptr) (r : Registry) :
    (BUTTON_Deinit btn r).buttonCount = r.buttonCount ∨
      (1 ≤ r.buttonCount ∧ (BUTTON_Deinit btn r).buttonCount = (r.buttonCount + 255) % 256) := by
  unfold BUTTON_Deinit
  split_ifs
  · exact Or.inl rfl
  · exact deinitSearch_count btn r.buttonCount 0 r (by omega)

theorem store_count (r : Registry) (p : Ptr) (f : Button_t → Button_t) :
    (r.store p f).buttonCount = r.buttonCount := by
  cases p <;> rfl

theorem updateLoop_count (now : Nat) (idr : Nat → Nat) (n i : Nat) (r : Registry) :
    (updateLoop now idr i n r).1.buttonCount = r.buttonCount := by
  induction n generalizing i r with
  | zero => rfl
  | succ m ih =>
    unfold updateLoop
    split
    · simp only []
      rw [ih]
    · rw [ih]

theorem BUTTON_Init_count (GPIOx GPIO_Pin ActiveState mode : Nat) (Handler : HandlerPtr)
    (r : Registry) :
    (r.buttonCount ≥ BUTTON_MAX →
      BUTTON_Init GPIOx GPIO_Pin ActiveState mode Handler r = (Ptr.null, r)) ∧
    (r.buttonCount < BUTTON_MAX → (mode = BUTTON_Mode_Toggle ∨ mode = BUTTON_Mode_Hold) →
      (BUTTON_Init GPIOx GPIO_Pin ActiveState mode Handler r).1 = Ptr.slot r.buttonCount ∧
      (BUTTON_Init GPIOx GPIO_Pin ActiveState mode Handler r).2.buttonCount
        = r.buttonCount + 1) ∧
    (r.buttonCount < BUTTON_MAX → ¬ (mode = BUTTON_Mode_Toggle ∨ mode = BUTTON_Mode_Hold) →
      (BUTTON_Init GPIOx GPIO_Pin ActiveState mode Handler r).1 = Ptr.null ∧
      (BUTTON_Init GPIOx GPIO_Pin ActiveState mode Handler r).2.buttonCount
        = r.buttonCount) := by
  unfold BUTTON_Init BUTTON_MAX
  refine ⟨fun h => by rw [if_pos h], fun h hm => ?_, fun h hm => ?_⟩
  · rw [if_neg (by omega)]
    rcases hm with hm | hm
    · subst hm
      simp only [if_true]
      exact ⟨trivial, by omega⟩
    · subst hm
      simp only [show ¬ (BUTTON_Mode_Hold = BUTTON_Mode_Toggle) by decide, if_false, if_true]
      exact ⟨trivial, by omega⟩
  · rw [if_neg (by omega)]
    simp only [not_or] at hm
    simp only [hm.1, hm.2, if_false]
    exact ⟨trivial, by omega⟩

theorem Call.apply_count (c : Call) (r r1 : Registry) (h : c.apply r = some r1)
    (hr : r.buttonCount ≤ BUTTON_MAX) : r1.buttonCount ≤ BUTTON_MAX := by
  cases c with
  | init GPIOx GPIO_Pin ActiveState mode Handler =>
    simp only [Call.apply, Option.some.injEq] at h
    subst h
    have hI := BUTTON_Init_count GPIOx GPIO_Pin ActiveState mode Handler r
    by_cases hfull : r.buttonCount ≥ BUTTON_MAX
    · rw [hI.1 hfull]
      exact hr
    · by_cases hm : mode = BUTTON_Mode_Toggle ∨ mode = BUTTON_Mode_Hold
      · rw [(hI.2.1 (by omega) hm).2]
        omega
      · rw [(hI.2.2 (by omega) hm).2]
        exact hr
  | deinit btn =>
    simp only [Call.apply, Option.some.injEq] at h
    subst h
    rcases BUTTON_Deinit_count btn r with h1 | ⟨h1, h2⟩
    · rw [h1]; exact hr
    · rw [h2]
      unfold BUTTON_MAX at *
      omega
  | setDebounce btn debounceTime =>
    simp only [Call.apply, Set_DebounceTime] at h
    split_ifs at h
    simp only [Option.some.injEq] at h
    subst h
    rw [store_count]
    exact hr
  | setHold btn delay interval =>
    simp only [Call.apply, SetTime_Hold_mode, Option.some.injEq] at h
    subst h
    split_ifs
    · exact hr
    · rw [store_count]
      exact hr
  | setToggle btn time4Double normal longer very_long =>
    simp only [Call.apply, SetTime_Toggle_mode, Option.some.injEq] at h
    subst h
    split_ifs
    · exact hr
    · rw [store_count]
      exact hr
  | update now idr =>
    simp only [Call.apply, BUTTON_Update, Option.some.injEq] at h
    subst h
    rw [updateLoop_count]
    exact hr

theorem runCalls_count (calls : List Call) (r r1 : Registry)
    (h : runCalls calls r = some r1) (hr : r.buttonCount ≤ BUTTON_MAX) :
    r1.buttonCount ≤ BUTTON_MAX := by
  induction calls generalizing r with
  | nil =>
    simp only [runCalls, Option.some.injEq] at h
    subst h
    exact hr
  | cons c rest ih =>
    unfold runCalls at h
    split at h
    · rename_i r2 h2
      exact ih r2 h (Call.apply_count c r r2 h2 hr)
    · cases h

theorem runCalls_defined (calls : List Call) (r : Registry)
    (h : ∀ c ∈ calls, c.derefsNull = false) : (runCalls calls r).isSome = true := by
  induction calls generalizing r with
  | nil => rfl
  | cons c rest ih =>
    have hc := h c (List.mem_cons_self _ _)
    have hrest := fun r2 => ih r2 (fun d hd => h d (List.mem_cons_of_mem _ hd))
    unfold runCalls
    cases c with
    | setDebounce btn debounceTime =>
      cases btn with
      | null => simp [Call.derefsNull] at hc
      | slot k => exact hrest _
      | other a => exact hrest _
    | init GPIOx GPIO_Pin ActiveState mode Handler => exact hrest _
    | deinit btn => exact hrest _
    | setHold btn delay interval => exact hrest _
    | setToggle btn time4Double normal longer very_long => exact hrest _
    | update now idr => exact hrest _

/-- C8: starting from the empty registry, after every sequence of `BUTTON_Init`,
`BUTTON_Deinit`, setter and `BUTTON_Update` calls `buttonCount` is at most `BUTTON_MAX`
(and the sequence has a defined result unless `Set_DebounceTime` is given `NULL`); a
`BUTTON_Init` call with a recognised mode returns a non-NULL pointer exactly when
`buttonCount < BUTTON_MAX` and then raises `buttonCount` by one; and when
`buttonCount = BUTTON_MAX` it returns `NULL` and leaves the storage, hence the count,
unchanged. -/
theorem registry_count_within_capacity :
    (∀ calls r, runCalls calls Registry.empty = some r → r.buttonCount ≤ BUTTON_MAX) ∧
    (∀ calls, (∀ c ∈ calls, Call.derefsNull c = false) →
      (runCalls calls Registry.empty).isSome = true) ∧
    (∀ r GPIOx GPIO_Pin ActiveState mode Handler,
      mode = BUTTON_Mode_Toggle ∨ mode = BUTTON_Mode_Hold →
      ((BUTTON_Init GPIOx GPIO_Pin ActiveState mode Handler r).1 ≠ Ptr.null ↔
        r.buttonCount < BUTTON_MAX) ∧
      (r.buttonCount < BUTTON_MAX →
        (BUTTON_Init GPIOx GPIO_Pin ActiveState mode Handler r).2.buttonCount
          = r.buttonCount + 1)) ∧
    (∀ r GPIOx GPIO_Pin ActiveState mode Handler, r.buttonCount = BUTTON_MAX →
      (BUTTON_Init GPIOx GPIO_Pin ActiveState mode Handler r).1 = Ptr.null ∧
      (BUTTON_Init GPIOx GPIO_Pin ActiveState mode Handler r).2 = r ∧
      (BUTTON_Init GPIOx GPIO_Pin ActiveState mode Handler r).2.buttonCount = BUTTON_MAX) := by
  refine ⟨fun calls r h => runCalls_count calls Registry.empty r h (Nat.zero_le _),
    fun calls h => runCalls_defined calls Registry.empty h, ?_, ?_⟩
  · intro r GPIOx GPIO_Pin ActiveState mode Handler hm
    have hI := BUTTON_Init_count GPIOx GPIO_Pin ActiveState mode Handler r
    refine ⟨⟨fun hne => ?_, fun hlt => ?_⟩, fun hlt => (hI.2.1 hlt hm).2⟩
    · by_contra hge
      exact hne (by rw [hI.1 (Nat.not_lt.mp hge)])
    · rw [(hI.2.1 hlt hm).1]
      exact fun h => Ptr.noConfusion h
  · intro r GPIOx GPIO_Pin ActiveState mode Handler hfull
    have hI := (BUTTON_Init_count GPIOx GPIO_Pin ActiveState mode Handler r).1 (by omega)
    rw [hI]
    exact ⟨rfl, rfl, hfull⟩

/-- Witness for C8: two registrations from the empty registry give a count within the
capacity, a third registration raises the count by one, and a registration on the full
registry returns `NULL`. -/
theorem registry_count_within_capacity_witness :
    twoButtons.buttonCount ≤ BUTTON_MAX ∧
    (BUTTON_Init 1 4 1 BUTTON_Mode_Toggle (HandlerPtr.user 3) twoButtons).2.buttonCount
      = twoButtons.buttonCount + 1 ∧
    (BUTTON_Init 1 1024 1 BUTTON_Mode_Toggle (HandlerPtr.user 11) tenButtons).1 = Ptr.null :=
  ⟨registry_count_within_capacity.1
      [Call.init 1 1 1 BUTTON_Mode_Toggle (HandlerPtr.user 1),
       Call.init 1 2 1 BUTTON_Mode_Toggle (HandlerPtr.user 2)] twoButtons (by decide),
   (registry_count_within_capacity.2.2.1 twoButtons 1 4 1 BUTTON_Mode_Toggle
      (HandlerPtr.user 3) (Or.inl rfl)).2 (by decide),
   (registry_count_within_capacity.2.2.2 tenButtons 1 1024 1 BUTTON_Mode_Toggle
      (HandlerPtr.user 11) (by decide)).1⟩

/-! ### C9: handles after a removal -/

/-- C9 fails on the code: after `BUTTON_Init` twice and `BUTTON_Deinit` of the first
handle, the second handle `&buttonPool[1]` is still registered, and the next successful
`BUTTON_Init` returns `&buttonPool[1]` again; the registry then holds that handle twice
and the data of the button registered second (pin 2, Toggle) is overwritten by the new
registration (pin 4, Hold). -/
theorem init_after_deinit_returns_live_handle :
    twoButtons.registered = [Ptr.slot 0, Ptr.slot 1] ∧
    (BUTTON_Deinit (Ptr.slot 0) twoButtons).registered = [Ptr.slot 1] ∧
    ((BUTTON_Deinit (Ptr.slot 0) twoButtons).load (Ptr.slot 1)).GPIO_Pin = 2 ∧
    (BUTTON_Init 1 4 1 BUTTON_Mode_Hold (HandlerPtr.user 3)
      (BUTTON_Deinit (Ptr.slot 0) twoButtons)).1 = Ptr.slot 1 ∧
    (BUTTON_Init 1 4 1 BUTTON_Mode_Hold (HandlerPtr.user 3)
      (BUTTON_Deinit (Ptr.slot 0) twoButtons)).2.registered = [Ptr.slot 1, Ptr.slot 1] ∧
    ((BUTTON_Init 1 4 1 BUTTON_Mode_Hold (HandlerPtr.user 3)
      (BUTTON_Deinit (Ptr.slot 0) twoButtons)).2.load (Ptr.slot 1)).GPIO_Pin = 4 ∧
    ((BUTTON_Init 1 4 1 BUTTON_Mode_Hold (HandlerPtr.user 3)
      (BUTTON_Deinit (Ptr.slot 0) twoButtons)).2.load (Ptr.slot 1)).Mode = BUTTON_Mode_Hold := by
  decide

/-! ### C10: the data behind the other handles after a removal -/

/-- C10 fails on the code: with three buttons registered on pins 1, 2 and 4, after
`BUTTON_Deinit` of the first handle the other two handles are still registered and the
count is 2, but the object behind the second handle `&buttonPool[1]` now holds the pin
and handler of the third button; on a tick where only pin 2 is active, `BUTTON_Update`
moves that object to Debounce without the removal and leaves it in Start after it. -/
theorem deinit_changes_data_behind_other_handle :
    threeButtons.registered = [Ptr.slot 0, Ptr.slot 1, Ptr.slot 2] ∧
    (BUTTON_Deinit (Ptr.slot 0) threeButtons).registered = [Ptr.slot 1, Ptr.slot 2] ∧
    (BUTTON_Deinit (Ptr.slot 0) threeButtons).buttonCount = 2 ∧
    (threeButtons.load (Ptr.slot 1)).GPIO_Pin = 2 ∧
    (threeButtons.load (Ptr.slot 1)).Handler = HandlerPtr.user 2 ∧
    ((BUTTON_Deinit (Ptr.slot 0) threeButtons).load (Ptr.slot 1)).GPIO_Pin = 4 ∧
    ((BUTTON_Deinit (Ptr.slot 0) threeButtons).load (Ptr.slot 1)).Handler = HandlerPtr.user 3 ∧
    ((BUTTON_Update 5 (fun _ => 2) threeButtons).1.load (Ptr.slot 1)).State
      = BUTTON_STATE_DEBOUNCE ∧
    ((BUTTON_Update 5 (fun _ => 2) (BUTTON_Deinit (Ptr.slot 0) threeButtons)).1.load
      (Ptr.slot 1)).State = BUTTON_STATE_START := by
  decide

/-! ### The arrays after the shift loop of `BUTTON_Deinit` -/

theorem deinitShift_buttons (n j : Nat) (r : Registry) (h : j + n < r.buttons.length)
    (m : Nat) :
    (deinitShift j n r).buttons[m]? =
      if j ≤ m ∧ m < j + n then r.buttons[m + 1]? else r.buttons[m]? := by
  induction n generalizing j r with
  | zero =>
    have : ¬ (j ≤ m ∧ m < j + 0) := by omega
    rw [if_neg this]
    rfl
  | succ k ih =>
    unfold deinitShift
    rw [ih (j + 1) _ (by simp only [List.length_set]; omega)]
    simp only [List.getD_eq_getElem?_getD, List.getElem?_set]
    have hj1 : r.buttons[j + 1]? = some (r.buttons[j + 1]?.getD Ptr.null) := by
      rw [List.getElem?_eq_getElem (by omega)]
      rfl
    by_cases h1 : j + 1 ≤ m ∧ m < j + 1 + k
    · rw [if_pos h1, if_neg (by omega), if_pos (by omega)]
    · rw [if_neg h1]
      by_cases h2 : j = m
      · subst h2
        rw [if_pos rfl, if_pos (by omega), if_pos (by omega)]
        exact hj1.symm
      · rw [if_neg h2, if_neg (by omega)]

theorem deinitSearch_found (btn : Ptr) (r : Registry) (i : Nat)
    (hi : r.buttons.getD i Ptr.null = btn)
    (hfirst : ∀ j, j < i → r.buttons.getD j Ptr.null ≠ btn)
    (n s : Nat) (hs : s ≤ i) (hn : i < s + n) :
    deinitSearch btn s n r =
      { deinitShift i (r.buttonCount - 1 - i) r with
          buttonCount := (r.buttonCount + 255) % 256 } := by
  induction n generalizing s with
  | zero => omega
  | succ k ih =>
    unfold deinitSearch
    by_cases hsi : s = i
    · subst hsi
      rw [if_pos hi]
    · rw [if_neg (hfirst s (by omega))]
      exact ih (s + 1) (by omega) (by omega)

theorem deinitSearch_not_found (btn : Ptr) (r : Registry) (n s : Nat)
    (h : ∀ j, s ≤ j → j < s + n → r.buttons.getD j Ptr.null ≠ btn) :
    deinitSearch btn s n r = r := by
  induction n generalizing s with
  | zero => rfl
  | succ k ih =>
    unfold deinitSearch
    rw [if_neg (h s (Nat.le_refl _) (by omega))]
    exact ih (s + 1) (fun j h1 h2 => h j (by omega) (by omega))

theorem registered_getElem? (r : Registry) (m : Nat) :
    r.registered[m]? = if m < r.buttonCount then r.buttons[m]? else none := by
  unfold Registry.registered
  rw [List.getElem?_take]

/-! ### C11: removal of a registered handle -/

/-- C11: in a registry of the declared shape, let `h` be a non-NULL handle whose first
occurrence among the registered handles is at index `i`.  After `BUTTON_Deinit(h)` the
count is exactly one less and the sequence of registered handles is the old sequence with
the entry at index `i` deleted, the other entries keeping their order. -/
theorem deinit_removes_entry (r : Registry) (h : Ptr) (i : Nat)
    (hShape : r.wellSized) (hNonNull : h ≠ Ptr.null)
    (hAt : r.registered[i]? = some h)
    (hFirst : ∀ j, j < i → r.registered[j]? ≠ some h) :
    (BUTTON_Deinit h r).buttonCount + 1 = r.buttonCount ∧
    (BUTTON_Deinit h r).registered = r.registered.eraseIdx i := by
  obtain ⟨_, hLen, hCount⟩ := hShape
  unfold BUTTON_MAX at hLen hCount
  have hic : i < r.buttonCount := by
    rw [registered_getElem?] at hAt
    by_contra hc
    rw [if_neg hc] at hAt
    cases hAt
  have hAt1 : r.buttons[i]? = some h := by
    rw [registered_getElem?, if_pos hic] at hAt
    exact hAt
  have hfound := deinitSearch_found h r i
    (by rw [List.getD_eq_getElem?_getD, hAt1]; rfl)
    (by
      intro j hj hEq
      have hjl : j < r.buttons.length := by omega
      apply hFirst j hj
      rw [registered_getElem?, if_pos (by omega), List.getElem?_eq_getElem hjl]
      rw [List.getD_eq_getElem?_getD, List.getElem?_eq_getElem hjl] at hEq
      exact congrArg some hEq)
    r.buttonCount 0 (Nat.zero_le _) (by omega)
  unfold BUTTON_Deinit
  rw [if_neg hNonNull, hfound]
  refine ⟨by show (r.buttonCount + 255) % 256 + 1 = r.buttonCount; omega, ?_⟩
  apply List.ext_getElem?
  intro m
  rw [registered_getElem?, List.getElem?_eraseIdx, registered_getElem?, registered_getElem?]
  show (if m < (r.buttonCount + 255) % 256
      then (deinitShift i (r.buttonCount - 1 - i) r).buttons[m]? else none) = _
  rw [deinitShift_buttons _ _ _ (by omega)]
  have hc : (r.buttonCount + 255) % 256 = r.buttonCount - 1 := by omega
  rw [hc]
  by_cases hm : m < r.buttonCount - 1
  · rw [if_pos hm]
    by_cases hmi : m < i
    · rw [if_neg (by omega), if_pos hmi, if_pos (by omega)]
    · rw [if_pos (by omega), if_neg hmi, if_pos (by omega)]
  · rw [if_neg hm]
    by_cases hmi : m < i
    · omega
    · rw [if_neg hmi, if_neg (by omega)]

/-- Witness for C11: removing the second of three registered buttons leaves the first
and the third, in that order. -/
theorem deinit_removes_entry_witness :
    (BUTTON_Deinit (Ptr.slot 1) threeButtons).buttonCount + 1 = threeButtons.buttonCount ∧
    (BUTTON_Deinit (Ptr.slot 1) threeButtons).registered = [Ptr.slot 0, Ptr.slot 2] :=
  deinit_removes_entry threeButtons (Ptr.slot 1) 1 (by decide) (by decide) (by decide)
    (by decide)

/-! ### C12: removal of an unknown handle -/

/-- C12: for every registry state and every handle that is `NULL` or not among the
registered handles, `BUTTON_Deinit` leaves the whole storage unchanged: the count, the
registered handles and the data of every pool object. -/
theorem deinit_unknown_handle_is_noop (r : Registry) (h : Ptr)
    (hUnknown : h = Ptr.null ∨ h ∉ r.registered) :
    BUTTON_Deinit h r = r := by
  unfold BUTTON_Deinit
  by_cases hn : h = Ptr.null
  · rw [if_pos hn]
  · rw [if_neg hn]
    have hmem : h ∉ r.registered := by
      rcases hUnknown with h1 | h1
      · exact absurd h1 hn
      · exact h1
    apply deinitSearch_not_found
    intro j _ hj hEq
    rw [List.getD_eq_getElem?_getD] at hEq
    by_cases hjl : j < r.buttons.length
    · apply hmem
      apply List.getElem?_mem (n := j)
      rw [registered_getElem?, if_pos (by omega), List.getElem?_eq_getElem hjl]
      rw [List.getElem?_eq_getElem hjl] at hEq
      exact congrArg some hEq
    · rw [List.getElem?_eq_none (by omega)] at hEq
      exact hn hEq.symm

/-- Witness for C12: removing `NULL`, a handle that was never registered, or a pointer
outside the pool leaves a registry of three buttons unchanged. -/
theorem deinit_unknown_handle_is_noop_witness :
    BUTTON_Deinit Ptr.null threeButtons = threeButtons ∧
    BUTTON_Deinit (Ptr.slot 5) threeButtons = threeButtons ∧
    BUTTON_Deinit (Ptr.other 7) threeButtons = threeButtons :=
  ⟨deinit_unknown_handle_is_noop threeButtons Ptr.null (Or.inl rfl),
   deinit_unknown_handle_is_noop threeButtons (Ptr.slot 5) (Or.inr (by decide)),
   deinit_unknown_handle_is_noop threeButtons (Ptr.other 7) (Or.inr (by decide))⟩

/-! ### C13: registration with an unrecognised mode -/

theorem take_set_self (l : List Ptr) (k : Nat) (a : Ptr) : (l.set k a).take k = l.take k := by
  apply List.ext_getElem?
  intro m
  rw [List.getElem?_take, List.getElem?_take, List.getElem?_set]
  by_cases hm : m < k
  · rw [if_pos hm, if_pos hm, if_neg (by omega)]
  · rw [if_neg hm, if_neg hm]

/-- C13: for every registry state with fewer than `BUTTON_MAX` instances and every mode
value other than Toggle and Hold, `BUTTON_Init` returns `NULL`, and `buttonCount` and the
sequence of registered handles are the same after the call as before. -/
theorem init_unrecognised_mode_fails (r : Registry) (GPIOx GPIO_Pin ActiveState mode : Nat)
    (Handler : HandlerPtr) (hRoom : r.buttonCount < BUTTON_MAX)
    (hT : mode ≠ BUTTON_Mode_Toggle) (hH : mode ≠ BUTTON_Mode_Hold) :
    (BUTTON_Init GPIOx GPIO_Pin ActiveState mode Handler r).1 = Ptr.null ∧
    (BUTTON_Init GPIOx GPIO_Pin ActiveState mode Handler r).2.buttonCount = r.buttonCount ∧
    (BUTTON_Init GPIOx GPIO_Pin ActiveState mode Handler r).2.registered = r.registered := by
  have hI := (BUTTON_Init_count GPIOx GPIO_Pin ActiveState mode Handler r).2.2 hRoom
    (by rintro (h | h); exact hT h; exact hH h)
  refine ⟨hI.1, hI.2, ?_⟩
  have hb : (BUTTON_Init GPIOx GPIO_Pin ActiveState mode Handler r).2.buttons
      = r.buttons.set r.buttonCount (Ptr.slot r.buttonCount) := by
    unfold BUTTON_Init
    rw [if_neg (by omega)]
    simp only [hT, hH, if_false]
  unfold Registry.registered
  rw [hI.2, hb, take_set_self]

/-- Witness for C13: a registration with mode value 2 on a registry of two buttons
returns `NULL` and leaves the count and the registered handles as they were. -/
theorem init_unrecognised_mode_fails_witness :
    (BUTTON_Init 1 4 1 2 (HandlerPtr.user 3) twoButtons).1 = Ptr.null ∧
    (BUTTON_Init 1 4 1 2 (HandlerPtr.user 3) twoButtons).2.buttonCount
      = twoButtons.buttonCount ∧
    (BUTTON_Init 1 4 1 2 (HandlerPtr.user 3) twoButtons).2.registered
      = twoButtons.registered :=
  init_unrecognised_mode_fails twoButtons 1 4 1 2 (HandlerPtr.user 3) (by decide) (by decide)
    (by decide)

/-! ### C14: the instance a successful registration yields -/

theorem BUTTON_Init_success (GPIOx GPIO_Pin ActiveState mode : Nat) (Handler : HandlerPtr)
    (r : Registry)
    (hOk : (BUTTON_Init GPIOx GPIO_Pin ActiveState mode Handler r).1 ≠ Ptr.null) :
    r.buttonCount < BUTTON_MAX ∧ (mode = BUTTON_Mode_Toggle ∨ mode = BUTTON_Mode_Hold) := by
  have hI := BUTTON_Init_count GPIOx GPIO_Pin ActiveState mode Handler r
  have hlt : r.buttonCount < BUTTON_MAX := by
    by_contra hge
    exact hOk (by rw [hI.1 (Nat.not_lt.mp hge)])
  refine ⟨hlt, ?_⟩
  by_contra hm
  exact hOk (hI.2.2 hlt hm).1

theorem getD_set_self (l : List Button_t) (k : Nat) (a d : Button_t) (hk : k < l.length) :
    (l.set k a).getD k d = a := by
  rw [List.getD_eq_getElem?_getD, List.getElem?_set, if_pos rfl, if_pos hk]
  rfl

/-- C14: in a registry of the declared shape, every successful `BUTTON_Init(GPIOx, GPIO_Pin,
ActiveState, mode, Handler)` with arguments of the parameter types returns a handle whose
object has the port, pin, active level and mode of the arguments, the given handler (or
`BUTTON_Callback` for `NULL`), state Start and debounce window 50; in Toggle mode the
thresholds are 300/1000/3000, the gap is 0 and no first click is pending; in Hold mode the
repeat delay is 500, the repeat interval 200 and repeat is not active. -/
theorem init_yields_defaults (r : Registry) (GPIOx GPIO_Pin ActiveState mode : Nat)
    (Handler : HandlerPtr) (hShape : r.wellSized)
    (hPin : GPIO_Pin < 65536) (hActive : ActiveState < 256)
    (hOk : (BUTTON_Init GPIOx GPIO_Pin ActiveState mode Handler r).1 ≠ Ptr.null) :
    ((BUTTON_Init GPIOx GPIO_Pin ActiveState mode Handler r).2.load
        (BUTTON_Init GPIOx GPIO_Pin ActiveState mode Handler r).1).GPIOx = GPIOx ∧
    ((BUTTON_Init GPIOx GPIO_Pin ActiveState mode Handler r).2.load
        (BUTTON_Init GPIOx GPIO_Pin ActiveState mode Handler r).1).GPIO_Pin = GPIO_Pin ∧
    ((BUTTON_Init GPIOx GPIO_Pin ActiveState mode Handler r).2.load
        (BUTTON_Init GPIOx GPIO_Pin ActiveState mode Handler r).1).ActiveState = ActiveState ∧
    ((BUTTON_Init GPIOx GPIO_Pin ActiveState mode Handler r).2.load
        (BUTTON_Init GPIOx GPIO_Pin ActiveState mode Handler r).1).Mode = mode ∧
    ((BUTTON_Init GPIOx GPIO_Pin ActiveState mode Handler r).2.load
        (BUTTON_Init GPIOx GPIO_Pin ActiveState mode Handler r).1).Handler
      = (if Handler ≠ HandlerPtr.null then Handler else HandlerPtr.BUTTON_Callback) ∧
    ((BUTTON_Init GPIOx GPIO_Pin ActiveState mode Handler r).2.load
        (BUTTON_Init GPIOx GPIO_Pin ActiveState mode Handler r).1).State
      = BUTTON_STATE_START ∧
    ((BUTTON_Init GPIOx GPIO_Pin ActiveState mode Handler r).2.load
        (BUTTON_Init GPIOx GPIO_Pin ActiveState mode Handler r).1).DebounceTime = 50 ∧
    (mode = BUTTON_Mode_Toggle →
      ((BUTTON_Init GPIOx GPIO_Pin ActiveState mode Handler r).2.load
          (BUTTON_Init GPIOx GPIO_Pin ActiveState mode Handler r).1).NormalTime = 300 ∧
      ((BUTTON_Init GPIOx GPIO_Pin ActiveState mode Handler r).2.load
          (BUTTON_Init GPIOx GPIO_Pin ActiveState mode Handler r).1).LongTime = 1000 ∧
      ((BUTTON_Init GPIOx GPIO_Pin ActiveState mode Handler r).2.load
          (BUTTON_Init GPIOx GPIO_Pin ActiveState mode Handler r).1).VeryLongTime = 3000 ∧
      ((BUTTON_Init GPIOx GPIO_Pin ActiveState mode Handler r).2.load
          (BUTTON_Init GPIOx GPIO_Pin ActiveState mode Handler r).1).DoubleClickTime = 0 ∧
      ((BUTTON_Init GPIOx GPIO_Pin ActiveState mode Handler r).2.load
          (BUTTON_Init GPIOx GPIO_Pin ActiveState mode Handler r).1).FirstClickDone = 0) ∧
    (mode = BUTTON_Mode_Hold →
      ((BUTTON_Init GPIOx GPIO_Pin ActiveState mode Handler r).2.load
          (BUTTON_Init GPIOx GPIO_Pin ActiveState mode Handler r).1).RepeatDelay = 500 ∧
      ((BUTTON_Init GPIOx GPIO_Pin ActiveState mode Handler r).2.load
          (BUTTON_Init GPIOx GPIO_Pin ActiveState mode Handler r).1).RepeatInterval = 200 ∧
      ((BUTTON_Init GPIOx GPIO_Pin ActiveState mode Handler r).2.load
          (BUTTON_Init GPIOx GPIO_Pin ActiveState mode Handler r).1).RepeatStarted = 0) := by
  obtain ⟨hlt, hm⟩ := BUTTON_Init_success GPIOx GPIO_Pin ActiveState mode Handler r hOk
  obtain ⟨hPool, _, _⟩ := hShape
  have hk : r.buttonCount < r.buttonPool.length := by rw [hPool]; exact hlt
  have hp : GPIO_Pin % 65536 = GPIO_Pin := Nat.mod_eq_of_lt hPin
  have ha : ActiveState % 256 = ActiveState := Nat.mod_eq_of_lt hActive
  rcases hm with hm | hm
  · subst hm
    have hres : (BUTTON_Init GPIOx GPIO_Pin ActiveState BUTTON_Mode_Toggle Handler r).2.load
        (BUTTON_Init GPIOx GPIO_Pin ActiveState BUTTON_Mode_Toggle Handler r).1
        = ConfigureToggleMode
            { r.buttonPool.getD r.buttonCount zeroButton with
                GPIOx := GPIOx, GPIO_Pin := GPIO_Pin, ActiveState := ActiveState,
                LastStatus := 0, State := BUTTON_STATE_START, DebounceTime := 50,
                Handler := if Handler ≠ HandlerPtr.null then Handler
                           else HandlerPtr.BUTTON_Callback } := by
      unfold BUTTON_Init
      rw [if_neg (by omega)]
      simp only [if_true, Registry.load, hp, ha]
      exact getD_set_self _ _ _ _ hk
    rw [hres]
    exact ⟨rfl, rfl, rfl, rfl, rfl, rfl, rfl, fun _ => ⟨rfl, rfl, rfl, rfl, rfl⟩,
      fun h => absurd h (by decide)⟩
  · subst hm
    have hres : (BUTTON_Init GPIOx GPIO_Pin ActiveState BUTTON_Mode_Hold Handler r).2.load
        (BUTTON_Init GPIOx GPIO_Pin ActiveState BUTTON_Mode_Hold Handler r).1
        = ConfigureHoldMode
            { r.buttonPool.getD r.buttonCount zeroButton with
                GPIOx := GPIOx, GPIO_Pin := GPIO_Pin, ActiveState := ActiveState,
                LastStatus := 0, State := BUTTON_STATE_START, DebounceTime := 50,
                Handler := if Handler ≠ HandlerPtr.null then Handler
                           else HandlerPtr.BUTTON_Callback } := by
      unfold BUTTON_Init
      rw [if_neg (by omega)]
      simp only [show ¬ (BUTTON_Mode_Hold = BUTTON_Mode_Toggle) by decide, if_true, if_false,
        Registry.load, hp, ha]
      exact getD_set_self _ _ _ _ hk
    rw [hres]
    exact ⟨rfl, rfl, rfl, rfl, rfl, rfl, rfl, fun h => absurd h (by decide),
      fun _ => ⟨rfl, rfl, rfl⟩⟩

/-- Witness for C14: the third registration on a registry of two buttons, in Hold mode
with a `NULL` handler, yields an object on pin 4 in Start with debounce window 50, repeat
delay 500, repeat interval 200 and the default handler. -/
theorem init_yields_defaults_witness :
    ((BUTTON_Init 1 4 1 BUTTON_Mode_Hold HandlerPtr.null twoButtons).2.load
        (BUTTON_Init 1 4 1 BUTTON_Mode_Hold HandlerPtr.null twoButtons).1).GPIO_Pin = 4 ∧
    ((BUTTON_Init 1 4 1 BUTTON_Mode_Hold HandlerPtr.null twoButtons).2.load
        (BUTTON_Init 1 4 1 BUTTON_Mode_Hold HandlerPtr.null twoButtons).1).Handler
      = HandlerPtr.BUTTON_Callback ∧
    ((BUTTON_Init 1 4 1 BUTTON_Mode_Hold HandlerPtr.null twoButtons).2.load
        (BUTTON_Init 1 4 1 BUTTON_Mode_Hold HandlerPtr.null twoButtons).1).DebounceTime = 50 ∧
    ((BUTTON_Init 1 4 1 BUTTON_Mode_Hold HandlerPtr.null twoButtons).2.load
        (BUTTON_Init 1 4 1 BUTTON_Mode_Hold HandlerPtr.null twoButtons).1).RepeatDelay = 500 :=
  have h := init_yields_defaults twoButtons 1 4 1 BUTTON_Mode_Hold HandlerPtr.null
    (by decide) (by decide) (by decide) (by decide)
  ⟨h.2.1, h.2.2.2.2.1, h.2.2.2.2.2.2.1, (h.2.2.2.2.2.2.2.2 rfl).1⟩

/-! ### Reads and writes through a handle -/

theorem store_load_self (r : Registry) (k : Nat) (f : Button_t → Button_t)
    (hk : k < r.buttonPool.length) :
    (r.store (Ptr.slot k) f).load (Ptr.slot k) = f (r.load (Ptr.slot k)) :=
  getD_set_self _ _ _ _ hk

theorem store_load_other (r : Registry) (k : Nat) (f : Button_t → Button_t) (p : Ptr)
    (hp : p ≠ Ptr.slot k) :
    (r.store (Ptr.slot k) f).load p = r.load p := by
  cases p with
  | null => rfl
  | other a => rfl
  | slot j =>
    have hjk : k ≠ j := fun h => hp (by rw [h])
    show (r.buttonPool.set k _).getD j zeroButton = r.buttonPool.getD j zeroButton
    simp only [List.getD_eq_getElem?_getD, List.getElem?_set_ne hjk]

theorem store_buttons (r : Registry) (p : Ptr) (f : Button_t → Button_t) :
    (r.store p f).buttons = r.buttons := by
  cases p <;> rfl

/-! ### C15: the timing setters -/

/-- C15: for every handle `&buttonPool[k]` and all arguments of the parameter types
(`uint16_t` for the mode timings, `uint8_t` for `Set_DebounceTime`), `SetTime_Toggle_mode`
replaces exactly `DoubleClickTime`, `NormalTime`, `LongTime` and `VeryLongTime` of the
object by its four arguments, `SetTime_Hold_mode` exactly `RepeatDelay` and
`RepeatInterval`, and `Set_DebounceTime` exactly `DebounceTime`; every other field of the
object, every other pool object, `buttons` and `buttonCount` are unchanged, and the values
are stored whatever their order. -/
theorem setters_write_only_their_fields (r : Registry) (k : Nat)
    (hk : k < r.buttonPool.length) :
    (∀ time4Double normal longer very_long,
      time4Double < 65536 → normal < 65536 → longer < 65536 → very_long < 65536 →
      (SetTime_Toggle_mode (Ptr.slot k) time4Double normal longer very_long r).load
          (Ptr.slot k)
        = { r.load (Ptr.slot k) with
              DoubleClickTime := time4Double, NormalTime := normal, LongTime := longer,
              VeryLongTime := very_long } ∧
      (∀ p, p ≠ Ptr.slot k →
        (SetTime_Toggle_mode (Ptr.slot k) time4Double normal longer very_long r).load p
          = r.load p) ∧
      (SetTime_Toggle_mode (Ptr.slot k) time4Double normal longer very_long r).buttons
        = r.buttons ∧
      (SetTime_Toggle_mode (Ptr.slot k) time4Double normal longer very_long r).buttonCount
        = r.buttonCount) ∧
    (∀ delay interval, delay < 65536 → interval < 65536 →
      (SetTime_Hold_mode (Ptr.slot k) delay interval r).load (Ptr.slot k)
        = { r.load (Ptr.slot k) with RepeatDelay := delay, RepeatInterval := interval } ∧
      (∀ p, p ≠ Ptr.slot k →
        (SetTime_Hold_mode (Ptr.slot k) delay interval r).load p = r.load p) ∧
      (SetTime_Hold_mode (Ptr.slot k) delay interval r).buttons = r.buttons ∧
      (SetTime_Hold_mode (Ptr.slot k) delay interval r).buttonCount = r.buttonCount) ∧
    (∀ debounceTime, debounceTime < 256 →
      ∃ r1, Set_DebounceTime (Ptr.slot k) debounceTime r = some r1 ∧
        r1.load (Ptr.slot k) = { r.load (Ptr.slot k) with DebounceTime := debounceTime } ∧
        (∀ p, p ≠ Ptr.slot k → r1.load p = r.load p) ∧
        r1.buttons = r.buttons ∧ r1.buttonCount = r.buttonCount) := by
  have hne : Ptr.slot k ≠ Ptr.null := fun h => Ptr.noConfusion h
  refine ⟨?_, ?_, ?_⟩
  · intro g n l v hg hn hl hv
    unfold SetTime_Toggle_mode
    rw [if_neg hne, Nat.mod_eq_of_lt hg, Nat.mod_eq_of_lt hn, Nat.mod_eq_of_lt hl,
      Nat.mod_eq_of_lt hv]
    exact ⟨store_load_self r k _ hk, fun p hp => store_load_other r k _ p hp,
      store_buttons r _ _, store_count r _ _⟩
  · intro d i hd hi
    unfold SetTime_Hold_mode
    rw [if_neg hne, Nat.mod_eq_of_lt hd, Nat.mod_eq_of_lt hi]
    exact ⟨store_load_self r k _ hk, fun p hp => store_load_other r k _ p hp,
      store_buttons r _ _, store_count r _ _⟩
  · intro ms hms
    unfold Set_DebounceTime
    rw [if_neg hne, Nat.mod_eq_of_lt hms]
    exact ⟨_, rfl, store_load_self r k _ hk, fun p hp => store_load_other r k _ p hp,
      store_buttons r _ _, store_count r _ _⟩

/-- Witness for C15: thresholds given in inverted order (3000/1000/300) are stored on the
second of three buttons as given, and the first button is not touched. -/
theorem setters_write_only_their_fields_witness :
    (SetTime_Toggle_mode (Ptr.slot 1) 100 3000 1000 300 threeButtons).load (Ptr.slot 1)
      = { threeButtons.load (Ptr.slot 1) with
            DoubleClickTime := 100, NormalTime := 3000, LongTime := 1000,
            VeryLongTime := 300 } ∧
    (SetTime_Toggle_mode (Ptr.slot 1) 100 3000 1000 300 threeButtons).load (Ptr.slot 0)
      = threeButtons.load (Ptr.slot 0) :=
  have h := (setters_write_only_their_fields threeButtons 1 (by decide)).1 100 3000 1000 300
    (by decide) (by decide) (by decide) (by decide)
  ⟨h.1, h.2.1 (Ptr.slot 0) (by decide)⟩

/-! ### C16: the range of `Set_DebounceTime` -/

/-- C16 as stated is false: `Set_DebounceTime(btn, 300)` stores 44, because the parameter
is a `uint8_t`. -/
theorem set_debounce_truncates_counterexample :
    (Set_DebounceTime (Ptr.slot 0) 300 toggleRegistry).map
      (fun r => (r.load (Ptr.slot 0)).DebounceTime) = some 44 := by
  decide

theorem updateButton_debounce_state (now : Nat) (cs : Bool) (b : Button_t)
    (hs : b.State = BUTTON_STATE_DEBOUNCE) :
    (updateButton now cs b).1.State = BUTTON_STATE_DEBOUNCE ↔
      sub32 now b.StartTime < b.DebounceTime := by
  have hf := (updateFlush_state now (updateSwitch now cs b).1).1
  have hne : ¬ b.State = BUTTON_STATE_START := by rw [hs]; decide
  unfold updateButton
  rw [hf]
  unfold updateSwitch
  rw [if_neg hne, if_pos hs]
  unfold caseDebounce
  by_cases hge : sub32 now b.StartTime ≥ b.DebounceTime
  · rw [if_pos hge]
    have hnlt : ¬ sub32 now b.StartTime < b.DebounceTime := by omega
    cases cs with
    | true =>
      simp only [if_true]
      exact ⟨fun h => absurd h (by decide), fun h => absurd h hnlt⟩
    | false =>
      simp only [Bool.false_eq_true, if_false]
      exact ⟨fun h => absurd h (by decide), fun h => absurd h hnlt⟩
  · rw [if_neg hge]
    exact ⟨fun _ => by omega, fun _ => hs⟩

/-- C16, amended: for every handle `&buttonPool[k]` and every argument value `ms`,
`Set_DebounceTime` stores `ms mod 256` in the 16-bit field `DebounceTime` (the parameter
is a `uint8_t`), that is `ms` itself for every `ms` in 0..255, and the next update of the
object uses the stored window: from Debounce it stays in Debounce exactly while
`now - StartTime` is below the stored value. -/
theorem set_debounce_stores_low_byte (r : Registry) (k ms : Nat)
    (hk : k < r.buttonPool.length) :
    ∃ r1, Set_DebounceTime (Ptr.slot k) ms r = some r1 ∧
      (r1.load (Ptr.slot k)).DebounceTime = ms % 256 ∧
      (ms < 256 → (r1.load (Ptr.slot k)).DebounceTime = ms) ∧
      (∀ now cs, (r1.load (Ptr.slot k)).State = BUTTON_STATE_DEBOUNCE →
        ((updateButton now cs (r1.load (Ptr.slot k))).1.State = BUTTON_STATE_DEBOUNCE ↔
          sub32 now (r1.load (Ptr.slot k)).StartTime < ms % 256)) := by
  have hne : Ptr.slot k ≠ Ptr.null := fun h => Ptr.noConfusion h
  unfold Set_DebounceTime
  rw [if_neg hne]
  have hl := store_load_self r k (fun b => { b with DebounceTime := ms % 256 }) hk
  have hD : ((r.store (Ptr.slot k) (fun b => { b with DebounceTime := ms % 256 })).load
      (Ptr.slot k)).DebounceTime = ms % 256 := by rw [hl]
  refine ⟨_, rfl, hD, fun h => by rw [hD]; exact Nat.mod_eq_of_lt h, fun now cs hs => ?_⟩
  rw [updateButton_debounce_state now cs _ hs, hD]

/-- Witness for amended C16: `Set_DebounceTime(btn, 200)` on a registered button stores
200. -/
theorem set_debounce_stores_low_byte_witness :
    (Set_DebounceTime (Ptr.slot 0) 200 toggleRegistry).map
      (fun r => (r.load (Ptr.slot 0)).DebounceTime) = some 200 :=
  match set_debounce_stores_low_byte toggleRegistry 0 200 (by decide) with
  | ⟨_, h1, _, h3, _⟩ => by rw [h1]; exact congrArg some (h3 (by decide))

/-! ### C17: the timings of the other mode are not used -/

theorem caseStart_withHoldTiming (now : Nat) (cs : Bool) (b : Button_t) (d i : Nat) :
    caseStart now cs (b.withHoldTiming d i) =
      ((caseStart now cs b).1.withHoldTiming d i, (caseStart now cs b).2) := by
  unfold caseStart
  split_ifs <;> rfl

theorem caseDebounce_withHoldTiming (now : Nat) (cs : Bool) (b : Button_t) (d i : Nat) :
    caseDebounce now cs (b.withHoldTiming d i) =
      ((caseDebounce now cs b).1.withHoldTiming d i, (caseDebounce now cs b).2) := by
  simp only [caseDebounce, Button_t.withHoldTiming]
  split_ifs <;> rfl

theorem releaseToggle_withHoldTiming (now : Nat) (b : Button_t) (d i : Nat) :
    releaseToggle now (b.withHoldTiming d i) =
      ((releaseToggle now b).1.withHoldTiming d i, (releaseToggle now b).2) := by
  simp only [releaseToggle, Button_t.withHoldTiming]
  split_ifs <;> rfl

theorem updateFlush_withHoldTiming (now : Nat) (b : Button_t) (d i : Nat) :
    updateFlush now (b.withHoldTiming d i) =
      ((updateFlush now b).1.withHoldTiming d i, (updateFlush now b).2) := by
  simp only [updateFlush, Button_t.withHoldTiming]
  split_ifs <;> rfl

theorem updateSwitch_withHoldTiming (now : Nat) (cs : Bool) (b : Button_t) (d i : Nat)
    (hMode : b.Mode = BUTTON_Mode_Toggle) :
    updateSwitch now cs (b.withHoldTiming d i) =
      ((updateSwitch now cs b).1.withHoldTiming d i, (updateSwitch now cs b).2) := by
  have hnh : ¬ b.Mode = BUTTON_Mode_Hold := by rw [hMode]; decide
  unfold updateSwitch
  show (if b.State = BUTTON_STATE_START then _ else if b.State = BUTTON_STATE_DEBOUNCE then _
    else if b.State = BUTTON_STATE_PRESSED then _ else _) = _
  split_ifs
  · exact caseStart_withHoldTiming now cs b d i
  · exact caseDebounce_withHoldTiming now cs b d i
  · unfold casePressed
    show (if cs = false then _ else if b.Mode = BUTTON_Mode_Hold then _ else _) = _
    rw [if_neg hnh, if_neg hnh, releaseToggle_withHoldTiming]
    split_ifs <;> rfl
  · rfl

theorem updateButton_withHoldTiming (now : Nat) (cs : Bool) (b : Button_t) (d i : Nat)
    (hMode : b.Mode = BUTTON_Mode_Toggle) :
    updateButton now cs (b.withHoldTiming d i) =
      ((updateButton now cs b).1.withHoldTiming d i, (updateButton now cs b).2) := by
  unfold updateButton
  rw [updateSwitch_withHoldTiming now cs b d i hMode]
  simp only [updateFlush_withHoldTiming]

theorem runTicks_withHoldTiming (ticks : List (Nat × Bool)) (b : Button_t) (d i : Nat)
    (hMode : b.Mode = BUTTON_Mode_Toggle) :
    (runTicks (b.withHoldTiming d i) ticks).2 = (runTicks b ticks).2 := by
  induction ticks generalizing b with
  | nil => rfl
  | cons tick rest ih =>
    have hs := settings_fields (updateButton_settings tick.1 tick.2 b)
    rw [runTicks_cons, runTicks_cons, updateButton_withHoldTiming _ _ _ _ _ hMode]
    simp only [ih _ (hs.1.trans hMode)]

theorem caseStart_withToggleTiming (now : Nat) (cs : Bool) (b : Button_t) (g n l v : Nat) :
    caseStart now cs (b.withToggleTiming g n l v) =
      ((caseStart now cs b).1.withToggleTiming g n l v, (caseStart now cs b).2) := by
  unfold caseStart
  split_ifs <;> rfl

theorem caseDebounce_withToggleTiming (now : Nat) (cs : Bool) (b : Button_t)
    (g n l v : Nat) :
    caseDebounce now cs (b.withToggleTiming g n l v) =
      ((caseDebounce now cs b).1.withToggleTiming g n l v, (caseDebounce now cs b).2) := by
  simp only [caseDebounce, Button_t.withToggleTiming]
  split_ifs <;> rfl

theorem repeatHold_withToggleTiming (now : Nat) (b : Button_t) (g n l v : Nat) :
    repeatHold now (b.withToggleTiming g n l v) =
      ((repeatHold now b).1.withToggleTiming g n l v, (repeatHold now b).2) := by
  simp only [repeatHold, Button_t.withToggleTiming]
  split_ifs <;> rfl

theorem releaseToggle_of_hold (now : Nat) (b : Button_t) (hMode : b.Mode = BUTTON_Mode_Hold) :
    releaseToggle now b = (b, []) := by
  unfold releaseToggle
  rw [if_neg (by rw [hMode]; rintro ⟨h, _⟩; exact absurd h (by decide))]

theorem updateSwitch_withToggleTiming (now : Nat) (cs : Bool) (b : Button_t)
    (g n l v : Nat) (hMode : b.Mode = BUTTON_Mode_Hold) :
    updateSwitch now cs (b.withToggleTiming g n l v) =
      ((updateSwitch now cs b).1.withToggleTiming g n l v, (updateSwitch now cs b).2) := by
  unfold updateSwitch
  show (if b.State = BUTTON_STATE_START then _ else if b.State = BUTTON_STATE_DEBOUNCE then _
    else if b.State = BUTTON_STATE_PRESSED then _ else _) = _
  split_ifs
  · exact caseStart_withToggleTiming now cs b g n l v
  · exact caseDebounce_withToggleTiming now cs b g n l v
  · unfold casePressed
    show (if cs = false then _ else if b.Mode = BUTTON_Mode_Hold then _ else _) = _
    rw [if_pos hMode, if_pos hMode, releaseToggle_of_hold now b hMode,
      releaseToggle_of_hold now (b.withToggleTiming g n l v) hMode,
      repeatHold_withToggleTiming]
    split_ifs <;> rfl
  · rfl

theorem updateButton_withToggleTiming (now : Nat) (cs : Bool) (b : Button_t)
    (g n l v : Nat) (hMode : b.Mode = BUTTON_Mode_Hold) :
    updateButton now cs (b.withToggleTiming g n l v) =
      ((updateButton now cs b).1.withToggleTiming g n l v, (updateButton now cs b).2) := by
  have hs := (settings_fields (updateSwitch_settings now cs b)).1.trans hMode
  have hf1 := updateFlush_of_noFlush (n := now) (noFlush_of_hold hs)
  have hf2 := updateFlush_of_noFlush (n := now)
    (b := (updateSwitch now cs b).1.withToggleTiming g n l v) (noFlush_of_hold hs)
  unfold updateButton
  rw [updateSwitch_withToggleTiming now cs b g n l v hMode]
  simp only [hf1, hf2]

theorem runTicks_withToggleTiming (ticks : List (Nat × Bool)) (b : Button_t) (g n l v : Nat)
    (hMode : b.Mode = BUTTON_Mode_Hold) :
    (runTicks (b.withToggleTiming g n l v) ticks).2 = (runTicks b ticks).2 := by
  induction ticks generalizing b with
  | nil => rfl
  | cons tick rest ih =>
    have hs := settings_fields (updateButton_settings tick.1 tick.2 b)
    rw [runTicks_cons, runTicks_cons, updateButton_withToggleTiming _ _ _ _ _ _ _ hMode]
    simp only [ih _ (hs.1.trans hMode)]

/-- C17: for every Toggle button, pin reading and tick value, one update step with
`RepeatDelay` and `RepeatInterval` replaced by any values emits the same events and gives
the same object up to those two fields; for every Hold button the same holds for
`DoubleClickTime`, `NormalTime`, `LongTime` and `VeryLongTime`.  `SetTime_Hold_mode` and
`SetTime_Toggle_mode` replace just those fields of the object, so after either call on a
button of the other mode every later sequence of ticks emits the same events. -/
theorem other_mode_timings_unused :
    (∀ (b : Button_t) (now : Nat) (cs : Bool) (d i : Nat), b.Mode = BUTTON_Mode_Toggle →
      updateButton now cs (b.withHoldTiming d i) =
        ((updateButton now cs b).1.withHoldTiming d i, (updateButton now cs b).2)) ∧
    (∀ (b : Button_t) (now : Nat) (cs : Bool) (g n l v : Nat), b.Mode = BUTTON_Mode_Hold →
      updateButton now cs (b.withToggleTiming g n l v) =
        ((updateButton now cs b).1.withToggleTiming g n l v, (updateButton now cs b).2)) ∧
    (∀ (r : Registry) (k d i : Nat) (ticks : List (Nat × Bool)),
      k < r.buttonPool.length → (r.load (Ptr.slot k)).Mode = BUTTON_Mode_Toggle →
      (runTicks ((SetTime_Hold_mode (Ptr.slot k) d i r).load (Ptr.slot k)) ticks).2
        = (runTicks (r.load (Ptr.slot k)) ticks).2) ∧
    (∀ (r : Registry) (k g n l v : Nat) (ticks : List (Nat × Bool)),
      k < r.buttonPool.length → (r.load (Ptr.slot k)).Mode = BUTTON_Mode_Hold →
      (runTicks ((SetTime_Toggle_mode (Ptr.slot k) g n l v r).load (Ptr.slot k)) ticks).2
        = (runTicks (r.load (Ptr.slot k)) ticks).2) := by
  have hne : ∀ k, Ptr.slot k ≠ Ptr.null := fun k h => Ptr.noConfusion h
  refine ⟨fun b now cs d i h => updateButton_withHoldTiming now cs b d i h,
    fun b now cs g n l v h => updateButton_withToggleTiming now cs b g n l v h, ?_, ?_⟩
  · intro r k d i ticks hk hMode
    unfold SetTime_Hold_mode
    rw [if_neg (hne k), store_load_self r k _ hk]
    exact runTicks_withHoldTiming ticks _ (d % 65536) (i % 65536) hMode
  · intro r k g n l v ticks hk hMode
    unfold SetTime_Toggle_mode
    rw [if_neg (hne k), store_load_self r k _ hk]
    exact runTicks_withToggleTiming ticks _ (g % 65536) (n % 65536) (l % 65536) (v % 65536)
      hMode

/-- Witness for C17: a Toggle button emits the same events for a click after
`SetTime_Hold_mode(btn, 7, 9)` as before the call. -/
theorem other_mode_timings_unused_witness :
    (runTicks ((SetTime_Hold_mode (Ptr.slot 0) 7 9 toggleRegistry).load (Ptr.slot 0))
        [(0, true), (50, true), (400, false), (401, false)]).2
      = (runTicks (toggleRegistry.load (Ptr.slot 0))
        [(0, true), (50, true), (400, false), (401, false)]).2 :=
  other_mode_timings_unused.2.2.1 toggleRegistry 0 7 9
    [(0, true), (50, true), (400, false), (401, false)] (by decide) (by decide)

/-! ### C18: one update call steps the registered entries in order -/

theorem updateLoop_buttons (now : Nat) (idr : Nat → Nat) (n i : Nat) (r : Registry) :
    (updateLoop now idr i n r).1.buttons = r.buttons := by
  induction n generalizing i r with
  | zero => rfl
  | succ m ih =>
    unfold updateLoop
    split
    · simp only []
      rw [ih]
    · rw [ih]

theorem updateLoop_eq_stepEntries (now : Nat) (idr : Nat → Nat) (n i : Nat) (r : Registry)
    (h : i + n ≤ r.buttons.length) :
    updateLoop now idr i n r = stepEntries now idr ((r.buttons.drop i).take n) r := by
  induction n generalizing i r with
  | zero => rfl
  | succ m ih =>
    have hi : i < r.buttons.length := by omega
    have hdrop : (r.buttons.drop i).take (m + 1)
        = r.buttons[i] :: (r.buttons.drop (i + 1)).take m := by
      rw [List.drop_eq_getElem_cons hi, List.take_succ_cons]
    have hget : r.buttons.getD i Ptr.null = r.buttons[i] := by
      rw [List.getD_eq_getElem?_getD, List.getElem?_eq_getElem hi]
      rfl
    rw [hdrop]
    unfold updateLoop
    rw [hget]
    cases hp : r.buttons[i] with
    | slot k =>
      simp only [stepEntries, stepEntry, Registry.store, Registry.load]
      rw [ih (i + 1) _ (by simp only [List.length_set]; omega)]
    | null =>
      simp only [stepEntries, stepEntry, List.nil_append]
      rw [ih (i + 1) r (by omega)]
    | other a =>
      simp only [stepEntries, stepEntry, List.nil_append]
      rw [ih (i + 1) r (by omega)]

/-- C18: in a registry of the declared shape, one `BUTTON_Update` call with tick value
`now` steps every registered entry exactly once, in the order of `buttons`, each with the
same `now`, and the handler calls it makes are the concatenation, in that order, of the
calls of the per-entry steps; the registered handles are the same after the call. -/
theorem update_steps_entries_in_order (r : Registry) (now : Nat) (idr : Nat → Nat)
    (hShape : r.wellSized) :
    BUTTON_Update now idr r = stepEntries now idr r.registered r ∧
    (BUTTON_Update now idr r).1.registered = r.registered := by
  obtain ⟨_, hLen, hCount⟩ := hShape
  refine ⟨?_, ?_⟩
  · unfold BUTTON_Update Registry.registered
    rw [updateLoop_eq_stepEntries now idr r.buttonCount 0 r (by omega)]
    rfl
  · unfold BUTTON_Update Registry.registered
    rw [updateLoop_buttons, updateLoop_count]

/-- Witness for C18: on a tick where pins 1 and 4 are active, one `BUTTON_Update` of three
Toggle buttons is the step of the first, then of the second, then of the third entry. -/
theorem update_steps_entries_in_order_witness :
    BUTTON_Update 5 (fun _ => 5) threeButtons
      = stepEntries 5 (fun _ => 5) [Ptr.slot 0, Ptr.slot 1, Ptr.slot 2] threeButtons :=
  (update_steps_entries_in_order threeButtons 5 (fun _ => 5) (by decide)).1

/-! ### C19: wrap-around of the tick counter -/

theorem sub32_shift (a b c : Nat) :
    sub32 ((a + c) % 4294967296) ((b + c) % 4294967296) = sub32 a b := by
  unfold sub32
  omega

theorem caseStart_shiftTime (now c : Nat) (cs : Bool) (b : Button_t) :
    caseStart ((now + c) % 4294967296) cs (b.shiftTime c) =
      ((caseStart now cs b).1.shiftTime c, (caseStart now cs b).2) := by
  unfold caseStart
  split_ifs <;> rfl

theorem caseDebounce_shiftTime (now c : Nat) (cs : Bool) (b : Button_t) :
    caseDebounce ((now + c) % 4294967296) cs (b.shiftTime c) =
      ((caseDebounce now cs b).1.shiftTime c, (caseDebounce now cs b).2) := by
  simp only [caseDebounce, Button_t.shiftTime, sub32_shift]
  split_ifs <;> rfl

theorem releaseToggle_shiftTime (now c : Nat) (b : Button_t) :
    releaseToggle ((now + c) % 4294967296) (b.shiftTime c) =
      ((releaseToggle now b).1.shiftTime c, (releaseToggle now b).2) := by
  simp only [releaseToggle, Button_t.shiftTime, sub32_shift]
  split_ifs <;> rfl

theorem repeatHold_shiftTime (now c : Nat) (b : Button_t) :
    repeatHold ((now + c) % 4294967296) (b.shiftTime c) =
      ((repeatHold now b).1.shiftTime c, (repeatHold now b).2) := by
  simp only [repeatHold, Button_t.shiftTime, sub32_shift]
  split_ifs <;> rfl

theorem updateFlush_shiftTime (now c : Nat) (b : Button_t) :
    updateFlush ((now + c) % 4294967296) (b.shiftTime c) =
      ((updateFlush now b).1.shiftTime c, (updateFlush now b).2) := by
  simp only [updateFlush, Button_t.shiftTime, sub32_shift]
  split_ifs <;> rfl

theorem updateSwitch_shiftTime (now c : Nat) (cs : Bool) (b : Button_t) :
    updateSwitch ((now + c) % 4294967296) cs (b.shiftTime c) =
      ((updateSwitch now cs b).1.shiftTime c, (updateSwitch now cs b).2) := by
  unfold updateSwitch
  show (if b.State = BUTTON_STATE_START then _ else if b.State = BUTTON_STATE_DEBOUNCE then _
    else if b.State = BUTTON_STATE_PRESSED then _ else _) = _
  split_ifs
  · exact caseStart_shiftTime now c cs b
  · exact caseDebounce_shiftTime now c cs b
  · unfold casePressed
    show (if cs = false then _ else if b.Mode = BUTTON_Mode_Hold then _ else _) = _
    rw [releaseToggle_shiftTime, repeatHold_shiftTime]
    split_ifs <;> rfl
  · rfl

/-- C19: for every 32-bit start time `s` and every elapsed time `e < 2^32`, with
`now = (s + e) mod 2^32` the difference the update computes, `(now - s) mod 2^32`, is `e`,
whether or not the counter wrapped in between.  Hence every timing test of the update
step is unaffected by a wrap: advancing `now` and all stored tick values by any amount
`c` on the 32-bit counter gives the same events and the same object, with its tick values
advanced by `c`. -/
theorem tick_difference_survives_wrap :
    (∀ s e, s < 4294967296 → e < 4294967296 → sub32 ((s + e) % 4294967296) s = e) ∧
    (∀ (b : Button_t) (now c : Nat) (cs : Bool),
      updateButton ((now + c) % 4294967296) cs (b.shiftTime c) =
        ((updateButton now cs b).1.shiftTime c, (updateButton now cs b).2)) := by
  refine ⟨fun s e hs he => ?_, fun b now c cs => ?_⟩
  · unfold sub32
    omega
  · unfold updateButton
    rw [updateSwitch_shiftTime]
    simp only [updateFlush_shiftTime]

/-- Witness for C19: a press started 100 ms before the counter wraps and seen 150 ms
later has the difference 150. -/
theorem tick_difference_survives_wrap_witness :
    sub32 ((4294967196 + 150) % 4294967296) 4294967196 = 150 :=
  tick_difference_survives_wrap.1 4294967196 150 (by decide) (by decide)

/-! ### C22: one step from Debounce -/

theorem updateSwitch_debounce (now : Nat) (cs : Bool) (b : Button_t)
    (hs : b.State = BUTTON_STATE_DEBOUNCE) :
    updateSwitch now cs b = caseDebounce now cs b := by
  unfold updateSwitch
  rw [if_neg (by rw [hs]; decide), if_pos hs]

/-- C23: when a Toggle button with a handler, in Pressed with a first click pending, reads
the pin released at a tick with `now - FirstClickReleaseTime > DoubleClickTime`, the step
emits exactly one event, the duration band of the stored `LastPressDuration` (the previous
press), and ends with `FirstClickDone = 1`, `FirstClickReleaseTime = now`,
`LastPressDuration = now - StartTime`, state Start and `RepeatStarted = 0`, every other
field being unchanged. -/
theorem release_after_gap_reports_previous_press (btn : Button_t) (now : Nat)
    (hMode : btn.Mode = BUTTON_Mode_Toggle) (hHandler : btn.Handler ≠ HandlerPtr.null)
    (hState : btn.State = BUTTON_STATE_PRESSED) (hPending : btn.FirstClickDone ≠ 0)
    (hGap : btn.DoubleClickTime < sub32 now btn.FirstClickReleaseTime) :
    updateButton now false btn =
      ({ btn with FirstClickDone := 1, FirstClickReleaseTime := now,
                  LastPressDuration := sub32 now btn.StartTime,
                  State := BUTTON_STATE_START, RepeatStarted := 0 },
       [durationBand btn.LastPressDuration btn.NormalTime btn.LongTime btn.VeryLongTime]) := by
  have hNot : ¬ sub32 now btn.FirstClickReleaseTime ≤ btn.DoubleClickTime := Nat.not_le.mpr hGap
  simp [updateButton, updateSwitch, casePressed, releaseToggle, updateFlush, durationBand,
    hState, hMode, hHandler, hPending, hNot, sub32_self]

/-- Witness for C23: first click of 250 ms released at 250, second press from 300; the
release at 500 is past the 100 ms gap and reports OnPressed for the first click, leaving
the second click (200 ms) pending. -/
theorem release_after_gap_reports_previous_press_witness :
    (updateButton 500 false (updateButton 350 true toggleSecondPress).1).2
      = [BUTTON_PressType_OnPressed] ∧
    (updateButton 500 false (updateButton 350 true toggleSecondPress).1).1.LastPressDuration
      = 200 :=
  have h := release_after_gap_reports_previous_press
    (updateButton 350 true toggleSecondPress).1 500
    (by decide) (by decide) (by decide) (by decide) (by decide)
  ⟨congrArg Prod.snd h, congrArg (fun x => x.1.LastPressDuration) h⟩

/-! ### C25: the state changes of one step -/

theorem caseStart_state (now : Nat) (cs : Bool) (b : Button_t) :
    (caseStart now cs b).1.State = b.State ∨
      (caseStart now cs b).1.State = BUTTON_STATE_DEBOUNCE := by
  unfold caseStart
  split_ifs
  · exact Or.inr rfl
  · exact Or.inl rfl

theorem caseDebounce_state (now : Nat) (cs : Bool) (b : Button_t) :
    (caseDebounce now cs b).1.State = b.State ∨
      (caseDebounce now cs b).1.State = BUTTON_STATE_PRESSED ∨
      (caseDebounce now cs b).1.State = BUTTON_STATE_START := by
  unfold caseDebounce
  by_cases h1 : sub32 now b.StartTime ≥ b.DebounceTime
  · rw [if_pos h1]
    by_cases h2 : cs = true
    · rw [if_pos h2]
      exact Or.inr (Or.inl rfl)
    · rw [if_neg h2]
      exact Or.inr (Or.inr rfl)
  · rw [if_neg h1]
    exact Or.inl rfl

theorem repeatHold_state (now : Nat) (b : Button_t) :
    (repeatHold now b).1.State = b.State := by
  unfold repeatHold
  split_ifs <;> rfl

theorem casePressed_state (now : Nat) (cs : Bool) (b : Button_t) :
    (casePressed now cs b).1.State = b.State ∨
      (casePressed now cs b).1.State = BUTTON_STATE_START := by
  unfold casePressed
  split_ifs
  · exact Or.inr rfl
  · exact Or.inl (repeatHold_state now b)
  · exact Or.inl rfl

/-- C25: for every button whose state is Start, Debounce or Pressed and every input, one
update step leaves the state unchanged or changes it along Start->Debounce,
Debounce->Pressed, Debounce->Start or Pressed->Start; in particular no step goes from
Start to Pressed or from Pressed to Debounce. -/
theorem step_follows_transition_graph (btn : Button_t) (now : Nat) (cs : Bool)
    (hState : btn.State = BUTTON_STATE_START ∨ btn.State = BUTTON_STATE_DEBOUNCE ∨
      btn.State = BUTTON_STATE_PRESSED) :
    ((updateButton now cs btn).1.State = btn.State ∨
      (btn.State = BUTTON_STATE_START ∧
        (updateButton now cs btn).1.State = BUTTON_STATE_DEBOUNCE) ∨
      (btn.State = BUTTON_STATE_DEBOUNCE ∧
        (updateButton now cs btn).1.State = BUTTON_STATE_PRESSED) ∨
      (btn.State = BUTTON_STATE_DEBOUNCE ∧
        (updateButton now cs btn).1.State = BUTTON_STATE_START) ∨
      (btn.State = BUTTON_STATE_PRESSED ∧
        (updateButton now cs btn).1.State = BUTTON_STATE_START)) ∧
    ¬ (btn.State = BUTTON_STATE_START ∧
        (updateButton now cs btn).1.State = BUTTON_STATE_PRESSED) ∧
    ¬ (btn.State = BUTTON_STATE_PRESSED ∧
        (updateButton now cs btn).1.State = BUTTON_STATE_DEBOUNCE) := by
  have hfs : (updateButton now cs btn).1.State = (updateSwitch now cs btn).1.State :=
    (updateFlush_state now (updateSwitch now cs btn).1).1
  rw [hfs]
  rcases hState with h | h | h
  · have hsw : updateSwitch now cs btn = caseStart now cs btn := by
      unfold updateSwitch
      rw [if_pos h]
    rw [hsw]
    rcases caseStart_state now cs btn with h1 | h1
    · refine ⟨Or.inl h1, ?_, ?_⟩
      · rw [h1, h]; rintro ⟨_, h2⟩; exact absurd h2 (by decide)
      · rw [h]; rintro ⟨h2, _⟩; exact absurd h2 (by decide)
    · refine ⟨Or.inr (Or.inl ⟨h, h1⟩), ?_, ?_⟩
      · rw [h1]; rintro ⟨_, h2⟩; exact absurd h2 (by decide)
      · rw [h]; rintro ⟨h2, _⟩; exact absurd h2 (by decide)
  · rw [updateSwitch_debounce now cs btn h]
    have hn1 : ¬ (btn.State = BUTTON_STATE_START ∧
        (caseDebounce now cs btn).1.State = BUTTON_STATE_PRESSED) := by
      rw [h]; rintro ⟨h2, _⟩; exact absurd h2 (by decide)
    have hn2 : ¬ (btn.State = BUTTON_STATE_PRESSED ∧
        (caseDebounce now cs btn).1.State = BUTTON_STATE_DEBOUNCE) := by
      rw [h]; rintro ⟨h2, _⟩; exact absurd h2 (by decide)
    rcases caseDebounce_state now cs btn with h1 | h1 | h1
    · exact ⟨Or.inl h1, hn1, hn2⟩
    · exact ⟨Or.inr (Or.inr (Or.inl ⟨h, h1⟩)), hn1, hn2⟩
    · exact ⟨Or.inr (Or.inr (Or.inr (Or.inl ⟨h, h1⟩))), hn1, hn2⟩
  · have hsw : updateSwitch now cs btn = casePressed now cs btn := by
      unfold updateSwitch
      rw [if_neg (by rw [h]; decide), if_neg (by rw [h]; decide), if_pos h]
    rw [hsw]
    have hn1 : ¬ (btn.State = BUTTON_STATE_START ∧
        (casePressed now cs btn).1.State = BUTTON_STATE_PRESSED) := by
      rw [h]; rintro ⟨h2, _⟩; exact absurd h2 (by decide)
    rcases casePressed_state now cs btn with h1 | h1
    · refine ⟨Or.inl h1, hn1, ?_⟩
      rw [h1, h]; rintro ⟨_, h2⟩; exact absurd h2 (by decide)
    · refine ⟨Or.inr (Or.inr (Or.inr (Or.inr ⟨h, h1⟩))), hn1, ?_⟩
      rw [h1]; rintro ⟨_, h2⟩; exact absurd h2 (by decide)

/-- Witness for C25: a registered Toggle button in Start with the pin active goes to
Debounce, not to Pressed, even though its debounce window was set to 0. -/
theorem step_follows_transition_graph_witness :
    ¬ (toggleButtonNoDebounce.State = BUTTON_STATE_START ∧
        (updateButton 5 true toggleButtonNoDebounce).1.State = BUTTON_STATE_PRESSED) :=
  (step_follows_transition_graph toggleButtonNoDebounce 5 true (Or.inl (by decide))).2.1

/-! ### C28: at most one handler call per step -/

theorem updateFlush_events_le_one (now : Nat) (b : Button_t) :
    (updateFlush now b).2.length ≤ 1 := by
  unfold updateFlush
  split_ifs <;> simp

theorem updateSwitch_events_le_one (now : Nat) (cs : Bool) (b : Button_t) :
    (updateSwitch now cs b).2.length ≤ 1 := by
  unfold updateSwitch
  split_ifs
  · unfold caseStart
    split_ifs <;> simp
  · unfold caseDebounce
    split_ifs <;> simp
  · unfold casePressed
    split_ifs
    · show (releaseToggle now b).2.length ≤ 1
      unfold releaseToggle
      split_ifs <;> simp
    · unfold repeatHold
      split_ifs <;> simp
    · simp
  · simp

theorem releaseToggle_emits (now : Nat) (b : Button_t)
    (h : (releaseToggle now b).2 ≠ []) :
    (releaseToggle now b).1.FirstClickDone = 0 ∨
      (releaseToggle now b).1.FirstClickReleaseTime = now := by
  unfold releaseToggle at h ⊢
  by_cases h1 : b.Mode = BUTTON_Mode_Toggle ∧ b.Handler ≠ HandlerPtr.null
  · rw [if_pos h1] at h ⊢
    by_cases h2 : b.FirstClickDone ≠ 0
    · rw [if_pos h2] at h ⊢
      by_cases h3 : sub32 now b.FirstClickReleaseTime ≤ b.DoubleClickTime
      · rw [if_pos h3]
        exact Or.inl rfl
      · rw [if_neg h3]
        exact Or.inr rfl
    · rw [if_neg h2] at h
      exact absurd rfl h
  · rw [if_neg h1] at h
    exact absurd rfl h

/-- C28: for every button content (any mode, any state value), pin reading and tick
value, one update step passes at most one event to the handler: whenever the state switch
emits, the deferred flush of the same step emits nothing, and neither emits two events. -/
theorem step_emits_at_most_one_event (btn : Button_t) (now : Nat) (cs : Bool) :
    (updateButton now cs btn).2.length ≤ 1 ∧
    ((updateSwitch now cs btn).2 ≠ [] →
      (updateFlush now (updateSwitch now cs btn).1).2 = []) ∧
    (updateSwitch now cs btn).2.length ≤ 1 ∧
    (updateFlush now (updateSwitch now cs btn).1).2.length ≤ 1 := by
  have hsw := updateSwitch_events_le_one now cs btn
  have hfl := updateFlush_events_le_one now (updateSwitch now cs btn).1
  have hboth : (updateSwitch now cs btn).2 ≠ [] →
      (updateFlush now (updateSwitch now cs btn).1).2 = [] := by
    intro hne
    by_cases hM : btn.Mode = BUTTON_Mode_Toggle
    · by_cases hrel : btn.State = BUTTON_STATE_PRESSED ∧ cs = false
      · obtain ⟨hs, rfl⟩ := hrel
        have hsw2 : updateSwitch now false btn =
            ({ (releaseToggle now btn).1 with State := BUTTON_STATE_START, RepeatStarted := 0 },
             (releaseToggle now btn).2) := by
          unfold updateSwitch
          rw [if_neg (by rw [hs]; decide), if_neg (by rw [hs]; decide), if_pos hs]
          unfold casePressed
          rw [if_pos rfl]
        rw [hsw2] at hne ⊢
        apply congrArg Prod.snd (updateFlush_of_noFlush _)
        intro _ hp
        show sub32 now (releaseToggle now btn).1.FirstClickReleaseTime
          ≤ (releaseToggle now btn).1.DoubleClickTime
        have hp1 : (releaseToggle now btn).1.FirstClickDone ≠ 0 := hp
        have hne1 : (releaseToggle now btn).2 ≠ [] := hne
        rcases releaseToggle_emits now btn hne1 with h0 | h1
        · exact absurd h0 hp1
        · rw [h1, sub32_self]
          exact Nat.zero_le _
      · exact absurd (updateSwitch_toggle_quiet hM hrel) hne
    · have hM1 : (updateSwitch now cs btn).1.Mode ≠ BUTTON_Mode_Toggle := by
        rw [(settings_fields (updateSwitch_settings now cs btn)).1]
        exact hM
      exact congrArg Prod.snd (updateFlush_of_noFlush (fun h => absurd h hM1))
  refine ⟨?_, hboth, hsw, hfl⟩
  show ((updateSwitch now cs btn).2 ++ (updateFlush now (updateSwitch now cs btn).1).2).length ≤ 1
  rw [List.length_append]
  by_cases hne : (updateSwitch now cs btn).2 = []
  · rw [hne]
    simpa using hfl
  · rw [hboth hne]
    simpa using hsw

/-- Witness for C28: in the step where the state switch reports the previous press (the
release at 500 of the second press), the deferred flush emits nothing. -/
theorem step_emits_at_most_one_event_witness :
    (updateFlush 500
      (updateSwitch 500 false (updateButton 350 true toggleSecondPress).1).1).2 = [] ∧
    (updateButton 500 false (updateButton 350 true toggleSecondPress).1).2.length ≤ 1 :=
  have h := step_emits_at_most_one_event (updateButton 350 true toggleSecondPress).1 500 false
  ⟨h.2.1 (by decide), h.1⟩

/-! ### C26: the mode never changes -/

theorem store_load_mode (r : Registry) (p q : Ptr) (f : Button_t → Button_t)
    (hf : ∀ b, (f b).Mode = b.Mode) :
    ((r.store p f).load q).Mode = (r.load q).Mode := by
  cases p with
  | null => rfl
  | other a => rfl
  | slot k =>
    by_cases hq : q = Ptr.slot k
    · subst hq
      by_cases hk : k < r.buttonPool.length
      · rw [store_load_self r k f hk]
        exact hf _
      · have hset : r.buttonPool.set k (f (r.buttonPool.getD k zeroButton)) = r.buttonPool :=
          List.set_eq_of_length_le (Nat.le_of_not_lt hk)
        show ((r.buttonPool.set k _).getD k zeroButton).Mode = _
        rw [hset]
        rfl
    · rw [store_load_other r k f q hq]

theorem updateLoop_mode (now : Nat) (idr : Nat → Nat) (n i : Nat) (r : Registry) (q : Ptr) :
    ((updateLoop now idr i n r).1.load q).Mode = (r.load q).Mode := by
  induction n generalizing i r with
  | zero => rfl
  | succ m ih =>
    unfold updateLoop
    split
    · rename_i k _
      simp only []
      rw [ih]
      exact store_load_mode r (Ptr.slot k) q
        (fun b => (updateButton now (BUTTON_Read idr b) b).1)
        (fun b => (settings_fields (updateButton_settings now (BUTTON_Read idr b) b)).1)
    · rw [ih]

/-- C26: `BUTTON_Update` (one step of one button, and the whole call on the storage) and
the three timing setters never change `Mode`: for every button, pin reading, tick value,
handle and setter arguments, the mode of every pool object after the call equals its mode
before. -/
theorem mode_never_changes :
    (∀ (b : Button_t) (now : Nat) (cs : Bool), (updateButton now cs b).1.Mode = b.Mode) ∧
    (∀ (r : Registry) (now : Nat) (idr : Nat → Nat) (q : Ptr),
      ((BUTTON_Update now idr r).1.load q).Mode = (r.load q).Mode) ∧
    (∀ (r : Registry) (p q : Ptr) (g n l v : Nat),
      ((SetTime_Toggle_mode p g n l v r).load q).Mode = (r.load q).Mode) ∧
    (∀ (r : Registry) (p q : Ptr) (d i : Nat),
      ((SetTime_Hold_mode p d i r).load q).Mode = (r.load q).Mode) ∧
    (∀ (r r1 : Registry) (p q : Ptr) (ms : Nat), Set_DebounceTime p ms r = some r1 →
      (r1.load q).Mode = (r.load q).Mode) := by
  refine ⟨fun b now cs => (settings_fields (updateButton_settings now cs b)).1,
    fun r now idr q => updateLoop_mode now idr r.buttonCount 0 r q, ?_, ?_, ?_⟩
  · intro r p q g n l v
    unfold SetTime_Toggle_mode
    split_ifs
    · rfl
    · exact store_load_mode r p q _ (fun _ => rfl)
  · intro r p q d i
    unfold SetTime_Hold_mode
    split_ifs
    · rfl
    · exact store_load_mode r p q _ (fun _ => rfl)
  · intro r r1 p q ms h
    unfold Set_DebounceTime at h
    split_ifs at h
    simp only [Option.some.injEq] at h
    subst h
    exact store_load_mode r p q _ (fun _ => rfl)

/-- Witness for C26: `Set_DebounceTime(btn, 0)` on a registered Toggle button leaves its
mode Toggle. -/
theorem mode_never_changes_witness :
    ((toggleRegistry.store (Ptr.slot 0) (fun b => { b with DebounceTime := 0 % 256 })).load
      (Ptr.slot 0)).Mode = (toggleRegistry.load (Ptr.slot 0)).Mode :=
  mode_never_changes.2.2.2.2 toggleRegistry _ (Ptr.slot 0) (Ptr.slot 0) 0 rfl

/-! ### C27: an unrecognised state value -/

/-- C27: for every button whose `State` holds a value other than Start, Debounce and
Pressed, the state switch sets the state to Start, changes nothing else and emits no event,
so the state after the step is Start; and, in a registry of the declared shape, the
`BUTTON_Update` call still steps every registered entry once, in order, whatever state
values the objects hold. -/
theorem stray_state_resets_to_start :
    (∀ (btn : Button_t) (now : Nat) (cs : Bool),
      btn.State ≠ BUTTON_STATE_START → btn.State ≠ BUTTON_STATE_DEBOUNCE →
      btn.State ≠ BUTTON_STATE_PRESSED →
      updateSwitch now cs btn = ({ btn with State := BUTTON_STATE_START }, []) ∧
      (updateButton now cs btn).1.State = BUTTON_STATE_START) ∧
    (∀ (r : Registry) (now : Nat) (idr : Nat → Nat), r.wellSized →
      BUTTON_Update now idr r = stepEntries now idr r.registered r) := by
  refine ⟨?_, ?_⟩
  · intro btn now cs h0 h1 h2
    have hsw : updateSwitch now cs btn = ({ btn with State := BUTTON_STATE_START }, []) := by
      unfold updateSwitch
      rw [if_neg h0, if_neg h1, if_neg h2]
    refine ⟨hsw, ?_⟩
    show (updateFlush now (updateSwitch now cs btn).1).1.State = _
    rw [(updateFlush_state now _).1, hsw]
  · intro r now idr hShape
    obtain ⟨_, hLen, hCount⟩ := hShape
    unfold BUTTON_Update Registry.registered
    rw [updateLoop_eq_stepEntries now idr r.buttonCount 0 r (by omega)]
    rfl

/-- Witness for C27: with the first of two buttons holding the state value 7, one
`BUTTON_Update` on a tick where pin 2 is active resets the first object to Start and moves
the second from Start to Debounce. -/
theorem stray_state_resets_to_start_witness :
    (updateButton 5 false (strayStateRegistry.load (Ptr.slot 0))).1.State
      = BUTTON_STATE_START ∧
    BUTTON_Update 5 (fun _ => 2) strayStateRegistry
      = stepEntries 5 (fun _ => 2) strayStateRegistry.registered strayStateRegistry ∧
    ((BUTTON_Update 5 (fun _ => 2) strayStateRegistry).1.load (Ptr.slot 0)).State
      = BUTTON_STATE_START ∧
    ((BUTTON_Update 5 (fun _ => 2) strayStateRegistry).1.load (Ptr.slot 1)).State
      = BUTTON_STATE_DEBOUNCE :=
  ⟨(stray_state_resets_to_start.1 (strayStateRegistry.load (Ptr.slot 0)) 5 false
      (by decide) (by decide) (by decide)).2,
   stray_state_resets_to_start.2 strayStateRegistry 5 (fun _ => 2) (by decide),
   by decide, by decide⟩

/-! ### C24: what precedes the entry into Pressed -/

/-- C24 as stated is false: with the default debounce window of 50 ms, the pin reads active
at 10 (Start to Debounce), inactive at 30 (inside the window, where the reading is not
examined) and active at 60; the tick at 60 moves the button from Debounce to Pressed. -/
theorem unstable_reading_enters_pressed_counterexample :
    toggleButton.State = BUTTON_STATE_START ∧
    (runTicks toggleButton [(10, true)]).1.State = BUTTON_STATE_DEBOUNCE ∧
    (runTicks toggleButton [(10, true), (30, false)]).1.State = BUTTON_STATE_DEBOUNCE ∧
    (runTicks toggleButton [(10, true), (30, false), (60, true)]).1.State
      = BUTTON_STATE_PRESSED := by
  decide

theorem updateButton_state_eq (now : Nat) (cs : Bool) (b : Button_t) :
    (updateButton now cs b).1.State = (updateSwitch now cs b).1.State ∧
    (updateButton now cs b).1.StartTime = (updateSwitch now cs b).1.StartTime :=
  updateFlush_state now (updateSwitch now cs b).1

theorem step_into_debounce (now : Nat) (cs : Bool) (b : Button_t)
    (h : (updateButton now cs b).1.State = BUTTON_STATE_DEBOUNCE) :
    (b.State = BUTTON_STATE_START ∧ cs = true ∧ (updateButton now cs b).1.StartTime = now) ∨
    (b.State = BUTTON_STATE_DEBOUNCE ∧ (updateButton now cs b).1.StartTime = b.StartTime) := by
  rw [(updateButton_state_eq now cs b).1] at h
  rw [(updateButton_state_eq now cs b).2]
  unfold updateSwitch at h ⊢
  by_cases h0 : b.State = BUTTON_STATE_START
  · rw [if_pos h0] at h ⊢
    unfold caseStart at h ⊢
    cases cs with
    | true => exact Or.inl ⟨h0, rfl, rfl⟩
    | false =>
      simp only [Bool.false_eq_true, if_false] at h
      rw [h0] at h
      exact absurd h (by decide)
  · rw [if_neg h0] at h ⊢
    by_cases h1 : b.State = BUTTON_STATE_DEBOUNCE
    · rw [if_pos h1] at h ⊢
      refine Or.inr ⟨h1, ?_⟩
      unfold caseDebounce
      split_ifs <;> rfl
    · rw [if_neg h1] at h
      by_cases h2 : b.State = BUTTON_STATE_PRESSED
      · rw [if_pos h2] at h
        rcases casePressed_state now cs b with hc | hc
        · rw [hc, h2] at h
          exact absurd h (by decide)
        · rw [hc] at h
          exact absurd h (by decide)
      · rw [if_neg h2] at h
        exact absurd h (show ¬ BUTTON_STATE_START = BUTTON_STATE_DEBOUNCE by decide)

theorem step_debounce_to_pressed (now : Nat) (cs : Bool) (b : Button_t)
    (hs : b.State = BUTTON_STATE_DEBOUNCE)
    (h : (updateButton now cs b).1.State = BUTTON_STATE_PRESSED) :
    cs = true ∧ b.DebounceTime ≤ sub32 now b.StartTime := by
  rw [(updateButton_state_eq now cs b).1, updateSwitch_debounce now cs b hs] at h
  unfold caseDebounce at h
  by_cases hge : sub32 now b.StartTime ≥ b.DebounceTime
  · rw [if_pos hge] at h
    cases cs with
    | true => exact ⟨rfl, hge⟩
    | false =>
      simp only [Bool.false_eq_true, if_false] at h
      exact absurd h (by decide)
  · rw [if_neg hge, hs] at h
    exact absurd h (by decide)

theorem staysDebounce_append (b : Button_t) (xs : List (Nat × Bool)) (tick : Nat × Bool) :
    staysDebounce b (xs ++ [tick]) =
      (staysDebounce b xs &&
        decide ((updateButton tick.1 tick.2 (runTicks b xs).1).1.State
          = BUTTON_STATE_DEBOUNCE)) := by
  induction xs generalizing b with
  | nil => simp [staysDebounce, runTicks]
  | cons t rest ih =>
    show (decide _ && staysDebounce (updateButton t.1 t.2 b).1 (rest ++ [tick])) = _
    rw [ih, ← Bool.and_assoc]
    rfl

theorem runTicks_snoc (b : Button_t) (xs : List (Nat × Bool)) (tick : Nat × Bool) :
    (runTicks b (xs ++ [tick])).1 = (updateButton tick.1 tick.2 (runTicks b xs).1).1 := by
  rw [runTicks_append]
  rfl

/-- Every run that starts outside Debounce and ends in Debounce splits at the tick that
moved the button from Start to Debounce: the pin read active at that tick, its tick value
is the recorded `StartTime`, and every later tick of the run left the state Debounce. -/
theorem debounce_origin (btn : Button_t) (hInit : btn.State ≠ BUTTON_STATE_DEBOUNCE)
    (pre : List (Nat × Bool)) :
    (runTicks btn pre).1.State = BUTTON_STATE_DEBOUNCE →
    ∃ (pre0 : List (Nat × Bool)) (t0 : Nat) (mid : List (Nat × Bool)),
      pre = pre0 ++ (t0, true) :: mid ∧
      (runTicks btn pre0).1.State = BUTTON_STATE_START ∧
      (updateButton t0 true (runTicks btn pre0).1).1.State = BUTTON_STATE_DEBOUNCE ∧
      staysDebounce (updateButton t0 true (runTicks btn pre0).1).1 mid = true ∧
      (runTicks btn pre).1.StartTime = t0 := by
  induction pre using List.reverseRecOn with
  | nil =>
    intro h
    exact absurd h hInit
  | append_singleton xs tick ih =>
    intro h
    rw [runTicks_snoc] at h ⊢
    rcases step_into_debounce tick.1 tick.2 (runTicks btn xs).1 h with ⟨h0, hc, hst⟩ | ⟨h1, hst⟩
    · refine ⟨xs, tick.1, [], ?_, h0, ?_, rfl, hst⟩
      · rw [← hc]
      · rw [← hc]
        exact h
    · obtain ⟨pre0, t0, mid, hsplit, hS, hD, hStay, hT⟩ := ih h1
      refine ⟨pre0, t0, mid ++ [tick], ?_, hS, hD, ?_, ?_⟩
      · rw [hsplit]
        simp
      · rw [staysDebounce_append, hStay, Bool.true_and, decide_eq_true_eq]
        have hrun : (runTicks (updateButton t0 true (runTicks btn pre0).1).1 mid).1
            = (runTicks btn xs).1 := by
          rw [hsplit, runTicks_append, runTicks_cons]
        rw [hrun]
        exact h
      · rw [hst, hT]

/-- C24, amended: for every button that starts outside Debounce (BUTTON_Init leaves it in
Start) and every sequence of Update ticks, if the step at tick value `t1` moves the button
from Debounce to Pressed, then the run so far splits at a tick `t0` that found the button
in Start with the pin read active and moved it to Debounce, every tick between the two
left the state Debounce (whatever the pin read), the pin read active at `t1`, and
`DebounceTime ≤ t1 - t0` in 32-bit arithmetic, which is the plain difference when
`t0 ≤ t1 < 2^32`. -/
theorem pressed_entry_follows_debounce_window (btn : Button_t) (pre : List (Nat × Bool))
    (t1 : Nat) (c1 : Bool)
    (hInit : btn.State ≠ BUTTON_STATE_DEBOUNCE)
    (hDebounce : (runTicks btn pre).1.State = BUTTON_STATE_DEBOUNCE)
    (hPressed : (updateButton t1 c1 (runTicks btn pre).1).1.State = BUTTON_STATE_PRESSED) :
    ∃ (pre0 : List (Nat × Bool)) (t0 : Nat) (mid : List (Nat × Bool)),
      pre = pre0 ++ (t0, true) :: mid ∧
      (runTicks btn pre0).1.State = BUTTON_STATE_START ∧
      (updateButton t0 true (runTicks btn pre0).1).1.State = BUTTON_STATE_DEBOUNCE ∧
      staysDebounce (updateButton t0 true (runTicks btn pre0).1).1 mid = true ∧
      c1 = true ∧
      btn.DebounceTime ≤ sub32 t1 t0 ∧
      (t0 ≤ t1 → t1 < 4294967296 → btn.DebounceTime ≤ t1 - t0) := by
  obtain ⟨pre0, t0, mid, hsplit, hS, hD, hStay, hT⟩ := debounce_origin btn hInit pre hDebounce
  obtain ⟨hc, hge⟩ := step_debounce_to_pressed t1 c1 (runTicks btn pre).1 hDebounce hPressed
  rw [hT, (settings_fields (runTicks_settings pre btn)).2.2.1] at hge
  refine ⟨pre0, t0, mid, hsplit, hS, hD, hStay, hc, hge, ?_⟩
  intro h01 hlt
  rw [sub32_eq_sub h01 hlt] at hge
  exact hge

/-- Witness for C24: the run active at 10, inactive at 30, active at 60 on the default
Toggle button (debounce window 50). -/
theorem pressed_entry_follows_debounce_window_witness :
    ∃ (pre0 : List (Nat × Bool)) (t0 : Nat) (mid : List (Nat × Bool)),
      [(10, true), (30, false)] = pre0 ++ (t0, true) :: mid ∧
      (runTicks toggleButton pre0).1.State = BUTTON_STATE_START ∧
      (updateButton t0 true (runTicks toggleButton pre0).1).1.State = BUTTON_STATE_DEBOUNCE ∧
      staysDebounce (updateButton t0 true (runTicks toggleButton pre0).1).1 mid = true ∧
      true = true ∧
      toggleButton.DebounceTime ≤ sub32 60 t0 ∧
      (t0 ≤ 60 → 60 < 4294967296 → toggleButton.DebounceTime ≤ 60 - t0) :=
  pressed_entry_follows_debounce_window toggleButton [(10, true), (30, false)] 60 true
    (by decide) (by decide) (by decide)

/-! ### C29: a failing registration after a removal -/

/-- C29 fails in a reachable state: after `A = BUTTON_Init(.., pin 1, ..)`,
`B = BUTTON_Init(.., pin 2, ..)` and `BUTTON_Deinit(A)`, the handle `B = &buttonPool[1]`
is the one registered handle and `buttonCount` is 1.  A `BUTTON_Init` call with the
unrecognised mode 2 returns NULL and leaves `buttons[]` and `buttonCount` as they were, but
it has overwritten the pin, active level, debounce window and handler of `*B`. -/
theorem failed_init_overwrites_registered_button :
    (BUTTON_Deinit (Ptr.slot 0) twoButtons).registered = [Ptr.slot 1] ∧
    (BUTTON_Init 3 8 0 2 (HandlerPtr.user 9) (BUTTON_Deinit (Ptr.slot 0) twoButtons)).1
      = Ptr.null ∧
    (BUTTON_Init 3 8 0 2 (HandlerPtr.user 9)
      (BUTTON_Deinit (Ptr.slot 0) twoButtons)).2.registered = [Ptr.slot 1] ∧
    ((BUTTON_Deinit (Ptr.slot 0) twoButtons).load (Ptr.slot 1)).GPIOx = 1 ∧
    ((BUTTON_Deinit (Ptr.slot 0) twoButtons).load (Ptr.slot 1)).GPIO_Pin = 2 ∧
    ((BUTTON_Deinit (Ptr.slot 0) twoButtons).load (Ptr.slot 1)).ActiveState = 1 ∧
    ((BUTTON_Deinit (Ptr.slot 0) twoButtons).load (Ptr.slot 1)).Handler = HandlerPtr.user 2 ∧
    ((BUTTON_Init 3 8 0 2 (HandlerPtr.user 9)
      (BUTTON_Deinit (Ptr.slot 0) twoButtons)).2.load (Ptr.slot 1)).GPIOx = 3 ∧
    ((BUTTON_Init 3 8 0 2 (HandlerPtr.user 9)
      (BUTTON_Deinit (Ptr.slot 0) twoButtons)).2.load (Ptr.slot 1)).GPIO_Pin = 8 ∧
    ((BUTTON_Init 3 8 0 2 (HandlerPtr.user 9)
      (BUTTON_Deinit (Ptr.slot 0) twoButtons)).2.load (Ptr.slot 1)).ActiveState = 0 ∧
    ((BUTTON_Init 3 8 0 2 (HandlerPtr.user 9)
      (BUTTON_Deinit (Ptr.slot 0) twoButtons)).2.load (Ptr.slot 1)).Handler
        = HandlerPtr.user 9 := by
  decide

end Button
